import Mathlib

/-! # multisense_ros: the dynamic-reconfigure component

A shallow embedding of `multisense_ros/src/reconfigure.cpp`.

* The sensor driver (`crl::multisense::Channel`) is an arbitrary deterministic
  machine over a state type `σ`; every driver call returns a status, its
  out-parameters and the next driver state.
* Every function of `Reconfigure` returns the new object state, the new driver
  state and the list of driver calls it issued, in order.
* `double`/`float` values are kept abstract: the carrier `F` and the handful of
  floating-point operations the source performs are parameters (`FloatOps`).
* `uint32_t` values are naturals, `int32_t`/`int` values are integers; the
  casts of the source are the explicit functions `toInt32` and `toUInt32`.
-/

namespace multisense_ros

/-! ## Machine integers -/

/-- The cast `static_cast<int32_t>(u)` of an unsigned 32-bit value. -/
def toInt32 (u : Nat) : Int :=
  if u % 2 ^ 32 < 2 ^ 31 then ((u % 2 ^ 32 : Nat) : Int)
  else ((u % 2 ^ 32 : Nat) : Int) - 2 ^ 32

/-- The implicit conversion of an `int` to `uint32_t`. -/
def toUInt32 (i : Int) : Nat :=
  (i % 2 ^ 32).toNat

/-- The values an `int` can hold. -/
def InInt32 (i : Int) : Prop :=
  -(2 ^ 31) ≤ i ∧ i < 2 ^ 31

instance (i : Int) : Decidable (InInt32 i) := by
  unfold InInt32; infer_instance

/-! ## Driver boundary -/

/-- Modelled from the spec: the status codes of `crl::multisense::Status` are
declared in a header outside this repository. The source only ever compares a
status with `Status_Ok` and `Status_Unsupported`; every other code is `other`. -/
inductive Status where
  | Ok
  | Unsupported
  | other (code : Int)
  deriving DecidableEq, Repr

/-- Modelled from the spec: the enumeration `system::DeviceInfo::IMAGER_TYPE_*`
is declared in a header outside this repository. The four case labels of the
constructor's `switch` are distinct enumerators; every other value is
`unknown`. -/
inductive ImagerType where
  | CMV2000_GREY
  | CMV2000_COLOR
  | CMV4000_GREY
  | CMV4000_COLOR
  | unknown (raw : Nat)
  deriving DecidableEq, Repr

/-- The part of `system::VersionInfo` that the constructor reads. -/
structure VersionInfo where
  sensorFirmwareVersion : Nat
  deriving DecidableEq, Repr

/-- The part of `system::DeviceInfo` that the constructor reads. -/
structure DeviceInfo where
  imagerType : ImagerType
  deriving DecidableEq, Repr

/-- One row of the sensor's table of supported modes (`system::DeviceMode`). -/
structure DeviceMode where
  width : Nat
  height : Nat
  disparities : Nat
  deriving DecidableEq, Repr

/-- The fields of `image::Config` that the source reads or writes. -/
structure ImageConfig (F : Type) where
  width : Nat
  height : Nat
  disparities : Nat
  fps : F
  gain : F
  exposure : F
  autoExposure : Bool
  autoExposureMax : F
  autoExposureDecay : Int
  autoExposureThresh : F
  whiteBalanceRed : F
  whiteBalanceBlue : F
  autoWhiteBalance : Bool
  autoWhiteBalanceDecay : Int
  autoWhiteBalanceThresh : F
  deriving DecidableEq, Repr

/-- The type `lighting::Config`, as far as the source sets it. -/
structure LightingConfig (F : Type) where
  flash : Bool
  dutyCycle : F
  deriving DecidableEq, Repr

/-- The type `imu::Config`: one sensor of the IMU. -/
structure ImuConfig where
  name : String
  enabled : Bool
  rateTableIndex : Nat
  rangeTableIndex : Nat
  deriving DecidableEq, Repr

/-- The floating-point operations the source performs, over an abstract
carrier of floating-point values. -/
structure FloatOps (F : Type) where
  /-- The product of two values. -/
  mul : F → F → F
  /-- The literal `0.0`. -/
  lit_0 : F
  /-- The literal `100.0`. -/
  lit_100 : F
  /-- The literal `1e6`. -/
  lit_1e6 : F
  /-- The constant `radiansPerSecondToRpm = 9.54929659643`. -/
  radiansPerSecondToRpm : F

/-- The desired state delivered by dynamic reconfigure (the template argument
`T` of `configureCamera` and `configureImu`). The schemas without an IMU have
no IMU fields; the functions that handle them never read these. -/
structure DesiredConfig (F : Type) where
  resolution : String
  fps : F
  gain : F
  exposure_time : F
  auto_exposure : Bool
  auto_exposure_max_time : F
  auto_exposure_decay : Int
  auto_exposure_thresh : F
  white_balance_red : F
  white_balance_blue : F
  auto_white_balance : Bool
  auto_white_balance_decay : Int
  auto_white_balance_thresh : F
  motor_speed : F
  lighting : Bool
  flash : Bool
  led_duty_cycle : F
  network_time_sync : Bool
  accelerometer_enabled : Bool
  accelerometer_rate : Int
  accelerometer_range : Int
  gyroscope_enabled : Bool
  gyroscope_rate : Int
  gyroscope_range : Int
  magnetometer_enabled : Bool
  magnetometer_rate : Int
  magnetometer_range : Int
  imu_samples_per_message : Int

/-- The sensor driver `Channel* driver_`: each operation takes the driver
state and its arguments, and returns its status, its out-parameters and the
next driver state. -/
structure Channel (F σ : Type) where
  getVersionInfo : σ → Status × VersionInfo × σ
  getDeviceInfo : σ → Status × DeviceInfo × σ
  getDeviceModes : σ → Status × List DeviceMode × σ
  getImageConfig : σ → Status × ImageConfig F × σ
  setImageConfig : σ → ImageConfig F → Status × σ
  getEnabledStreams : σ → Status × Nat × σ
  stopStreams : σ → Nat → Status × σ
  startStreams : σ → Nat → Status × σ
  setMotorSpeed : σ → F → Status × σ
  setLightingConfig : σ → LightingConfig F → Status × σ
  networkTimeSynchronization : σ → Bool → σ
  getImuConfig : σ → Status × Nat × List ImuConfig × σ
  setImuConfig : σ → Bool → Nat → List ImuConfig → Status × σ

/-- One operation issued at the driver boundary, with its arguments and what
the driver answered. `resolutionChangeCallback` is the invocation of the
registered `resolution_change_callback_`. -/
inductive Call (F : Type) where
  | getVersionInfo (status : Status)
  | getDeviceInfo (status : Status)
  | getDeviceModes (status : Status)
  | getImageConfig (status : Status)
  | getEnabledStreams (streams : Nat) (status : Status)
  | stopStreams (streams : Nat) (status : Status)
  | setImageConfig (cfg : ImageConfig F) (status : Status)
  | resolutionChangeCallback
  | startStreams (streams : Nat) (status : Status)
  | setMotorSpeed (rpm : F) (status : Status)
  | setLightingConfig (leds : LightingConfig F) (status : Status)
  | networkTimeSynchronization (enabled : Bool)
  | getImuConfig (status : Status)
  | setImuConfig (storeInFlash : Bool) (samplesPerMessage : Nat)
      (changed : List ImuConfig) (status : Status)
  deriving DecidableEq, Repr

/-- The operation a call is an instance of. -/
inductive CallKind where
  | getVersionInfo
  | getDeviceInfo
  | getDeviceModes
  | getImageConfig
  | getEnabledStreams
  | stopStreams
  | setImageConfig
  | resolutionChangeCallback
  | startStreams
  | setMotorSpeed
  | setLightingConfig
  | networkTimeSynchronization
  | getImuConfig
  | setImuConfig
  deriving DecidableEq, Repr

/-- The operation of a call. -/
def Call.kind {F : Type} : Call F → CallKind
  | Call.getVersionInfo _ => CallKind.getVersionInfo
  | Call.getDeviceInfo _ => CallKind.getDeviceInfo
  | Call.getDeviceModes _ => CallKind.getDeviceModes
  | Call.getImageConfig _ => CallKind.getImageConfig
  | Call.getEnabledStreams _ _ => CallKind.getEnabledStreams
  | Call.stopStreams _ _ => CallKind.stopStreams
  | Call.setImageConfig _ _ => CallKind.setImageConfig
  | Call.resolutionChangeCallback => CallKind.resolutionChangeCallback
  | Call.startStreams _ _ => CallKind.startStreams
  | Call.setMotorSpeed _ _ => CallKind.setMotorSpeed
  | Call.setLightingConfig _ _ => CallKind.setLightingConfig
  | Call.networkTimeSynchronization _ => CallKind.networkTimeSynchronization
  | Call.getImuConfig _ => CallKind.getImuConfig
  | Call.setImuConfig _ _ _ _ => CallKind.setImuConfig

/-- The calls of operation `k` among `calls`, in order. -/
def issued {F : Type} (k : CallKind) (calls : List (Call F)) : List (Call F) :=
  calls.filter (fun c => decide (c.kind = k))

/-! ## The object -/

/-- The data members of `Reconfigure`. A server handle is `true` when the
shared pointer holds a server (with its callback set) and `false` when it is
empty. The members `driver_` and `resolution_change_callback_` never change
and are arguments of the member functions. -/
structure Reconfigure where
  device_modes_ : List DeviceMode
  imu_samples_per_message_ : Nat
  imu_configs_ : List ImuConfig
  server_sl_bm_cmv2000_ : Bool
  server_sl_bm_cmv2000_imu_ : Bool
  server_sl_bm_cmv4000_ : Bool
  server_sl_bm_cmv4000_imu_ : Bool
  server_sl_sgm_cmv2000_imu_ : Bool
  server_sl_sgm_cmv4000_imu_ : Bool
  lighting_supported_ : Bool
  motor_supported_ : Bool
  deriving DecidableEq, Repr

/-- The member initialiser list of the constructor. -/
def Reconfigure.init : Reconfigure where
  device_modes_ := []
  imu_samples_per_message_ := 0
  imu_configs_ := []
  server_sl_bm_cmv2000_ := false
  server_sl_bm_cmv2000_imu_ := false
  server_sl_bm_cmv4000_ := false
  server_sl_bm_cmv4000_imu_ := false
  server_sl_sgm_cmv2000_imu_ := false
  server_sl_sgm_cmv4000_imu_ := false
  lighting_supported_ := true
  motor_supported_ := true

/-- The constructor `Reconfigure::Reconfigure` (a member cannot carry the name
of its own structure here, hence `construct`). -/
def Reconfigure.construct {F σ : Type} (driver_ : Channel F σ) (dev : σ) :
    Reconfigure × σ × List (Call F) :=
  let self := Reconfigure.init
  let v := driver_.getVersionInfo dev
  if v.1 ≠ Status.Ok then
    (self, v.2.2, [Call.getVersionInfo v.1])
  else
    let d := driver_.getDeviceInfo v.2.2
    let calls := [Call.getVersionInfo v.1, Call.getDeviceInfo d.1]
    if d.1 ≠ Status.Ok then
      (self, d.2.2, calls)
    else if v.2.1.sensorFirmwareVersion ≤ 0x0202 then
      match d.2.1.imagerType with
      | ImagerType.CMV2000_GREY | ImagerType.CMV2000_COLOR =>
        ({ self with server_sl_bm_cmv2000_ := true }, d.2.2, calls)
      | ImagerType.CMV4000_GREY | ImagerType.CMV4000_COLOR =>
        ({ self with server_sl_bm_cmv4000_ := true }, d.2.2, calls)
      | ImagerType.unknown _ => (self, d.2.2, calls)
    else if v.2.1.sensorFirmwareVersion < 0x0300 then
      match d.2.1.imagerType with
      | ImagerType.CMV2000_GREY | ImagerType.CMV2000_COLOR =>
        ({ self with server_sl_bm_cmv2000_imu_ := true }, d.2.2, calls)
      | ImagerType.CMV4000_GREY | ImagerType.CMV4000_COLOR =>
        ({ self with server_sl_bm_cmv4000_imu_ := true }, d.2.2, calls)
      | ImagerType.unknown _ => (self, d.2.2, calls)
    else
      match d.2.1.imagerType with
      | ImagerType.CMV2000_GREY | ImagerType.CMV2000_COLOR =>
        ({ self with server_sl_sgm_cmv2000_imu_ := true }, d.2.2, calls)
      | ImagerType.CMV4000_GREY | ImagerType.CMV4000_COLOR =>
        ({ self with server_sl_sgm_cmv4000_imu_ := true }, d.2.2, calls)
      | ImagerType.unknown _ => (self, d.2.2, calls)

/-- The six configuration schemas, one per server member. -/
inductive Schema where
  | sl_bm_cmv2000
  | sl_bm_cmv2000_imu
  | sl_bm_cmv4000
  | sl_bm_cmv4000_imu
  | sl_sgm_cmv2000_imu
  | sl_sgm_cmv4000_imu
  deriving DecidableEq, Repr

/-- The schemas whose server handle is not empty, in declaration order. -/
def Reconfigure.installed (self : Reconfigure) : List Schema :=
  (if self.server_sl_bm_cmv2000_ then [Schema.sl_bm_cmv2000] else []) ++
  (if self.server_sl_bm_cmv2000_imu_ then [Schema.sl_bm_cmv2000_imu] else []) ++
  (if self.server_sl_bm_cmv4000_ then [Schema.sl_bm_cmv4000] else []) ++
  (if self.server_sl_bm_cmv4000_imu_ then [Schema.sl_bm_cmv4000_imu] else []) ++
  (if self.server_sl_sgm_cmv2000_imu_ then [Schema.sl_sgm_cmv2000_imu] else []) ++
  (if self.server_sl_sgm_cmv4000_imu_ then [Schema.sl_sgm_cmv4000_imu] else [])

/-! ## Decoding the resolution string -/

/-- The C string `s.c_str()`: the characters before the first NUL. -/
def c_str (s : String) : List Char :=
  s.toList.takeWhile (fun c => c != Char.ofNat 0)

/-- The predicate `isspace` of the C locale. -/
def isspace (c : Char) : Bool :=
  c == ' ' || c == '\t' || c == '\n' || c == '\r' || c == Char.ofNat 11 || c == Char.ofNat 12

/-- The value of a string of decimal digits, most significant first. -/
def digitsValue (ds : List Char) : Nat :=
  ds.foldl (fun acc c => 10 * acc + (c.toNat - '0'.toNat)) 0

/-- The value the conversion `%d` stores for the mathematical value `v`: the
`long` that `strtol` yields (clamped to 64 bits) truncated to `int`. For a
value that an `int` can hold this is the value itself. -/
def storeInt (v : Int) : Int :=
  let clamped : Int := if v < -(2 ^ 63) then -(2 ^ 63) else if 2 ^ 63 - 1 < v then 2 ^ 63 - 1 else v
  toInt32 (toUInt32 clamped)

/-- The conversion `%d` of `sscanf`: skip white space, read an optional sign
and at least one decimal digit. Returns the stored value and the rest of the
input, or `none` on a matching failure. -/
def scanInt (input : List Char) : Option (Int × List Char) :=
  let s := input.dropWhile isspace
  let signed : Bool × List Char :=
    match s with
    | '-' :: r => (true, r)
    | '+' :: r => (false, r)
    | _ => (false, s)
  let ds := signed.2.takeWhile Char.isDigit
  let r := signed.2.dropWhile Char.isDigit
  if ds.isEmpty then none
  else
    let v : Int := digitsValue ds
    some (storeInt (if signed.1 then -v else v), r)

/-- What `sscanf(str, "%dx%dx%d", &width, &height, &disparities)` yields: its
return value (the number of conversions stored, or `-1` for `EOF` when the
input ends before the first conversion) and the three variables, a variable
that was not stored being left at `0`. -/
structure ScanResult where
  count : Int
  width : Int
  height : Int
  disparities : Int
  deriving DecidableEq, Repr

/-- The call `sscanf(str, "%dx%dx%d", ...)` on the characters `str`. -/
def sscanf_dxdxd (str : List Char) : ScanResult :=
  match scanInt str with
  | none =>
    if (str.dropWhile isspace).isEmpty then ⟨-1, 0, 0, 0⟩ else ⟨0, 0, 0, 0⟩
  | some (w, r1) =>
    match r1 with
    | 'x' :: r2 =>
      match scanInt r2 with
      | none => ⟨1, w, 0, 0⟩
      | some (h, r3) =>
        match r3 with
        | 'x' :: r4 =>
          match scanInt r4 with
          | none => ⟨2, w, h, 0⟩
          | some (d, _) => ⟨3, w, h, d⟩
        | _ => ⟨2, w, h, 0⟩
    | _ => ⟨1, w, 0, 0⟩

/-! ## `changeResolution` -/

/-- The loop of `changeResolution` that looks the requested resolution up in
`device_modes_`. -/
def supportedMode (modes : List DeviceMode) (width height disparities : Int) : Bool :=
  modes.any (fun m =>
    decide (width = toInt32 m.width ∧ height = toInt32 m.height ∧
      disparities = toInt32 m.disparities))

/-- The setters `cfg.setResolution(width, height); cfg.setDisparities(disparities)`. -/
def ImageConfig.setResolution {F : Type} (cfg : ImageConfig F)
    (width height disparities : Int) : ImageConfig F :=
  { cfg with width := toUInt32 width, height := toUInt32 height,
             disparities := toUInt32 disparities }

/-- What `changeResolution` leaves behind: its return value, the config passed
by reference, the object, the driver state and the calls issued. -/
structure ChangeResult (F σ : Type) where
  changed : Bool
  cfg : ImageConfig F
  self : Reconfigure
  dev : σ
  calls : List (Call F)

/-- The helper `Reconfigure::changeResolution`. The driver fills
`device_modes_` by reference, so the member holds what the driver left there
whatever status the query returned. -/
def Reconfigure.changeResolution {F σ : Type} (driver_ : Channel F σ)
    (self : Reconfigure) (dev : σ) (cfg : ImageConfig F)
    (width height disparities : Int) : ChangeResult F σ :=
  if width = toInt32 cfg.width ∧ height = toInt32 cfg.height ∧
      disparities = toInt32 cfg.disparities then
    ⟨false, cfg, self, dev, []⟩
  else if self.device_modes_.isEmpty then
    let q := driver_.getDeviceModes dev
    let self1 := { self with device_modes_ := q.2.1 }
    if q.1 ≠ Status.Ok then
      ⟨false, cfg, self1, q.2.2, [Call.getDeviceModes q.1]⟩
    else if supportedMode self1.device_modes_ width height disparities = false then
      ⟨false, cfg, self1, q.2.2, [Call.getDeviceModes q.1]⟩
    else
      ⟨true, cfg.setResolution width height disparities, self1, q.2.2,
        [Call.getDeviceModes q.1]⟩
  else if supportedMode self.device_modes_ width height disparities = false then
    ⟨false, cfg, self, dev, []⟩
  else
    ⟨true, cfg.setResolution width height disparities, self, dev, []⟩

/-! ## `configureCamera` -/

/-- The block "Set all other image config from dynamic reconfigure". -/
def applyImageSettings {F : Type} (fl : FloatOps F) (config : DesiredConfig F)
    (cfg : ImageConfig F) : ImageConfig F :=
  { cfg with
    fps := config.fps
    gain := config.gain
    exposure := fl.mul config.exposure_time fl.lit_1e6
    autoExposure := config.auto_exposure
    autoExposureMax := fl.mul config.auto_exposure_max_time fl.lit_1e6
    autoExposureDecay := config.auto_exposure_decay
    autoExposureThresh := config.auto_exposure_thresh
    whiteBalanceRed := config.white_balance_red
    whiteBalanceBlue := config.white_balance_blue
    autoWhiteBalance := config.auto_white_balance
    autoWhiteBalanceDecay := config.auto_white_balance_decay
    autoWhiteBalanceThresh := config.auto_white_balance_thresh }

/-- The block "Send the desired motor speed". -/
def sendMotorSpeed {F σ : Type} (fl : FloatOps F) (driver_ : Channel F σ)
    (config : DesiredConfig F) (self : Reconfigure) (dev : σ) :
    Reconfigure × σ × List (Call F) :=
  if self.motor_supported_ then
    let rpm := fl.mul fl.radiansPerSecondToRpm config.motor_speed
    let r := driver_.setMotorSpeed dev rpm
    if r.1 ≠ Status.Ok then
      if r.1 = Status.Unsupported then
        ({ self with motor_supported_ := false }, r.2, [Call.setMotorSpeed rpm r.1])
      else
        (self, r.2, [Call.setMotorSpeed rpm r.1])
    else
      (self, r.2, [Call.setMotorSpeed rpm r.1])
  else
    (self, dev, [])

/-- The `lighting::Config leds` that the lighting block fills in. -/
def desiredLeds {F : Type} (fl : FloatOps F) (config : DesiredConfig F) : LightingConfig F :=
  if config.lighting = false then
    { flash := false, dutyCycle := fl.lit_0 }
  else
    { flash := config.flash, dutyCycle := fl.mul config.led_duty_cycle fl.lit_100 }

/-- The block "Send the desired lighting configuration". -/
def sendLighting {F σ : Type} (fl : FloatOps F) (driver_ : Channel F σ)
    (config : DesiredConfig F) (self : Reconfigure) (dev : σ) :
    Reconfigure × σ × List (Call F) :=
  if self.lighting_supported_ then
    let leds := desiredLeds fl config
    let r := driver_.setLightingConfig dev leds
    if r.1 ≠ Status.Ok then
      if r.1 = Status.Unsupported then
        ({ self with lighting_supported_ := false }, r.2, [Call.setLightingConfig leds r.1])
      else
        (self, r.2, [Call.setLightingConfig leds r.1])
    else
      (self, r.2, [Call.setLightingConfig leds r.1])
  else
    (self, dev, [])

/-- The tail of `configureCamera` after the image config has been written and
the streams restarted: motor speed, lighting, network time synchronisation. -/
def sendPeripherals {F σ : Type} (fl : FloatOps F) (driver_ : Channel F σ)
    (config : DesiredConfig F) (self : Reconfigure) (dev : σ) :
    Reconfigure × σ × List (Call F) :=
  let m := sendMotorSpeed fl driver_ config self dev
  let l := sendLighting fl driver_ config m.1 m.2.1
  let dev3 := driver_.networkTimeSynchronization l.2.1 config.network_time_sync
  (l.1, dev3, m.2.2 ++ l.2.2 ++ [Call.networkTimeSynchronization config.network_time_sync])

/-- The block "If we are changing the resolution, let others know about it":
invoke the registered callback, then restart the streams. The callback is any
function of the world outside the object; `none` is an empty
`resolution_change_callback_`. -/
def notifyAndRestart {F σ : Type} (driver_ : Channel F σ)
    (resolution_change_callback_ : Option (σ → σ)) (resolutionChange : Bool)
    (streamsEnabled : Nat) (dev : σ) : σ × List (Call F) :=
  if resolutionChange then
    let hooked : σ × List (Call F) :=
      match resolution_change_callback_ with
      | some f => (f dev, [Call.resolutionChangeCallback])
      | none => (dev, [])
    let r := driver_.startStreams hooked.1 streamsEnabled
    (r.2, hooked.2 ++ [Call.startStreams streamsEnabled r.1])
  else
    (dev, [])

/-- The rest of `configureCamera` from "Set all other image config" on: write
the image config, notify and restart after a resolution change, then the
peripherals. -/
def applyConfig {F σ : Type} (fl : FloatOps F) (driver_ : Channel F σ)
    (resolution_change_callback_ : Option (σ → σ)) (config : DesiredConfig F)
    (self : Reconfigure) (dev : σ) (cfg : ImageConfig F) (resolutionChange : Bool)
    (streamsEnabled : Nat) : Reconfigure × σ × List (Call F) :=
  let cfg1 := applyImageSettings fl config cfg
  let w := driver_.setImageConfig dev cfg1
  let n := notifyAndRestart driver_ resolution_change_callback_ resolutionChange
    streamsEnabled w.2
  let p := sendPeripherals fl driver_ config self n.1
  (p.1, p.2.1, [Call.setImageConfig cfg1 w.1] ++ n.2 ++ p.2.2)

/-- The member function template `Reconfigure::configureCamera`. -/
def Reconfigure.configureCamera {F σ : Type} (fl : FloatOps F) (driver_ : Channel F σ)
    (resolution_change_callback_ : Option (σ → σ)) (config : DesiredConfig F)
    (self : Reconfigure) (dev : σ) : Reconfigure × σ × List (Call F) :=
  let g := driver_.getImageConfig dev
  if g.1 ≠ Status.Ok then
    (self, g.2.2, [Call.getImageConfig g.1])
  else
    let sc := sscanf_dxdxd (c_str config.resolution)
    if 3 ≠ sc.count then
      (self, g.2.2, [Call.getImageConfig g.1])
    else
      let cr := self.changeResolution driver_ g.2.2 g.2.1 sc.width sc.height sc.disparities
      if cr.changed then
        let e := driver_.getEnabledStreams cr.dev
        if e.1 ≠ Status.Ok then
          (cr.self, e.2.2,
            [Call.getImageConfig g.1] ++ cr.calls ++ [Call.getEnabledStreams e.2.1 e.1])
        else
          let s := driver_.stopStreams e.2.2 e.2.1
          if s.1 ≠ Status.Ok then
            (cr.self, s.2,
              [Call.getImageConfig g.1] ++ cr.calls ++
                [Call.getEnabledStreams e.2.1 e.1, Call.stopStreams e.2.1 s.1])
          else
            let a := applyConfig fl driver_ resolution_change_callback_ config cr.self s.2
              cr.cfg true e.2.1
            (a.1, a.2.1,
              [Call.getImageConfig g.1] ++ cr.calls ++
                [Call.getEnabledStreams e.2.1 e.1, Call.stopStreams e.2.1 s.1] ++ a.2.2)
      else
        let a := applyConfig fl driver_ resolution_change_callback_ config cr.self cr.dev
          cr.cfg false 0
        (a.1, a.2.1, [Call.getImageConfig g.1] ++ cr.calls ++ a.2.2)

/-! ## `configureImu` -/

/-- One of the three `if` statements in the loop body of `configureImu`: when
the entry `c` carries the sensor name and differs from the desired values,
overwrite it and append it to `changedConfigs`. -/
def updateSensor (sensor : String) (enabled : Bool) (rate range : Int)
    (st : ImuConfig × List ImuConfig) : ImuConfig × List ImuConfig :=
  if sensor = st.1.name ∧
      (st.1.enabled ≠ enabled ∨ toInt32 st.1.rateTableIndex ≠ rate ∨
        toInt32 st.1.rangeTableIndex ≠ range) then
    let c := { st.1 with enabled := enabled, rateTableIndex := toUInt32 rate,
                         rangeTableIndex := toUInt32 range }
    (c, st.2 ++ [c])
  else st

/-- The loop body of `configureImu` for one entry `c` of `imu_configs_`. -/
def imuLoopBody {F : Type} (config : DesiredConfig F) (st : ImuConfig × List ImuConfig) :
    ImuConfig × List ImuConfig :=
  let a := updateSensor "accelerometer" config.accelerometer_enabled
    config.accelerometer_rate config.accelerometer_range st
  let g := updateSensor "gyroscope" config.gyroscope_enabled
    config.gyroscope_rate config.gyroscope_range a
  updateSensor "magnetometer" config.magnetometer_enabled
    config.magnetometer_rate config.magnetometer_range g

/-- The loop of `configureImu` over `imu_configs_`: returns the updated
entries and `changedConfigs`, which starts out as `changed`. -/
def imuLoop {F : Type} (config : DesiredConfig F) :
    List ImuConfig → List ImuConfig → List ImuConfig × List ImuConfig
  | [], changed => ([], changed)
  | c :: rest, changed =>
    let b := imuLoopBody config (c, changed)
    let r := imuLoop config rest b.2
    (b.1 :: r.1, r.2)

/-- The part of `configureImu` after the cache has been filled. -/
def applyImu {F σ : Type} (driver_ : Channel F σ) (config : DesiredConfig F)
    (self : Reconfigure) (dev : σ) : Reconfigure × σ × List (Call F) :=
  let l := imuLoop config self.imu_configs_ []
  let self1 := { self with imu_configs_ := l.1 }
  if 0 < l.2.length ∨ toInt32 self1.imu_samples_per_message_ ≠ config.imu_samples_per_message then
    let self2 := { self1 with
      imu_samples_per_message_ := toUInt32 config.imu_samples_per_message }
    let r := driver_.setImuConfig dev false self2.imu_samples_per_message_ l.2
    let call := Call.setImuConfig false self2.imu_samples_per_message_ l.2 r.1
    if r.1 ≠ Status.Ok then
      ({ self2 with imu_configs_ := [] }, r.2, [call])
    else
      (self2, r.2, [call])
  else
    (self1, dev, [])

/-- The member function template `Reconfigure::configureImu`. The driver fills
`imu_samples_per_message_` and `imu_configs_` by reference, so the members
hold what the driver left there whatever status the query returned. -/
def Reconfigure.configureImu {F σ : Type} (driver_ : Channel F σ)
    (config : DesiredConfig F) (self : Reconfigure) (dev : σ) :
    Reconfigure × σ × List (Call F) :=
  if self.imu_configs_.isEmpty then
    let q := driver_.getImuConfig dev
    let self1 := { self with imu_samples_per_message_ := q.2.1,
                             imu_configs_ := q.2.2.1 }
    if q.1 ≠ Status.Ok then
      (self1, q.2.2.2, [Call.getImuConfig q.1])
    else
      let a := applyImu driver_ config self1 q.2.2.2
      (a.1, a.2.1, [Call.getImuConfig q.1] ++ a.2.2)
  else
    applyImu driver_ config self dev

/-! ## The dynamic reconfigure callbacks -/

/-- The macro `SL_BM()`. -/
def SL_BM {F σ : Type} (fl : FloatOps F) (driver_ : Channel F σ)
    (resolution_change_callback_ : Option (σ → σ)) (config : DesiredConfig F)
    (self : Reconfigure) (dev : σ) : Reconfigure × σ × List (Call F) :=
  self.configureCamera fl driver_ resolution_change_callback_ config dev

/-- The macro `SL_BM_IMU()`. -/
def SL_BM_IMU {F σ : Type} (fl : FloatOps F) (driver_ : Channel F σ)
    (resolution_change_callback_ : Option (σ → σ)) (config : DesiredConfig F)
    (self : Reconfigure) (dev : σ) : Reconfigure × σ × List (Call F) :=
  let c := self.configureCamera fl driver_ resolution_change_callback_ config dev
  let i := c.1.configureImu driver_ config c.2.1
  (i.1, i.2.1, c.2.2 ++ i.2.2)

/-- The macro `SL_SGM_IMU()` (its SGM parameters are still a TODO in the
source). -/
def SL_SGM_IMU {F σ : Type} (fl : FloatOps F) (driver_ : Channel F σ)
    (resolution_change_callback_ : Option (σ → σ)) (config : DesiredConfig F)
    (self : Reconfigure) (dev : σ) : Reconfigure × σ × List (Call F) :=
  let c := self.configureCamera fl driver_ resolution_change_callback_ config dev
  let i := c.1.configureImu driver_ config c.2.1
  (i.1, i.2.1, c.2.2 ++ i.2.2)

/-- The callback `Reconfigure::callback_sl_bm_cmv2000` (its argument `level`
is not used by the source). -/
def Reconfigure.callback_sl_bm_cmv2000 {F σ : Type} (fl : FloatOps F) (driver_ : Channel F σ)
    (resolution_change_callback_ : Option (σ → σ)) (config : DesiredConfig F)
    (self : Reconfigure) (dev : σ) : Reconfigure × σ × List (Call F) :=
  SL_BM fl driver_ resolution_change_callback_ config self dev

/-- The callback `Reconfigure::callback_sl_bm_cmv2000_imu`. -/
def Reconfigure.callback_sl_bm_cmv2000_imu {F σ : Type} (fl : FloatOps F)
    (driver_ : Channel F σ) (resolution_change_callback_ : Option (σ → σ))
    (config : DesiredConfig F) (self : Reconfigure) (dev : σ) :
    Reconfigure × σ × List (Call F) :=
  SL_BM_IMU fl driver_ resolution_change_callback_ config self dev

/-- The callback `Reconfigure::callback_sl_bm_cmv4000`. -/
def Reconfigure.callback_sl_bm_cmv4000 {F σ : Type} (fl : FloatOps F) (driver_ : Channel F σ)
    (resolution_change_callback_ : Option (σ → σ)) (config : DesiredConfig F)
    (self : Reconfigure) (dev : σ) : Reconfigure × σ × List (Call F) :=
  SL_BM fl driver_ resolution_change_callback_ config self dev

/-- The callback `Reconfigure::callback_sl_bm_cmv4000_imu`. -/
def Reconfigure.callback_sl_bm_cmv4000_imu {F σ : Type} (fl : FloatOps F)
    (driver_ : Channel F σ) (resolution_change_callback_ : Option (σ → σ))
    (config : DesiredConfig F) (self : Reconfigure) (dev : σ) :
    Reconfigure × σ × List (Call F) :=
  SL_BM_IMU fl driver_ resolution_change_callback_ config self dev

/-- The callback `Reconfigure::callback_sl_sgm_cmv2000_imu`. -/
def Reconfigure.callback_sl_sgm_cmv2000_imu {F σ : Type} (fl : FloatOps F)
    (driver_ : Channel F σ) (resolution_change_callback_ : Option (σ → σ))
    (config : DesiredConfig F) (self : Reconfigure) (dev : σ) :
    Reconfigure × σ × List (Call F) :=
  SL_SGM_IMU fl driver_ resolution_change_callback_ config self dev

/-- The callback `Reconfigure::callback_sl_sgm_cmv4000_imu`. -/
def Reconfigure.callback_sl_sgm_cmv4000_imu {F σ : Type} (fl : FloatOps F)
    (driver_ : Channel F σ) (resolution_change_callback_ : Option (σ → σ))
    (config : DesiredConfig F) (self : Reconfigure) (dev : σ) :
    Reconfigure × σ × List (Call F) :=
  SL_SGM_IMU fl driver_ resolution_change_callback_ config self dev

/-- The callback that the constructor binds to the server of each schema. -/
def Reconfigure.callback {F σ : Type} (fl : FloatOps F) (driver_ : Channel F σ)
    (resolution_change_callback_ : Option (σ → σ)) (schema : Schema)
    (config : DesiredConfig F) (self : Reconfigure) (dev : σ) :
    Reconfigure × σ × List (Call F) :=
  match schema with
  | Schema.sl_bm_cmv2000 =>
    self.callback_sl_bm_cmv2000 fl driver_ resolution_change_callback_ config dev
  | Schema.sl_bm_cmv2000_imu =>
    self.callback_sl_bm_cmv2000_imu fl driver_ resolution_change_callback_ config dev
  | Schema.sl_bm_cmv4000 =>
    self.callback_sl_bm_cmv4000 fl driver_ resolution_change_callback_ config dev
  | Schema.sl_bm_cmv4000_imu =>
    self.callback_sl_bm_cmv4000_imu fl driver_ resolution_change_callback_ config dev
  | Schema.sl_sgm_cmv2000_imu =>
    self.callback_sl_sgm_cmv2000_imu fl driver_ resolution_change_callback_ config dev
  | Schema.sl_sgm_cmv4000_imu =>
    self.callback_sl_sgm_cmv4000_imu fl driver_ resolution_change_callback_ config dev

/-- A sequence of reconfigure events delivered through one schema, each run to
completion before the next: the final object, the final driver state and all
calls issued, in order. -/
def Reconfigure.run {F σ : Type} (fl : FloatOps F) (driver_ : Channel F σ)
    (resolution_change_callback_ : Option (σ → σ)) (schema : Schema) :
    List (DesiredConfig F) → Reconfigure → σ → Reconfigure × σ × List (Call F)
  | [], self, dev => (self, dev, [])
  | config :: rest, self, dev =>
    let c := self.callback fl driver_ resolution_change_callback_ schema config dev
    let r := Reconfigure.run fl driver_ resolution_change_callback_ schema rest c.1 c.2.1
    (r.1, r.2.1, c.2.2 ++ r.2.2)

/-! ## Names for the steps of one cycle -/

/-- The call `changeResolution(cfg, width, height, disparities)` as
`configureCamera` makes it: on the config just read and the decoded triple. -/
def Reconfigure.resolutionDecision {F σ : Type} (driver_ : Channel F σ)
    (config : DesiredConfig F) (self : Reconfigure) (dev : σ) : ChangeResult F σ :=
  self.changeResolution driver_ (driver_.getImageConfig dev).2.2
    (driver_.getImageConfig dev).2.1 (sscanf_dxdxd (c_str config.resolution)).width
    (sscanf_dxdxd (c_str config.resolution)).height
    (sscanf_dxdxd (c_str config.resolution)).disparities

/-- A resolution change is accepted in a cycle: the image config is read, the
resolution string decodes, and `changeResolution` returns true. -/
def Reconfigure.resolutionAccepted {F σ : Type} (driver_ : Channel F σ)
    (config : DesiredConfig F) (self : Reconfigure) (dev : σ) : Prop :=
  (driver_.getImageConfig dev).1 = Status.Ok ∧
  (sscanf_dxdxd (c_str config.resolution)).count = 3 ∧
  (self.resolutionDecision driver_ config dev).changed = true

/-- The calls that invoking the resolution-change callback adds: one when a
callback is registered, none when it is empty. -/
def callbackCalls {F σ : Type} (callback : Option (σ → σ)) : List (Call F) :=
  if callback.isSome then [Call.resolutionChangeCallback] else []

/-- The desired IMU values are values of the C++ type `int`. -/
def DesiredConfig.imuInRange {F : Type} (config : DesiredConfig F) : Prop :=
  InInt32 config.accelerometer_rate ∧ InInt32 config.accelerometer_range ∧
  InInt32 config.gyroscope_rate ∧ InInt32 config.gyroscope_range ∧
  InInt32 config.magnetometer_rate ∧ InInt32 config.magnetometer_range ∧
  InInt32 config.imu_samples_per_message

instance {F : Type} (config : DesiredConfig F) : Decidable config.imuInRange := by
  unfold DesiredConfig.imuInRange; infer_instance

/-- The cached entry `c` shows no difference from the desired values of the
sensor named `sensor`: it is another sensor, or it holds these values. -/
def ImuConfig.agrees (c : ImuConfig) (sensor : String) (enabled : Bool) (rate range : Int) :
    Prop :=
  sensor = c.name →
    c.enabled = enabled ∧ toInt32 c.rateTableIndex = rate ∧ toInt32 c.rangeTableIndex = range

/-! ## Concrete drivers, for evaluating the embedding -/

/-- Floating-point expressions kept symbolic: a decimal literal
`mantissa * 10 ^ exponent`, or the product of two expressions. -/
inductive FExpr where
  | lit (mantissa : Int) (exponent : Int)
  | mul (a b : FExpr)
  deriving DecidableEq, Repr

/-- The operations of the source on symbolic expressions. -/
def symbolicOps : FloatOps FExpr where
  mul := FExpr.mul
  lit_0 := FExpr.lit 0 0
  lit_100 := FExpr.lit 100 0
  lit_1e6 := FExpr.lit 1 6
  radiansPerSecondToRpm := FExpr.lit 954929659643 (-11)

/-- The answers of a driver that answers every call of one kind alike. -/
structure Answers where
  versionStatus : Status
  firmware : Nat
  deviceStatus : Status
  imager : ImagerType
  modesStatus : Status
  modes : List DeviceMode
  imageStatus : Status
  image : ImageConfig FExpr
  setImageStatus : Status
  streamsStatus : Status
  streams : Nat
  stopStatus : Status
  startStatus : Status
  motorStatus : Status
  lightingStatus : Status
  imuStatus : Status
  imuSamples : Nat
  imu : List ImuConfig
  setImuStatus : Status

/-- The driver that gives the answers `a`; its state counts the calls it has
served. -/
def Answers.driver (a : Answers) : Channel FExpr Nat where
  getVersionInfo n := (a.versionStatus, ⟨a.firmware⟩, n + 1)
  getDeviceInfo n := (a.deviceStatus, ⟨a.imager⟩, n + 1)
  getDeviceModes n := (a.modesStatus, a.modes, n + 1)
  getImageConfig n := (a.imageStatus, a.image, n + 1)
  setImageConfig n _ := (a.setImageStatus, n + 1)
  getEnabledStreams n := (a.streamsStatus, a.streams, n + 1)
  stopStreams n _ := (a.stopStatus, n + 1)
  startStreams n _ := (a.startStatus, n + 1)
  setMotorSpeed n _ := (a.motorStatus, n + 1)
  setLightingConfig n _ := (a.lightingStatus, n + 1)
  networkTimeSynchronization n _ := n + 1
  getImuConfig n := (a.imuStatus, a.imuSamples, a.imu, n + 1)
  setImuConfig n _ _ _ := (a.setImuStatus, n + 1)

/-- A live image config at 800x544 with 128 disparities. -/
def liveImage : ImageConfig FExpr where
  width := 800
  height := 544
  disparities := 128
  fps := FExpr.lit 10 0
  gain := FExpr.lit 1 0
  exposure := FExpr.lit 10000 0
  autoExposure := true
  autoExposureMax := FExpr.lit 50000 0
  autoExposureDecay := 7
  autoExposureThresh := FExpr.lit 75 (-2)
  whiteBalanceRed := FExpr.lit 1 0
  whiteBalanceBlue := FExpr.lit 1 0
  autoWhiteBalance := true
  autoWhiteBalanceDecay := 3
  autoWhiteBalanceThresh := FExpr.lit 5 (-1)

/-- A healthy sensor: every call succeeds. -/
def healthy : Answers where
  versionStatus := Status.Ok
  firmware := 0x0305
  deviceStatus := Status.Ok
  imager := ImagerType.CMV4000_COLOR
  modesStatus := Status.Ok
  modes := [⟨800, 544, 128⟩, ⟨1024, 544, 128⟩, ⟨2048, 1088, 64⟩]
  imageStatus := Status.Ok
  image := liveImage
  setImageStatus := Status.Ok
  streamsStatus := Status.Ok
  streams := 5
  stopStatus := Status.Ok
  startStatus := Status.Ok
  motorStatus := Status.Ok
  lightingStatus := Status.Ok
  imuStatus := Status.Ok
  imuSamples := 30
  imu := [⟨"accelerometer", true, 3, 0⟩, ⟨"gyroscope", true, 3, 0⟩,
    ⟨"magnetometer", true, 0, 0⟩]
  setImuStatus := Status.Ok

/-- A desired state asking for the resolution `resolution`. -/
def desired (resolution : String) : DesiredConfig FExpr where
  resolution := resolution
  fps := FExpr.lit 30 0
  gain := FExpr.lit 2 0
  exposure_time := FExpr.lit 25 (-3)
  auto_exposure := false
  auto_exposure_max_time := FExpr.lit 5 (-1)
  auto_exposure_decay := 7
  auto_exposure_thresh := FExpr.lit 75 (-2)
  white_balance_red := FExpr.lit 12 (-1)
  white_balance_blue := FExpr.lit 9 (-1)
  auto_white_balance := false
  auto_white_balance_decay := 3
  auto_white_balance_thresh := FExpr.lit 5 (-1)
  motor_speed := FExpr.lit 1 0
  lighting := true
  flash := false
  led_duty_cycle := FExpr.lit 25 (-2)
  network_time_sync := true
  accelerometer_enabled := true
  accelerometer_rate := 2
  accelerometer_range := 1
  gyroscope_enabled := false
  gyroscope_rate := 3
  gyroscope_range := 0
  magnetometer_enabled := true
  magnetometer_rate := 0
  magnetometer_range := 0
  imu_samples_per_message := 30

/-- A sensor that refuses every image-config write and is healthy otherwise. -/
def writeFails : Answers :=
  { healthy with setImageStatus := Status.other (-2) }

/-- A sensor that refuses every IMU write and is healthy otherwise. -/
def imuWriteFails : Answers :=
  { healthy with setImuStatus := Status.other (-2) }

/-- A sensor whose mode query fails and that is healthy otherwise. -/
def modesQueryFails : Answers :=
  { healthy with modesStatus := Status.other (-1), modes := [] }

/-- A sensor whose image config cannot be read and that is healthy otherwise. -/
def readFails : Answers :=
  { healthy with imageStatus := Status.other (-1) }

/-- A sensor without a motor: `setMotorSpeed` answers `Unsupported`. -/
def motorless : Answers :=
  { healthy with motorStatus := Status.Unsupported }

/-- The calls of two events for the live resolution on the motorless sensor,
delivered through the schema `sl_bm_cmv2000`. -/
def motorlessCalls : List (Call FExpr) :=
  (Reconfigure.run symbolicOps motorless.driver none Schema.sl_bm_cmv2000
    [desired "800x544x128", desired "800x544x128"] Reconfigure.init 0).2.2

/-- A sensor that reports no IMU sensor at all, with 5 samples per message. -/
def noImuSensors : Answers :=
  { healthy with imu := [], imuSamples := 5 }

/-- A sensor whose streams cannot be stopped and that is healthy otherwise. -/
def stopFails : Answers :=
  { healthy with stopStatus := Status.other (-1) }

/-- The rational number a symbolic floating-point expression stands for. -/
def FExpr.eval : FExpr → ℚ
  | FExpr.lit mantissa exponent => mantissa * (10 : ℚ) ^ exponent
  | FExpr.mul a b => a.eval * b.eval

/-- Symbolic expressions ordered by the numbers they stand for. -/
instance : Preorder FExpr := Preorder.lift FExpr.eval

/-- A sensor that answers the mode query with Ok and an empty table. -/
def noModes : Answers :=
  { healthy with modes := [] }

/-! ## The IMU change-set of the specification -/

/-- The desired enabled flag, rate index and range index for the sensor named
`name`, as the specification words it: one triple for each of the three named
sensors, nothing for any other name. -/
def specDesiredFor {F : Type} (config : DesiredConfig F) (name : String) :
    Option (Bool × Int × Int) :=
  if name = "accelerometer" then
    some (config.accelerometer_enabled, config.accelerometer_rate, config.accelerometer_range)
  else if name = "gyroscope" then
    some (config.gyroscope_enabled, config.gyroscope_rate, config.gyroscope_range)
  else if name = "magnetometer" then
    some (config.magnetometer_enabled, config.magnetometer_rate, config.magnetometer_range)
  else none

/-- The cached entry differs from the desired state: it is one of the three
named sensors and its enabled flag, rate index or range index is not the
desired one. -/
def specDiffers {F : Type} (config : DesiredConfig F) (c : ImuConfig) : Bool :=
  match specDesiredFor config c.name with
  | some (enabled, rate, range) =>
    decide (c.enabled ≠ enabled ∨ toInt32 c.rateTableIndex ≠ rate ∨
      toInt32 c.rangeTableIndex ≠ range)
  | none => false

/-- The cached entry with the desired values of its sensor put in. -/
def specUpdated {F : Type} (config : DesiredConfig F) (c : ImuConfig) : ImuConfig :=
  match specDesiredFor config c.name with
  | some (enabled, rate, range) =>
    { c with enabled := enabled, rateTableIndex := toUInt32 rate,
             rangeTableIndex := toUInt32 range }
  | none => c

/-- The change-set of the specification: the differing entries, in cache
order, each carrying the desired values. -/
def specChangeSet {F : Type} (config : DesiredConfig F) (cache : List ImuConfig) :
    List ImuConfig :=
  (cache.filter (specDiffers config)).map (specUpdated config)

/-- The cache of the specification after the comparison: every differing entry
replaced by its updated version, every other entry kept. -/
def specUpdatedCache {F : Type} (config : DesiredConfig F) (cache : List ImuConfig) :
    List ImuConfig :=
  cache.map (fun c => if specDiffers config c then specUpdated config c else c)

/-! ## The decision table of the specification -/

/-- The three schema variants of the specification. -/
inductive Variant where
  | StereoOnly
  | StereoPlusImu
  | StereoImuSgm
  deriving DecidableEq, Repr

/-- The imager size a schema is made for. -/
inductive ImagerSize where
  | CMV2000
  | CMV4000
  deriving DecidableEq, Repr

/-- The variant and imager size that each of the six schemas stands for. -/
def Schema.variant : Schema → Variant × ImagerSize
  | Schema.sl_bm_cmv2000 => (Variant.StereoOnly, ImagerSize.CMV2000)
  | Schema.sl_bm_cmv2000_imu => (Variant.StereoPlusImu, ImagerSize.CMV2000)
  | Schema.sl_bm_cmv4000 => (Variant.StereoOnly, ImagerSize.CMV4000)
  | Schema.sl_bm_cmv4000_imu => (Variant.StereoPlusImu, ImagerSize.CMV4000)
  | Schema.sl_sgm_cmv2000_imu => (Variant.StereoImuSgm, ImagerSize.CMV2000)
  | Schema.sl_sgm_cmv4000_imu => (Variant.StereoImuSgm, ImagerSize.CMV4000)

/-- The imager size of a supported imager type; `none` for every other type. -/
def specImagerSize : ImagerType → Option ImagerSize
  | ImagerType.CMV2000_GREY => some ImagerSize.CMV2000
  | ImagerType.CMV2000_COLOR => some ImagerSize.CMV2000
  | ImagerType.CMV4000_GREY => some ImagerSize.CMV4000
  | ImagerType.CMV4000_COLOR => some ImagerSize.CMV4000
  | ImagerType.unknown _ => none

/-- The decision table `selectVariant` as the specification words it: the
variant by firmware range, the flavour by imager, `none` for a failure. -/
def specSelectVariant (firmwareVersion : Nat) (imagerType : ImagerType) :
    Option (Variant × ImagerSize) :=
  match specImagerSize imagerType with
  | none => none
  | some size =>
    if firmwareVersion ≤ 0x0202 then some (Variant.StereoOnly, size)
    else if 0x0202 < firmwareVersion ∧ firmwareVersion < 0x0300 then
      some (Variant.StereoPlusImu, size)
    else if 0x0300 ≤ firmwareVersion then some (Variant.StereoImuSgm, size)
    else none

end multisense_ros

/-! # SaveImageUtility: `savePgm`

A shallow embedding of `savePgm` of
`multisense_lib/sensor_api/source/SaveImageUtility/SaveImageUtility.cc`.

* The file system is one boolean, what `outputStream.good()` answers after the
  file is opened; the function returns its result and the bytes it hands to
  the stream, in order. Writes to an open stream are taken to succeed.
* The memory behind `dataP` is a function from byte offsets to bytes.
* The byte order of the host is a parameter: it decides how `imageP[i]` reads
  two bytes of memory, what `htons` does, and in which order the two bytes of
  a `uint16_t` lie in memory.
-/

namespace SaveImageUtility

/-- The bytes of a text inserted into the stream with `<<`. -/
def textBytes (s : String) : List Nat :=
  s.toList.map Char.toNat

/-- The three insertions `<< "P5\n" << width << " " << height << "\n" <<
maxval << "\n"`; an integer is inserted as its decimal numeral. -/
def insertHeader (width height maxval : Nat) : List Nat :=
  textBytes "P5\n" ++ textBytes (toString width) ++ textBytes " " ++
    textBytes (toString height) ++ textBytes "\n" ++ textBytes (toString maxval) ++
    textBytes "\n"

/-- The call `outputStream.write(reinterpret_cast<const char*>(dataP), n)`:
the first `n` bytes of the memory behind `dataP`. -/
def writeData (dataP : Nat → Nat) (n : Nat) : List Nat :=
  (List.range n).map (fun i => dataP i % 256)

/-- The read `imageP[i]` of a `const uint16_t*` that points to `dataP`. -/
def loadU16 (littleEndian : Bool) (dataP : Nat → Nat) (i : Nat) : Nat :=
  if littleEndian then dataP (2 * i) % 256 + 256 * (dataP (2 * i + 1) % 256)
  else 256 * (dataP (2 * i) % 256) + dataP (2 * i + 1) % 256

/-- The function `htons`: the identity on a big-endian host, the swap of the
two bytes on a little-endian host. -/
def htons (littleEndian : Bool) (v : Nat) : Nat :=
  if littleEndian then v % 256 * 256 + v / 256 % 256 else v % 65536

/-- The call `outputStream.write(reinterpret_cast<const char*>(&o), 2)`: the
two bytes of `o` in the order in which they lie in memory. -/
def writeU16 (littleEndian : Bool) (o : Nat) : List Nat :=
  if littleEndian then [o % 256, o / 256 % 256] else [o / 256 % 256, o % 256]

/-- The loop `for (uint32_t i = ...; i < imageSize; ++i)` with `remaining`
iterations to go, the next one at index `i`. -/
def pixelLoop (littleEndian : Bool) (dataP : Nat → Nat) : Nat → Nat → List Nat
  | 0, _ => []
  | remaining + 1, i =>
    writeU16 littleEndian (htons littleEndian (loadU16 littleEndian dataP i)) ++
      pixelLoop littleEndian dataP remaining (i + 1)

/-- The function `savePgm`; `good` is what `outputStream.good()` answers once
the file `fileName` has been opened. -/
def savePgm (good littleEndian : Bool) (width height bitsPerPixel : Nat)
    (dataP : Nat → Nat) : Bool × List Nat :=
  if good = false then (false, [])
  else
    let imageSize := height * width % 2 ^ 32
    if bitsPerPixel = 8 then
      (true, insertHeader width height 0xFF ++ writeData dataP imageSize)
    else if bitsPerPixel = 16 then
      (true, insertHeader width height 0xFFFF ++ pixelLoop littleEndian dataP imageSize 0)
    else
      (true, [])

/-- A memory that holds the bytes `bytes` from offset 0 on, and 0 beyond. -/
def memoryOf (bytes : List Nat) : Nat → Nat :=
  fun i => bytes.getD i 0

end SaveImageUtility

namespace multisense_ros

/-! ## Construction -/

/-- C1: when both start-up queries succeed, the constructor installs exactly
the schema that the decision table of the specification selects for the
firmware version and imager type (StereoOnly up to 0x0202, StereoPlusImu
strictly between 0x0202 and 0x0300, StereoImuSgm from 0x0300 on, in the
CMV2000 or CMV4000 flavour), and installs nothing where the table fails. -/
theorem construct_follows_decision_table {F σ : Type} (driver_ : Channel F σ) (dev : σ)
    (hv : (driver_.getVersionInfo dev).1 = Status.Ok)
    (hd : (driver_.getDeviceInfo (driver_.getVersionInfo dev).2.2).1 = Status.Ok) :
    (Reconfigure.construct driver_ dev).1.installed.map Schema.variant =
      (specSelectVariant (driver_.getVersionInfo dev).2.1.sensorFirmwareVersion
        (driver_.getDeviceInfo (driver_.getVersionInfo dev).2.2).2.1.imagerType).toList := by
  unfold Reconfigure.construct specSelectVariant
  simp only [hv, hd, ne_eq, not_true_eq_false, if_false]
  generalize (driver_.getVersionInfo dev).2.1.sensorFirmwareVersion = v
  generalize (driver_.getDeviceInfo (driver_.getVersionInfo dev).2.2).2.1.imagerType = i
  by_cases h1 : v ≤ 0x0202
  · cases i <;> simp [h1, specImagerSize, Reconfigure.installed, Reconfigure.init, Schema.variant]
  · by_cases h2 : v < 0x0300
    · have h3 : 0x0202 < v := by omega
      cases i <;>
        simp [h1, h2, h3, specImagerSize, Reconfigure.installed, Reconfigure.init,
          Schema.variant]
    · have h4 : 0x0300 ≤ v := by omega
      cases i <;>
        simp [h1, h2, h4, specImagerSize, Reconfigure.installed, Reconfigure.init,
          Schema.variant]

/-- C1, on a sensor: firmware 0x0305 with a CMV4000 colour imager gets the
StereoImuSgm schema for the CMV4000. -/
theorem construct_follows_decision_table_witness :
    (healthy.driver.getVersionInfo 0).1 = Status.Ok ∧
    (healthy.driver.getDeviceInfo (healthy.driver.getVersionInfo 0).2.2).1 = Status.Ok ∧
    (Reconfigure.construct healthy.driver 0).1.installed.map Schema.variant =
      [(Variant.StereoImuSgm, ImagerSize.CMV4000)] :=
  ⟨by decide, by decide,
    (construct_follows_decision_table healthy.driver 0 (by decide) (by decide)).trans
      (by decide)⟩

/-- C2: after construction exactly one of the six server handles is set when
the version query and the device-info query both succeed and the imager type
is one of the four supported ones; otherwise (a failed version query, a failed
device-info query, an unsupported imager) all six handles are empty. -/
theorem construct_installs_one_or_none {F σ : Type} (driver_ : Channel F σ) (dev : σ) :
    ((driver_.getVersionInfo dev).1 = Status.Ok ∧
      (driver_.getDeviceInfo (driver_.getVersionInfo dev).2.2).1 = Status.Ok ∧
      (specImagerSize
        (driver_.getDeviceInfo (driver_.getVersionInfo dev).2.2).2.1.imagerType).isSome →
        (Reconfigure.construct driver_ dev).1.installed.length = 1) ∧
    (¬ ((driver_.getVersionInfo dev).1 = Status.Ok ∧
      (driver_.getDeviceInfo (driver_.getVersionInfo dev).2.2).1 = Status.Ok ∧
      (specImagerSize
        (driver_.getDeviceInfo (driver_.getVersionInfo dev).2.2).2.1.imagerType).isSome) →
        (Reconfigure.construct driver_ dev).1.installed = [] ∧
        (Reconfigure.construct driver_ dev).1 = Reconfigure.init) := by
  simp only [Reconfigure.construct]
  generalize (driver_.getVersionInfo dev) = rv
  generalize (driver_.getDeviceInfo rv.2.2) = rd
  obtain ⟨vs, vi, dev1⟩ := rv
  obtain ⟨ds, di, dev2⟩ := rd
  obtain ⟨i⟩ := di
  obtain ⟨v⟩ := vi
  by_cases hv : vs = Status.Ok
  · by_cases hd : ds = Status.Ok
    · by_cases h1 : v ≤ 0x0202
      · cases i <;> simp [hv, hd, h1, specImagerSize, Reconfigure.installed, Reconfigure.init]
      · by_cases h2 : v < 0x0300
        · cases i <;>
            simp [hv, hd, h1, h2, specImagerSize, Reconfigure.installed, Reconfigure.init]
        · cases i <;>
            simp [hv, hd, h1, h2, specImagerSize, Reconfigure.installed, Reconfigure.init]
    · simp [hv, hd, Reconfigure.installed, Reconfigure.init]
  · simp [hv, Reconfigure.installed, Reconfigure.init]

/-! ## Calls of one operation -/

theorem issued_nil {F : Type} (k : CallKind) : issued k ([] : List (Call F)) = [] := rfl

theorem issued_append {F : Type} (k : CallKind) (xs ys : List (Call F)) :
    issued k (xs ++ ys) = issued k xs ++ issued k ys := by
  simp [issued]

theorem issued_cons {F : Type} (k : CallKind) (c : Call F) (xs : List (Call F)) :
    issued k (c :: xs) = if c.kind = k then c :: issued k xs else issued k xs := by
  by_cases h : c.kind = k <;> simp [issued, h]

theorem issued_eq_nil_iff {F : Type} (k : CallKind) (xs : List (Call F)) :
    issued k xs = [] ↔ ∀ c ∈ xs, c.kind ≠ k := by
  simp [issued, List.filter_eq_nil_iff]

/-! ## The blocks of `configureCamera` -/

theorem sendMotorSpeed_calls {F σ : Type} (fl : FloatOps F) (driver_ : Channel F σ)
    (config : DesiredConfig F) (self : Reconfigure) (dev : σ) :
    (sendMotorSpeed fl driver_ config self dev).2.2 =
      if self.motor_supported_ then
        [Call.setMotorSpeed (fl.mul fl.radiansPerSecondToRpm config.motor_speed)
          (driver_.setMotorSpeed dev (fl.mul fl.radiansPerSecondToRpm config.motor_speed)).1]
      else [] := by
  simp only [sendMotorSpeed]
  split_ifs <;> rfl

theorem sendLighting_calls {F σ : Type} (fl : FloatOps F) (driver_ : Channel F σ)
    (config : DesiredConfig F) (self : Reconfigure) (dev : σ) :
    (sendLighting fl driver_ config self dev).2.2 =
      if self.lighting_supported_ then
        [Call.setLightingConfig (desiredLeds fl config)
          (driver_.setLightingConfig dev (desiredLeds fl config)).1]
      else [] := by
  simp only [sendLighting]
  split_ifs <;> rfl

theorem sendPeripherals_kinds {F σ : Type} (fl : FloatOps F) (driver_ : Channel F σ)
    (config : DesiredConfig F) (self : Reconfigure) (dev : σ) :
    ∀ c ∈ (sendPeripherals fl driver_ config self dev).2.2,
      c.kind = CallKind.setMotorSpeed ∨ c.kind = CallKind.setLightingConfig ∨
        c.kind = CallKind.networkTimeSynchronization := by
  intro c hc
  simp only [sendPeripherals, List.mem_append, sendMotorSpeed_calls, sendLighting_calls] at hc
  rcases hc with (hc | hc) | hc
  · split_ifs at hc
    · simp only [List.mem_singleton] at hc; subst hc; simp [Call.kind]
    · cases hc
  · split_ifs at hc
    · simp only [List.mem_singleton] at hc; subst hc; simp [Call.kind]
    · cases hc
  · simp only [List.mem_singleton] at hc; subst hc; simp [Call.kind]

theorem issued_sendPeripherals {F σ : Type} (fl : FloatOps F) (driver_ : Channel F σ)
    (config : DesiredConfig F) (self : Reconfigure) (dev : σ) (k : CallKind)
    (h1 : k ≠ CallKind.setMotorSpeed) (h2 : k ≠ CallKind.setLightingConfig)
    (h3 : k ≠ CallKind.networkTimeSynchronization) :
    issued k (sendPeripherals fl driver_ config self dev).2.2 = [] := by
  rw [issued_eq_nil_iff]
  intro c hc hk
  rcases sendPeripherals_kinds fl driver_ config self dev c hc with h | h | h
  · exact h1 (hk ▸ h)
  · exact h2 (hk ▸ h)
  · exact h3 (hk ▸ h)

theorem notifyAndRestart_calls {F σ : Type} (driver_ : Channel F σ)
    (callback : Option (σ → σ)) (resolutionChange : Bool) (streamsEnabled : Nat) (dev : σ) :
    ∃ st, (notifyAndRestart driver_ callback resolutionChange streamsEnabled dev).2 =
      if resolutionChange then
        (if callback.isSome then [Call.resolutionChangeCallback] else []) ++
          [(Call.startStreams streamsEnabled st : Call F)]
      else [] := by
  cases resolutionChange
  · exact ⟨Status.Ok, by simp [notifyAndRestart]⟩
  · cases callback with
    | none => exact ⟨(driver_.startStreams dev streamsEnabled).1, by simp [notifyAndRestart]⟩
    | some f =>
      exact ⟨(driver_.startStreams (f dev) streamsEnabled).1, by simp [notifyAndRestart]⟩

theorem applyConfig_calls {F σ : Type} (fl : FloatOps F) (driver_ : Channel F σ)
    (callback : Option (σ → σ)) (config : DesiredConfig F) (self : Reconfigure) (dev : σ)
    (cfg : ImageConfig F) (resolutionChange : Bool) (streamsEnabled : Nat) :
    ∃ st st2 dev2,
      (applyConfig fl driver_ callback config self dev cfg resolutionChange
        streamsEnabled).1 = (sendPeripherals fl driver_ config self dev2).1 ∧
      (applyConfig fl driver_ callback config self dev cfg resolutionChange
        streamsEnabled).2.2 =
      [Call.setImageConfig (applyImageSettings fl config cfg) st] ++
      (if resolutionChange then
        (if callback.isSome then [Call.resolutionChangeCallback] else []) ++
          [(Call.startStreams streamsEnabled st2 : Call F)]
      else []) ++
      (sendPeripherals fl driver_ config self dev2).2.2 := by
  obtain ⟨st2, h2⟩ := notifyAndRestart_calls driver_ callback resolutionChange streamsEnabled
    (driver_.setImageConfig dev (applyImageSettings fl config cfg)).2
  refine ⟨(driver_.setImageConfig dev (applyImageSettings fl config cfg)).1, st2,
    (notifyAndRestart driver_ callback resolutionChange streamsEnabled
      (driver_.setImageConfig dev (applyImageSettings fl config cfg)).2).1, ?_, ?_⟩
  · simp only [applyConfig]
  · simp only [applyConfig]
    rw [h2]

/-- The return value of `changeResolution`, spelled out. -/
theorem changeResolution_changed {F σ : Type} (driver_ : Channel F σ) (self : Reconfigure)
    (dev : σ) (cfg : ImageConfig F) (width height disparities : Int) :
    (self.changeResolution driver_ dev cfg width height disparities).changed = true ↔
      ¬ (width = toInt32 cfg.width ∧ height = toInt32 cfg.height ∧
          disparities = toInt32 cfg.disparities) ∧
      ((self.device_modes_ ≠ [] ∧
          supportedMode self.device_modes_ width height disparities = true) ∨
        (self.device_modes_ = [] ∧ (driver_.getDeviceModes dev).1 = Status.Ok ∧
          supportedMode (driver_.getDeviceModes dev).2.1 width height disparities = true)) := by
  unfold Reconfigure.changeResolution
  by_cases h : width = toInt32 cfg.width ∧ height = toInt32 cfg.height ∧
      disparities = toInt32 cfg.disparities
  · simp [h]
  · by_cases he : self.device_modes_ = []
    · by_cases hq : (driver_.getDeviceModes dev).1 = Status.Ok
      · by_cases hs : supportedMode (driver_.getDeviceModes dev).2.1 width height disparities
        · simp [h, he, hq, hs]
        · simp [h, he, hq, hs]
      · simp [h, he, hq]
    · by_cases hs : supportedMode self.device_modes_ width height disparities
      · simp [h, he, hs]
      · simp [h, he, hs]

/-- When `changeResolution` returns false the config is untouched. -/
theorem changeResolution_cfg_of_not_changed {F σ : Type} (driver_ : Channel F σ)
    (self : Reconfigure) (dev : σ) (cfg : ImageConfig F) (width height disparities : Int)
    (h : (self.changeResolution driver_ dev cfg width height disparities).changed = false) :
    (self.changeResolution driver_ dev cfg width height disparities).cfg = cfg := by
  simp only [Reconfigure.changeResolution] at h ⊢
  split_ifs at h ⊢ <;> rfl

/-- The calls of `changeResolution`: nothing, or one mode query. -/
theorem changeResolution_calls {F σ : Type} (driver_ : Channel F σ)
    (self : Reconfigure) (dev : σ) (cfg : ImageConfig F) (width height disparities : Int) :
    (self.changeResolution driver_ dev cfg width height disparities).calls = [] ∨
    (self.changeResolution driver_ dev cfg width height disparities).calls =
      [Call.getDeviceModes (driver_.getDeviceModes dev).1] := by
  simp only [Reconfigure.changeResolution]
  split_ifs <;> simp

theorem issued_changeResolution {F σ : Type} (driver_ : Channel F σ)
    (self : Reconfigure) (dev : σ) (cfg : ImageConfig F) (width height disparities : Int)
    (k : CallKind) (hk : k ≠ CallKind.getDeviceModes) :
    issued k (self.changeResolution driver_ dev cfg width height disparities).calls = [] := by
  rcases changeResolution_calls driver_ self dev cfg width height disparities with h | h
  · rw [h]; rfl
  · rw [h, issued_cons]
    simp [Call.kind, Ne.symm hk, issued_nil]

theorem supportedMode_eq_false_iff (modes : List DeviceMode) (width height disparities : Int) :
    supportedMode modes width height disparities = false ↔
      ∀ m ∈ modes, ¬ (width = toInt32 m.width ∧ height = toInt32 m.height ∧
        disparities = toInt32 m.disparities) := by
  simp [supportedMode]

/-- The calls of one `configureCamera` cycle have one of five shapes: the
cycle stops after the read; it applies the settings without a resolution
change; it stops at `getEnabledStreams`; it stops at `stopStreams`; or it runs
the whole resolution change. -/
theorem configureCamera_shape {F σ : Type} (fl : FloatOps F) (driver_ : Channel F σ)
    (callback : Option (σ → σ)) (config : DesiredConfig F) (self : Reconfigure) (dev : σ) :
    (((driver_.getImageConfig dev).1 ≠ Status.Ok ∨
        (sscanf_dxdxd (c_str config.resolution)).count ≠ 3) ∧
      self.configureCamera fl driver_ callback config dev =
        (self, (driver_.getImageConfig dev).2.2,
          [Call.getImageConfig (driver_.getImageConfig dev).1])) ∨
    ((driver_.getImageConfig dev).1 = Status.Ok ∧
      (sscanf_dxdxd (c_str config.resolution)).count = 3 ∧
      (self.resolutionDecision driver_ config dev).changed = false ∧
      ∃ st dev2,
        (self.configureCamera fl driver_ callback config dev).1 =
          (sendPeripherals fl driver_ config
            (self.resolutionDecision driver_ config dev).self dev2).1 ∧
        (self.configureCamera fl driver_ callback config dev).2.2 =
        [Call.getImageConfig Status.Ok] ++ (self.resolutionDecision driver_ config dev).calls ++
        [Call.setImageConfig (applyImageSettings fl config (driver_.getImageConfig dev).2.1) st]
        ++ (sendPeripherals fl driver_ config
            (self.resolutionDecision driver_ config dev).self dev2).2.2) ∨
    (self.resolutionAccepted driver_ config dev ∧
      ∃ m st, st ≠ Status.Ok ∧
        (self.configureCamera fl driver_ callback config dev).1 =
          (self.resolutionDecision driver_ config dev).self ∧
        (self.configureCamera fl driver_ callback config dev).2.2 =
        [Call.getImageConfig Status.Ok] ++ (self.resolutionDecision driver_ config dev).calls ++
        [Call.getEnabledStreams m st]) ∨
    (self.resolutionAccepted driver_ config dev ∧
      ∃ m st, st ≠ Status.Ok ∧
        (self.configureCamera fl driver_ callback config dev).1 =
          (self.resolutionDecision driver_ config dev).self ∧
        (self.configureCamera fl driver_ callback config dev).2.2 =
        [Call.getImageConfig Status.Ok] ++ (self.resolutionDecision driver_ config dev).calls ++
        [Call.getEnabledStreams m Status.Ok, Call.stopStreams m st]) ∨
    (self.resolutionAccepted driver_ config dev ∧
      ∃ m st st2 dev2,
        (self.configureCamera fl driver_ callback config dev).1 =
          (sendPeripherals fl driver_ config
            (self.resolutionDecision driver_ config dev).self dev2).1 ∧
        (self.configureCamera fl driver_ callback config dev).2.2 =
        [Call.getImageConfig Status.Ok] ++ (self.resolutionDecision driver_ config dev).calls ++
        [Call.getEnabledStreams m Status.Ok, Call.stopStreams m Status.Ok,
          Call.setImageConfig
            (applyImageSettings fl config (self.resolutionDecision driver_ config dev).cfg) st]
        ++ callbackCalls callback ++ [Call.startStreams m st2] ++
        (sendPeripherals fl driver_ config
          (self.resolutionDecision driver_ config dev).self dev2).2.2) := by
  by_cases hread : (driver_.getImageConfig dev).1 = Status.Ok
  swap
  · left
    exact ⟨Or.inl hread, by simp [Reconfigure.configureCamera, hread]⟩
  by_cases hwf : (sscanf_dxdxd (c_str config.resolution)).count = 3
  swap
  · left
    refine ⟨Or.inr hwf, ?_⟩
    have hwf2 : ¬ (3 = (sscanf_dxdxd (c_str config.resolution)).count) := fun h => hwf h.symm
    simp [Reconfigure.configureCamera, hread, hwf2]
  right
  by_cases hch : (self.resolutionDecision driver_ config dev).changed = true
  swap
  · left
    rw [Bool.not_eq_true] at hch
    have hcfg : (self.resolutionDecision driver_ config dev).cfg =
        (driver_.getImageConfig dev).2.1 :=
      changeResolution_cfg_of_not_changed driver_ self _ _ _ _ _ hch
    obtain ⟨st, st2, dev2, hs, ha⟩ := applyConfig_calls fl driver_ callback config
      (self.resolutionDecision driver_ config dev).self
      (self.resolutionDecision driver_ config dev).dev
      (driver_.getImageConfig dev).2.1 false 0
    refine ⟨hread, hwf, hch, st, dev2, ?_, ?_⟩
    · unfold Reconfigure.resolutionDecision at hch hcfg hs ⊢
      simp only [Reconfigure.configureCamera, hread, hwf, hch, hcfg, hs]
      simp
    · unfold Reconfigure.resolutionDecision at hch hcfg ha ⊢
      simp only [Reconfigure.configureCamera, hread, hwf, hch, hcfg, ha]
      simp
  right
  have hacc : self.resolutionAccepted driver_ config dev := ⟨hread, hwf, hch⟩
  by_cases he : (driver_.getEnabledStreams (self.resolutionDecision driver_ config dev).dev).1
      = Status.Ok
  swap
  · left
    refine ⟨hacc, (driver_.getEnabledStreams (self.resolutionDecision driver_ config dev).dev).2.1, _, he, ?_, ?_⟩
    · unfold Reconfigure.resolutionDecision at hch he ⊢
      simp only [Reconfigure.configureCamera, ne_eq, hread, hwf, hch, he]
      simp
    · unfold Reconfigure.resolutionDecision at hch he ⊢
      simp only [Reconfigure.configureCamera, ne_eq, hread, hwf, hch, he]
      simp
  right
  by_cases hs : (driver_.stopStreams
      (driver_.getEnabledStreams (self.resolutionDecision driver_ config dev).dev).2.2
      (driver_.getEnabledStreams (self.resolutionDecision driver_ config dev).dev).2.1).1
      = Status.Ok
  swap
  · left
    refine ⟨hacc, (driver_.getEnabledStreams (self.resolutionDecision driver_ config dev).dev).2.1, _, hs, ?_, ?_⟩
    · unfold Reconfigure.resolutionDecision at hch he hs ⊢
      simp only [Reconfigure.configureCamera, ne_eq, hread, hwf, hch, he, hs]
      simp
    · unfold Reconfigure.resolutionDecision at hch he hs ⊢
      simp only [Reconfigure.configureCamera, ne_eq, hread, hwf, hch, he, hs]
      simp
  right
  obtain ⟨st, st2, dev2, hfin, ha⟩ := applyConfig_calls fl driver_ callback config
    (self.resolutionDecision driver_ config dev).self
    (driver_.stopStreams
      (driver_.getEnabledStreams (self.resolutionDecision driver_ config dev).dev).2.2
      (driver_.getEnabledStreams (self.resolutionDecision driver_ config dev).dev).2.1).2
    (self.resolutionDecision driver_ config dev).cfg true
    (driver_.getEnabledStreams (self.resolutionDecision driver_ config dev).dev).2.1
  refine ⟨hacc, (driver_.getEnabledStreams (self.resolutionDecision driver_ config dev).dev).2.1, st, st2, dev2, ?_, ?_⟩
  · unfold Reconfigure.resolutionDecision at hch he hs hfin ⊢
    simp only [Reconfigure.configureCamera, ne_eq, hread, hwf, hch, he, hs, hfin]
    simp
  · unfold Reconfigure.resolutionDecision at hch he hs ha ⊢
    simp only [Reconfigure.configureCamera, ne_eq, hread, hwf, hch, he, hs, ha]
    simp [callbackCalls]

theorem issued_callbackCalls {F σ : Type} (callback : Option (σ → σ)) :
    issued CallKind.resolutionChangeCallback (callbackCalls callback : List (Call F)) =
      callbackCalls callback := by
  unfold callbackCalls
  split_ifs <;> simp [issued, Call.kind]

theorem issued_callbackCalls_of_ne {F σ : Type} (callback : Option (σ → σ)) (k : CallKind)
    (hk : k ≠ CallKind.resolutionChangeCallback) :
    issued k (callbackCalls callback : List (Call F)) = [] := by
  unfold callbackCalls
  split_ifs <;> simp [issued, Call.kind, Ne.symm hk]

theorem mem_issued {F : Type} (k : CallKind) (c : Call F) (xs : List (Call F)) :
    c ∈ issued k xs ↔ c ∈ xs ∧ c.kind = k := by
  simp [issued]

/-! ## Claims about `configureCamera` -/

/-- C3: when the live image config is read, the resolution string is
well-formed, and the desired triple differs from the live one and equals no
row of the capability set (the cached one, or the one fetched successfully in
this call; rows compared as signed 32-bit values, as the source does),
`configureCamera` issues exactly one `setImageConfig`; its width, height and
disparities are the live ones, its frame rate, gain, exposure (desired seconds
times 1e6) and white-balance fields are the desired ones, and no `stopStreams`
or `startStreams` is issued. -/
theorem rejected_resolution_keeps_live {F σ : Type} (fl : FloatOps F) (driver_ : Channel F σ)
    (callback : Option (σ → σ)) (config : DesiredConfig F) (self : Reconfigure) (dev : σ)
    (hread : (driver_.getImageConfig dev).1 = Status.Ok)
    (hwf : (sscanf_dxdxd (c_str config.resolution)).count = 3)
    (_hdiff : ¬ ((sscanf_dxdxd (c_str config.resolution)).width =
          toInt32 (driver_.getImageConfig dev).2.1.width ∧
        (sscanf_dxdxd (c_str config.resolution)).height =
          toInt32 (driver_.getImageConfig dev).2.1.height ∧
        (sscanf_dxdxd (c_str config.resolution)).disparities =
          toInt32 (driver_.getImageConfig dev).2.1.disparities))
    (hcap :
      (self.device_modes_ ≠ [] ∧ ∀ m ∈ self.device_modes_,
        ¬ ((sscanf_dxdxd (c_str config.resolution)).width = toInt32 m.width ∧
          (sscanf_dxdxd (c_str config.resolution)).height = toInt32 m.height ∧
          (sscanf_dxdxd (c_str config.resolution)).disparities = toInt32 m.disparities)) ∨
      (self.device_modes_ = [] ∧
        (driver_.getDeviceModes (driver_.getImageConfig dev).2.2).1 = Status.Ok ∧
        ∀ m ∈ (driver_.getDeviceModes (driver_.getImageConfig dev).2.2).2.1,
          ¬ ((sscanf_dxdxd (c_str config.resolution)).width = toInt32 m.width ∧
            (sscanf_dxdxd (c_str config.resolution)).height = toInt32 m.height ∧
            (sscanf_dxdxd (c_str config.resolution)).disparities = toInt32 m.disparities))) :
    ∃ written st,
      issued CallKind.setImageConfig (self.configureCamera fl driver_ callback config dev).2.2 =
        [Call.setImageConfig written st] ∧
      written.width = (driver_.getImageConfig dev).2.1.width ∧
      written.height = (driver_.getImageConfig dev).2.1.height ∧
      written.disparities = (driver_.getImageConfig dev).2.1.disparities ∧
      written.fps = config.fps ∧
      written.gain = config.gain ∧
      written.exposure = fl.mul config.exposure_time fl.lit_1e6 ∧
      written.autoExposure = config.auto_exposure ∧
      written.autoExposureMax = fl.mul config.auto_exposure_max_time fl.lit_1e6 ∧
      written.autoExposureDecay = config.auto_exposure_decay ∧
      written.autoExposureThresh = config.auto_exposure_thresh ∧
      written.whiteBalanceRed = config.white_balance_red ∧
      written.whiteBalanceBlue = config.white_balance_blue ∧
      written.autoWhiteBalance = config.auto_white_balance ∧
      written.autoWhiteBalanceDecay = config.auto_white_balance_decay ∧
      written.autoWhiteBalanceThresh = config.auto_white_balance_thresh ∧
      issued CallKind.stopStreams (self.configureCamera fl driver_ callback config dev).2.2 = [] ∧
      issued CallKind.startStreams
        (self.configureCamera fl driver_ callback config dev).2.2 = [] := by
  have hch : (self.resolutionDecision driver_ config dev).changed = false := by
    rw [← Bool.not_eq_true]
    unfold Reconfigure.resolutionDecision
    rw [changeResolution_changed]
    rintro ⟨-, ⟨hne, hs⟩ | ⟨he, hq, hs⟩⟩
    · rcases hcap with ⟨-, hn⟩ | ⟨he, -⟩
      · rw [← supportedMode_eq_false_iff] at hn
        rw [hn] at hs; cases hs
      · exact hne he
    · rcases hcap with ⟨hne, -⟩ | ⟨-, -, hn⟩
      · exact hne he
      · rw [← supportedMode_eq_false_iff] at hn
        rw [hn] at hs; cases hs
  have hk : ∀ k : CallKind, k ≠ CallKind.getDeviceModes →
      issued k (self.resolutionDecision driver_ config dev).calls = [] :=
    fun k hk => issued_changeResolution driver_ self _ _ _ _ _ k hk
  rcases configureCamera_shape fl driver_ callback config self dev with
    ⟨h | h, -⟩ | ⟨-, -, -, st, dev2, -, hc⟩ | ⟨⟨-, -, h⟩, -⟩ | ⟨⟨-, -, h⟩, -⟩ | ⟨⟨-, -, h⟩, -⟩
  · exact absurd hread h
  · exact absurd hwf h
  · refine ⟨applyImageSettings fl config (driver_.getImageConfig dev).2.1, st, ?_, rfl, rfl,
      rfl, rfl, rfl, rfl, rfl, rfl, rfl, rfl, rfl, rfl, rfl, rfl, rfl, ?_, ?_⟩
    · rw [hc]
      simp [issued_append, issued_cons, issued_nil, Call.kind, hk, issued_sendPeripherals]
    · rw [hc]
      simp [issued_append, issued_cons, issued_nil, Call.kind, hk, issued_sendPeripherals]
    · rw [hc]
      simp [issued_append, issued_cons, issued_nil, Call.kind, hk, issued_sendPeripherals]
  · rw [hch] at h; cases h
  · rw [hch] at h; cases h
  · rw [hch] at h; cases h

/-- C3, on a sensor: the desired "999x999x1" is no row of the fetched table;
one `setImageConfig` is issued and the streams are left alone. -/
theorem rejected_resolution_keeps_live_witness :
    (sscanf_dxdxd (c_str (desired "999x999x1").resolution)).count = 3 ∧
    (issued CallKind.setImageConfig (Reconfigure.init.configureCamera symbolicOps
      healthy.driver none (desired "999x999x1") 0).2.2).length = 1 ∧
    issued CallKind.stopStreams (Reconfigure.init.configureCamera symbolicOps
      healthy.driver none (desired "999x999x1") 0).2.2 = [] := by
  obtain ⟨written, st, h1, -, -, -, -, -, -, -, -, -, -, -, -, -, -, -, h2, -⟩ :=
    rejected_resolution_keeps_live symbolicOps healthy.driver none (desired "999x999x1")
      Reconfigure.init 0 (by decide) (by decide) (by decide)
      (Or.inr ⟨rfl, by decide, by decide⟩)
  exact ⟨by decide, by rw [h1]; rfl, h2⟩

/-- C4: in a cycle whose `stopStreams` succeeded, `startStreams` is issued
exactly once, after the stop, with the very stream set that
`getEnabledStreams` returned and `stopStreams` was given; the status of the
`setImageConfig` in between is unconstrained. -/
theorem stopped_streams_are_restarted {F σ : Type} (fl : FloatOps F)
    (driver_ : Channel F σ) (callback : Option (σ → σ)) (config : DesiredConfig F)
    (self : Reconfigure) (dev : σ) (m : Nat)
    (hstop : Call.stopStreams m Status.Ok ∈
      (self.configureCamera fl driver_ callback config dev).2.2) :
    ∃ before cfg st st2 after,
      (self.configureCamera fl driver_ callback config dev).2.2 =
        before ++ [Call.getEnabledStreams m Status.Ok, Call.stopStreams m Status.Ok,
          Call.setImageConfig cfg st] ++ callbackCalls callback ++
          [Call.startStreams m st2] ++ after ∧
      issued CallKind.getEnabledStreams
        (self.configureCamera fl driver_ callback config dev).2.2 =
          [Call.getEnabledStreams m Status.Ok] ∧
      issued CallKind.stopStreams (self.configureCamera fl driver_ callback config dev).2.2 =
        [Call.stopStreams m Status.Ok] ∧
      issued CallKind.setImageConfig (self.configureCamera fl driver_ callback config dev).2.2 =
        [Call.setImageConfig cfg st] ∧
      issued CallKind.startStreams (self.configureCamera fl driver_ callback config dev).2.2 =
        [Call.startStreams m st2] := by
  have hk : ∀ k : CallKind, k ≠ CallKind.getDeviceModes →
      issued k (self.resolutionDecision driver_ config dev).calls = [] :=
    fun k hk => issued_changeResolution driver_ self _ _ _ _ _ k hk
  have hmem : Call.stopStreams m Status.Ok ∈ issued CallKind.stopStreams
      (self.configureCamera fl driver_ callback config dev).2.2 :=
    (mem_issued _ _ _).2 ⟨hstop, rfl⟩
  rcases configureCamera_shape fl driver_ callback config self dev with
    ⟨-, hc⟩ | ⟨-, -, -, st, dev2, -, hc⟩ | ⟨-, m1, st, hst, -, hc⟩ | ⟨-, m1, st, hst, -, hc⟩ |
    ⟨-, m1, st, st2, dev2, -, hc⟩
  · rw [hc] at hmem
    simp [issued_cons, issued_nil, Call.kind] at hmem
  · rw [hc] at hmem
    simp [issued_append, issued_cons, issued_nil, Call.kind, hk, issued_sendPeripherals] at hmem
  · rw [hc] at hmem
    simp [issued_append, issued_cons, issued_nil, Call.kind, hk] at hmem
  · rw [hc] at hmem
    simp [issued_append, issued_cons, issued_nil, Call.kind, hk] at hmem
    exact absurd hmem.2.symm hst
  · have hm : m = m1 := by
      rw [hc] at hmem
      simpa [issued_append, issued_cons, issued_nil, Call.kind, hk, issued_sendPeripherals,
        issued_callbackCalls_of_ne] using hmem
    subst hm
    refine ⟨_, _, st, st2, _, hc, ?_, ?_, ?_, ?_⟩
    · rw [hc]
      simp [issued_append, issued_cons, issued_nil, Call.kind, hk, issued_sendPeripherals,
        issued_callbackCalls_of_ne]
    · rw [hc]
      simp [issued_append, issued_cons, issued_nil, Call.kind, hk, issued_sendPeripherals,
        issued_callbackCalls_of_ne]
    · rw [hc]
      simp [issued_append, issued_cons, issued_nil, Call.kind, hk, issued_sendPeripherals,
        issued_callbackCalls_of_ne]
    · rw [hc]
      simp [issued_append, issued_cons, issued_nil, Call.kind, hk, issued_sendPeripherals,
        issued_callbackCalls_of_ne]

/-- C4, on a sensor whose image-config write fails: the streams (set 5) are
stopped for the change to 1024x544x128 and restarted all the same. -/
theorem stopped_streams_are_restarted_witness :
    Call.stopStreams 5 Status.Ok ∈ (Reconfigure.init.configureCamera symbolicOps
      writeFails.driver none (desired "1024x544x128") 0).2.2 ∧
    writeFails.setImageStatus ≠ Status.Ok ∧
    ∃ st2, issued CallKind.startStreams (Reconfigure.init.configureCamera symbolicOps
      writeFails.driver none (desired "1024x544x128") 0).2.2 = [Call.startStreams 5 st2] := by
  obtain ⟨-, -, -, st2, -, -, -, -, -, h⟩ :=
    stopped_streams_are_restarted symbolicOps writeFails.driver none
      (desired "1024x544x128") Reconfigure.init 0 5 (by decide)
  exact ⟨by decide, by decide, st2, h⟩

/-- C5: the resolution-change callback is invoked in a cycle if and only if a
callback is registered, a resolution change was accepted and `stopStreams`
succeeded in that cycle; when invoked it is invoked once, right after the one
`setImageConfig` and right before the one `startStreams`. -/
theorem callback_iff_streams_stopped_for_change {F σ : Type} (fl : FloatOps F)
    (driver_ : Channel F σ) (callback : Option (σ → σ)) (config : DesiredConfig F)
    (self : Reconfigure) (dev : σ) :
    (Call.resolutionChangeCallback ∈
        (self.configureCamera fl driver_ callback config dev).2.2 ↔
      callback.isSome = true ∧ self.resolutionAccepted driver_ config dev ∧
        ∃ m, Call.stopStreams m Status.Ok ∈
          (self.configureCamera fl driver_ callback config dev).2.2) ∧
    (Call.resolutionChangeCallback ∈
        (self.configureCamera fl driver_ callback config dev).2.2 →
      issued CallKind.resolutionChangeCallback
          (self.configureCamera fl driver_ callback config dev).2.2 =
        [Call.resolutionChangeCallback] ∧
      ∃ before cfg st m st2 after,
        (self.configureCamera fl driver_ callback config dev).2.2 =
          before ++ [Call.setImageConfig cfg st, Call.resolutionChangeCallback,
            Call.startStreams m st2] ++ after ∧
        issued CallKind.setImageConfig
            (self.configureCamera fl driver_ callback config dev).2.2 =
          [Call.setImageConfig cfg st] ∧
        issued CallKind.startStreams
            (self.configureCamera fl driver_ callback config dev).2.2 =
          [Call.startStreams m st2]) := by
  have hk : ∀ k : CallKind, k ≠ CallKind.getDeviceModes →
      issued k (self.resolutionDecision driver_ config dev).calls = [] :=
    fun k hk => issued_changeResolution driver_ self _ _ _ _ _ k hk
  have hcb : ∀ xs : List (Call F), Call.resolutionChangeCallback ∈ xs ↔
      Call.resolutionChangeCallback ∈ issued CallKind.resolutionChangeCallback xs :=
    fun xs => ⟨fun h => (mem_issued _ _ _).2 ⟨h, rfl⟩, fun h => ((mem_issued _ _ _).1 h).1⟩
  have hst : ∀ (m : Nat) (xs : List (Call F)), Call.stopStreams m Status.Ok ∈ xs ↔
      Call.stopStreams m Status.Ok ∈ issued CallKind.stopStreams xs :=
    fun m xs => ⟨fun h => (mem_issued _ _ _).2 ⟨h, rfl⟩, fun h => ((mem_issued _ _ _).1 h).1⟩
  rcases configureCamera_shape fl driver_ callback config self dev with
    ⟨-, hc⟩ | ⟨-, -, hch, st, dev2, -, hc⟩ | ⟨-, m1, st, hne, -, hc⟩ |
    ⟨-, m1, st, hne, -, hc⟩ | ⟨hacc, m1, st, st2, dev2, -, hc⟩
  · have h0 : Call.resolutionChangeCallback ∉
        (self.configureCamera fl driver_ callback config dev).2.2 := by
      rw [hc]; simp
    refine ⟨⟨fun h => absurd h h0, ?_⟩, fun h => absurd h h0⟩
    rintro ⟨-, -, m, hm⟩
    rw [hc] at hm
    simp at hm
  · have h0 : Call.resolutionChangeCallback ∉
        (self.configureCamera fl driver_ callback config dev).2.2 := by
      rw [hcb, hc]
      simp [issued_append, issued_cons, issued_nil, Call.kind, hk, issued_sendPeripherals]
    refine ⟨⟨fun h => absurd h h0, ?_⟩, fun h => absurd h h0⟩
    rintro ⟨-, ⟨-, -, h⟩, -⟩
    rw [hch] at h; cases h
  · have h0 : Call.resolutionChangeCallback ∉
        (self.configureCamera fl driver_ callback config dev).2.2 := by
      rw [hcb, hc]
      simp [issued_append, issued_cons, issued_nil, Call.kind, hk]
    refine ⟨⟨fun h => absurd h h0, ?_⟩, fun h => absurd h h0⟩
    rintro ⟨-, -, m, hm⟩
    rw [hst, hc] at hm
    simp [issued_append, issued_cons, issued_nil, Call.kind, hk] at hm
  · have h0 : Call.resolutionChangeCallback ∉
        (self.configureCamera fl driver_ callback config dev).2.2 := by
      rw [hcb, hc]
      simp [issued_append, issued_cons, issued_nil, Call.kind, hk]
    refine ⟨⟨fun h => absurd h h0, ?_⟩, fun h => absurd h h0⟩
    rintro ⟨-, -, m, hm⟩
    rw [hst, hc] at hm
    simp [issued_append, issued_cons, issued_nil, Call.kind, hk] at hm
    exact absurd hm.2.symm hne
  · have hiss : issued CallKind.resolutionChangeCallback
        (self.configureCamera fl driver_ callback config dev).2.2 =
          callbackCalls callback := by
      rw [hc]
      simp [issued_append, issued_cons, issued_nil, Call.kind, hk, issued_sendPeripherals,
        issued_callbackCalls]
    have hstop : Call.stopStreams m1 Status.Ok ∈
        (self.configureCamera fl driver_ callback config dev).2.2 := by
      rw [hc]; simp
    cases hcall : callback with
    | none =>
      have h0 : Call.resolutionChangeCallback ∉
          (self.configureCamera fl driver_ callback config dev).2.2 := by
        rw [hcb, hiss, hcall]; simp [callbackCalls]
      rw [← hcall]
      refine ⟨⟨fun h => absurd h h0, ?_⟩, fun h => absurd h h0⟩
      rintro ⟨h, -⟩
      rw [hcall] at h; cases h
    | some f =>
      have h1 : (callbackCalls callback : List (Call F)) = [Call.resolutionChangeCallback] := by
        rw [hcall]; rfl
      rw [← hcall]
      refine ⟨⟨fun _ => ⟨by rw [hcall]; rfl, hacc, m1, hstop⟩, fun _ => ?_⟩, fun _ => ?_⟩
      · rw [hcb, hiss, h1]; simp
      · refine ⟨by rw [hiss, h1],
          [Call.getImageConfig Status.Ok] ++ (self.resolutionDecision driver_ config dev).calls
            ++ [Call.getEnabledStreams m1 Status.Ok, Call.stopStreams m1 Status.Ok],
          applyImageSettings fl config (self.resolutionDecision driver_ config dev).cfg,
          st, m1, st2,
          (sendPeripherals fl driver_ config
            (self.resolutionDecision driver_ config dev).self dev2).2.2, ?_, ?_, ?_⟩
        · rw [hc, h1]
          simp
        · rw [hc]
          simp [issued_append, issued_cons, issued_nil, Call.kind, hk, issued_sendPeripherals,
            issued_callbackCalls_of_ne]
        · rw [hc]
          simp [issued_append, issued_cons, issued_nil, Call.kind, hk, issued_sendPeripherals,
            issued_callbackCalls_of_ne]

/-! ## The sticky feature flags -/

theorem sendMotorSpeed_flags {F σ : Type} (fl : FloatOps F) (driver_ : Channel F σ)
    (config : DesiredConfig F) (self : Reconfigure) (dev : σ) :
    (sendMotorSpeed fl driver_ config self dev).1.motor_supported_ =
      (self.motor_supported_ && !decide ((driver_.setMotorSpeed dev
        (fl.mul fl.radiansPerSecondToRpm config.motor_speed)).1 = Status.Unsupported)) ∧
    (sendMotorSpeed fl driver_ config self dev).1.lighting_supported_ =
      self.lighting_supported_ := by
  simp only [sendMotorSpeed]
  split_ifs with h1 h2 h3 <;> simp_all

theorem sendLighting_flags {F σ : Type} (fl : FloatOps F) (driver_ : Channel F σ)
    (config : DesiredConfig F) (self : Reconfigure) (dev : σ) :
    (sendLighting fl driver_ config self dev).1.lighting_supported_ =
      (self.lighting_supported_ && !decide ((driver_.setLightingConfig dev
        (desiredLeds fl config)).1 = Status.Unsupported)) ∧
    (sendLighting fl driver_ config self dev).1.motor_supported_ =
      self.motor_supported_ := by
  simp only [sendLighting]
  split_ifs with h1 h2 h3 <;> simp_all

/-- The motor side of the peripherals block: nothing is sent and the flag
stays false once the flag is false; at most one `setMotorSpeed` is sent; and
an `Unsupported` answer clears the flag. -/
theorem sendPeripherals_motor {F σ : Type} (fl : FloatOps F) (driver_ : Channel F σ)
    (config : DesiredConfig F) (self : Reconfigure) (dev : σ) :
    (self.motor_supported_ = false →
      issued CallKind.setMotorSpeed (sendPeripherals fl driver_ config self dev).2.2 = [] ∧
      (sendPeripherals fl driver_ config self dev).1.motor_supported_ = false) ∧
    (issued CallKind.setMotorSpeed
      (sendPeripherals fl driver_ config self dev).2.2).length ≤ 1 ∧
    (∀ rpm, Call.setMotorSpeed rpm Status.Unsupported ∈
        (sendPeripherals fl driver_ config self dev).2.2 →
      (sendPeripherals fl driver_ config self dev).1.motor_supported_ = false) := by
  have hm := sendMotorSpeed_flags fl driver_ config self dev
  have hl := sendLighting_flags fl driver_ config (sendMotorSpeed fl driver_ config self dev).1
    (sendMotorSpeed fl driver_ config self dev).2.1
  have hflag : (sendPeripherals fl driver_ config self dev).1.motor_supported_ =
      (self.motor_supported_ && !decide ((driver_.setMotorSpeed dev
        (fl.mul fl.radiansPerSecondToRpm config.motor_speed)).1 = Status.Unsupported)) := by
    simp only [sendPeripherals]
    rw [hl.2, hm.1]
  have hcalls : issued CallKind.setMotorSpeed (sendPeripherals fl driver_ config self dev).2.2 =
      if self.motor_supported_ then
        [Call.setMotorSpeed (fl.mul fl.radiansPerSecondToRpm config.motor_speed)
          (driver_.setMotorSpeed dev (fl.mul fl.radiansPerSecondToRpm config.motor_speed)).1]
      else [] := by
    simp only [sendPeripherals, issued_append, sendMotorSpeed_calls, sendLighting_calls]
    split_ifs <;> simp [issued_cons, issued_nil, Call.kind]
  refine ⟨fun h => ⟨by rw [hcalls, h]; rfl, by rw [hflag, h]; rfl⟩, ?_, ?_⟩
  · rw [hcalls]; split_ifs <;> simp
  · intro rpm hmem
    have h2 := (mem_issued CallKind.setMotorSpeed _ _).2 ⟨hmem, rfl⟩
    rw [hcalls] at h2
    split_ifs at h2 with h
    · simp only [List.mem_singleton, Call.setMotorSpeed.injEq] at h2
      rw [hflag, ← h2.2]; simp
    · cases h2

/-- The lighting side of the peripherals block, as for the motor. -/
theorem sendPeripherals_lighting {F σ : Type} (fl : FloatOps F) (driver_ : Channel F σ)
    (config : DesiredConfig F) (self : Reconfigure) (dev : σ) :
    (self.lighting_supported_ = false →
      issued CallKind.setLightingConfig (sendPeripherals fl driver_ config self dev).2.2 = [] ∧
      (sendPeripherals fl driver_ config self dev).1.lighting_supported_ = false) ∧
    (issued CallKind.setLightingConfig
      (sendPeripherals fl driver_ config self dev).2.2).length ≤ 1 ∧
    (∀ leds, Call.setLightingConfig leds Status.Unsupported ∈
        (sendPeripherals fl driver_ config self dev).2.2 →
      (sendPeripherals fl driver_ config self dev).1.lighting_supported_ = false) := by
  have hm := sendMotorSpeed_flags fl driver_ config self dev
  have hl := sendLighting_flags fl driver_ config (sendMotorSpeed fl driver_ config self dev).1
    (sendMotorSpeed fl driver_ config self dev).2.1
  have hflag : (sendPeripherals fl driver_ config self dev).1.lighting_supported_ =
      (self.lighting_supported_ && !decide ((driver_.setLightingConfig
        (sendMotorSpeed fl driver_ config self dev).2.1
        (desiredLeds fl config)).1 = Status.Unsupported)) := by
    simp only [sendPeripherals]
    rw [hl.1, hm.2]
  have hcalls : issued CallKind.setLightingConfig
      (sendPeripherals fl driver_ config self dev).2.2 =
      if self.lighting_supported_ then
        [Call.setLightingConfig (desiredLeds fl config)
          (driver_.setLightingConfig (sendMotorSpeed fl driver_ config self dev).2.1
            (desiredLeds fl config)).1]
      else [] := by
    simp only [sendPeripherals, issued_append, sendMotorSpeed_calls, sendLighting_calls, hm.2]
    split_ifs <;> simp [issued_cons, issued_nil, Call.kind]
  refine ⟨fun h => ⟨by rw [hcalls, h]; rfl, by rw [hflag, h]; rfl⟩, ?_, ?_⟩
  · rw [hcalls]; split_ifs <;> simp
  · intro leds hmem
    have h2 := (mem_issued CallKind.setLightingConfig _ _).2 ⟨hmem, rfl⟩
    rw [hcalls] at h2
    split_ifs at h2 with h
    · simp only [List.mem_singleton, Call.setLightingConfig.injEq] at h2
      rw [hflag, ← h2.2]; simp
    · cases h2

theorem changeResolution_flags {F σ : Type} (driver_ : Channel F σ) (self : Reconfigure)
    (dev : σ) (cfg : ImageConfig F) (width height disparities : Int) :
    (self.changeResolution driver_ dev cfg width height disparities).self.motor_supported_ =
      self.motor_supported_ ∧
    (self.changeResolution driver_ dev cfg width height disparities).self.lighting_supported_ =
      self.lighting_supported_ := by
  simp only [Reconfigure.changeResolution]
  split_ifs <;> exact ⟨rfl, rfl⟩

theorem mem_of_mem_append_of_issued_nil {F : Type} (k : CallKind) (c : Call F)
    (xs ys : List (Call F)) (hk : c.kind = k) (hxs : issued k xs = [])
    (h : c ∈ xs ++ ys) : c ∈ ys := by
  rcases List.mem_append.1 h with h | h
  · have := (mem_issued k c xs).2 ⟨h, hk⟩
    rw [hxs] at this; cases this
  · exact h

/-- One `configureCamera` cycle, seen from a feature: either the cycle leaves
the object as `changeResolution` left it and issues none of the feature's
calls, or it ends with the peripherals block run on that object. -/
theorem configureCamera_feature {F σ : Type} (fl : FloatOps F) (driver_ : Channel F σ)
    (callback : Option (σ → σ)) (config : DesiredConfig F) (self : Reconfigure) (dev : σ)
    (k : CallKind) (hk : k = CallKind.setMotorSpeed ∨ k = CallKind.setLightingConfig) :
    ∃ s0 : Reconfigure, s0.motor_supported_ = self.motor_supported_ ∧
      s0.lighting_supported_ = self.lighting_supported_ ∧
      (((self.configureCamera fl driver_ callback config dev).1 = s0 ∧
        issued k (self.configureCamera fl driver_ callback config dev).2.2 = []) ∨
      ∃ before dev2, issued k before = [] ∧
        (self.configureCamera fl driver_ callback config dev).1 =
          (sendPeripherals fl driver_ config s0 dev2).1 ∧
        (self.configureCamera fl driver_ callback config dev).2.2 =
          before ++ (sendPeripherals fl driver_ config s0 dev2).2.2) := by
  have hkc : ∀ k2 : CallKind, k2 ≠ CallKind.getDeviceModes →
      issued k2 (self.resolutionDecision driver_ config dev).calls = [] :=
    fun k2 h => issued_changeResolution driver_ self _ _ _ _ _ k2 h
  have hfl := changeResolution_flags driver_ self (driver_.getImageConfig dev).2.2
    (driver_.getImageConfig dev).2.1 (sscanf_dxdxd (c_str config.resolution)).width
    (sscanf_dxdxd (c_str config.resolution)).height
    (sscanf_dxdxd (c_str config.resolution)).disparities
  rcases configureCamera_shape fl driver_ callback config self dev with
    ⟨-, hc⟩ | ⟨-, -, -, st, dev2, hs, hc⟩ | ⟨-, m1, st, -, hs, hc⟩ | ⟨-, m1, st, -, hs, hc⟩ |
    ⟨-, m1, st, st2, dev2, hs, hc⟩
  · refine ⟨self, rfl, rfl, Or.inl ⟨by rw [hc], ?_⟩⟩
    rw [hc]
    rcases hk with rfl | rfl <;> simp [issued_cons, issued_nil, Call.kind]
  · refine ⟨(self.resolutionDecision driver_ config dev).self, hfl.1, hfl.2,
      Or.inr ⟨_, dev2, ?_, hs, hc⟩⟩
    rcases hk with rfl | rfl <;>
      simp [issued_append, issued_cons, issued_nil, Call.kind, hkc]
  · refine ⟨(self.resolutionDecision driver_ config dev).self, hfl.1, hfl.2,
      Or.inl ⟨hs, ?_⟩⟩
    rw [hc]
    rcases hk with rfl | rfl <;>
      simp [issued_append, issued_cons, issued_nil, Call.kind, hkc]
  · refine ⟨(self.resolutionDecision driver_ config dev).self, hfl.1, hfl.2,
      Or.inl ⟨hs, ?_⟩⟩
    rw [hc]
    rcases hk with rfl | rfl <;>
      simp [issued_append, issued_cons, issued_nil, Call.kind, hkc]
  · refine ⟨(self.resolutionDecision driver_ config dev).self, hfl.1, hfl.2,
      Or.inr ⟨_, dev2, ?_, hs, hc⟩⟩
    rcases hk with rfl | rfl <;>
      simp [issued_append, issued_cons, issued_nil, Call.kind, hkc, issued_callbackCalls_of_ne]

theorem configureCamera_motor {F σ : Type} (fl : FloatOps F) (driver_ : Channel F σ)
    (callback : Option (σ → σ)) (config : DesiredConfig F) (self : Reconfigure) (dev : σ) :
    (self.motor_supported_ = false →
      issued CallKind.setMotorSpeed
        (self.configureCamera fl driver_ callback config dev).2.2 = [] ∧
      (self.configureCamera fl driver_ callback config dev).1.motor_supported_ = false) ∧
    (issued CallKind.setMotorSpeed
      (self.configureCamera fl driver_ callback config dev).2.2).length ≤ 1 ∧
    (∀ rpm, Call.setMotorSpeed rpm Status.Unsupported ∈
        (self.configureCamera fl driver_ callback config dev).2.2 →
      (self.configureCamera fl driver_ callback config dev).1.motor_supported_ = false) := by
  obtain ⟨s0, hm, -, ⟨h1, h2⟩ | ⟨before, dev2, hb, h1, h2⟩⟩ :=
    configureCamera_feature fl driver_ callback config self dev CallKind.setMotorSpeed
      (Or.inl rfl)
  · refine ⟨fun h => ⟨h2, by rw [h1, hm, h]⟩, by rw [h2]; simp, fun rpm hmem => ?_⟩
    have := (mem_issued CallKind.setMotorSpeed _ _).2 ⟨hmem, rfl⟩
    rw [h2] at this; cases this
  · obtain ⟨p1, p2, p3⟩ := sendPeripherals_motor fl driver_ config s0 dev2
    rw [h1, h2, issued_append, hb, List.nil_append]
    refine ⟨fun h => p1 (hm.trans h), p2, fun rpm hmem => p3 rpm ?_⟩
    exact mem_of_mem_append_of_issued_nil CallKind.setMotorSpeed _ _ _ rfl hb hmem

theorem configureCamera_lighting {F σ : Type} (fl : FloatOps F) (driver_ : Channel F σ)
    (callback : Option (σ → σ)) (config : DesiredConfig F) (self : Reconfigure) (dev : σ) :
    (self.lighting_supported_ = false →
      issued CallKind.setLightingConfig
        (self.configureCamera fl driver_ callback config dev).2.2 = [] ∧
      (self.configureCamera fl driver_ callback config dev).1.lighting_supported_ = false) ∧
    (issued CallKind.setLightingConfig
      (self.configureCamera fl driver_ callback config dev).2.2).length ≤ 1 ∧
    (∀ leds, Call.setLightingConfig leds Status.Unsupported ∈
        (self.configureCamera fl driver_ callback config dev).2.2 →
      (self.configureCamera fl driver_ callback config dev).1.lighting_supported_ = false) := by
  obtain ⟨s0, -, hm, ⟨h1, h2⟩ | ⟨before, dev2, hb, h1, h2⟩⟩ :=
    configureCamera_feature fl driver_ callback config self dev CallKind.setLightingConfig
      (Or.inr rfl)
  · refine ⟨fun h => ⟨h2, by rw [h1, hm, h]⟩, by rw [h2]; simp, fun leds hmem => ?_⟩
    have := (mem_issued CallKind.setLightingConfig _ _).2 ⟨hmem, rfl⟩
    rw [h2] at this; cases this
  · obtain ⟨p1, p2, p3⟩ := sendPeripherals_lighting fl driver_ config s0 dev2
    rw [h1, h2, issued_append, hb, List.nil_append]
    refine ⟨fun h => p1 (hm.trans h), p2, fun leds hmem => p3 leds ?_⟩
    exact mem_of_mem_append_of_issued_nil CallKind.setLightingConfig _ _ _ rfl hb hmem

/-! ## `configureImu` leaves the camera side alone -/

theorem applyImu_frame {F σ : Type} (driver_ : Channel F σ) (config : DesiredConfig F)
    (self : Reconfigure) (dev : σ) :
    (applyImu driver_ config self dev).1.motor_supported_ = self.motor_supported_ ∧
    (applyImu driver_ config self dev).1.lighting_supported_ = self.lighting_supported_ ∧
    (applyImu driver_ config self dev).1.device_modes_ = self.device_modes_ ∧
    ∀ c ∈ (applyImu driver_ config self dev).2.2, c.kind = CallKind.setImuConfig := by
  simp only [applyImu]
  split_ifs <;> simp [Call.kind]

theorem configureImu_frame {F σ : Type} (driver_ : Channel F σ) (config : DesiredConfig F)
    (self : Reconfigure) (dev : σ) :
    (self.configureImu driver_ config dev).1.motor_supported_ = self.motor_supported_ ∧
    (self.configureImu driver_ config dev).1.lighting_supported_ = self.lighting_supported_ ∧
    (self.configureImu driver_ config dev).1.device_modes_ = self.device_modes_ ∧
    ∀ c ∈ (self.configureImu driver_ config dev).2.2,
      c.kind = CallKind.getImuConfig ∨ c.kind = CallKind.setImuConfig := by
  simp only [Reconfigure.configureImu]
  split_ifs with h1 h2
  · simp [Call.kind]
  · obtain ⟨a1, a2, a3, a4⟩ := applyImu_frame driver_ config
      { self with imu_samples_per_message_ := (driver_.getImuConfig dev).2.1,
                  imu_configs_ := (driver_.getImuConfig dev).2.2.1 }
      (driver_.getImuConfig dev).2.2.2
    refine ⟨a1, a2, a3, fun c hc => ?_⟩
    simp only [List.singleton_append, List.mem_cons] at hc
    rcases hc with rfl | hc
    · exact Or.inl rfl
    · exact Or.inr (a4 c hc)
  · obtain ⟨a1, a2, a3, a4⟩ := applyImu_frame driver_ config self dev
    exact ⟨a1, a2, a3, fun c hc => Or.inr (a4 c hc)⟩

theorem issued_configureImu {F σ : Type} (driver_ : Channel F σ) (config : DesiredConfig F)
    (self : Reconfigure) (dev : σ) (k : CallKind) (h1 : k ≠ CallKind.getImuConfig)
    (h2 : k ≠ CallKind.setImuConfig) :
    issued k (self.configureImu driver_ config dev).2.2 = [] := by
  rw [issued_eq_nil_iff]
  intro c hc hk
  rcases (configureImu_frame driver_ config self dev).2.2.2 c hc with h | h
  · exact h1 (hk ▸ h)
  · exact h2 (hk ▸ h)

/-! ## Sequences of reconfigure events -/

/-- Every callback is the camera cycle followed by calls of the IMU cycle
only, which leave the feature flags and the mode table alone. -/
theorem callback_decompose {F σ : Type} (fl : FloatOps F) (driver_ : Channel F σ)
    (callback : Option (σ → σ)) (schema : Schema) (config : DesiredConfig F)
    (self : Reconfigure) (dev : σ) :
    ∃ extra : List (Call F),
      (self.callback fl driver_ callback schema config dev).2.2 =
        (self.configureCamera fl driver_ callback config dev).2.2 ++ extra ∧
      (∀ c ∈ extra, c.kind = CallKind.getImuConfig ∨ c.kind = CallKind.setImuConfig) ∧
      (self.callback fl driver_ callback schema config dev).1.motor_supported_ =
        (self.configureCamera fl driver_ callback config dev).1.motor_supported_ ∧
      (self.callback fl driver_ callback schema config dev).1.lighting_supported_ =
        (self.configureCamera fl driver_ callback config dev).1.lighting_supported_ ∧
      (self.callback fl driver_ callback schema config dev).1.device_modes_ =
        (self.configureCamera fl driver_ callback config dev).1.device_modes_ := by
  have himu := configureImu_frame driver_ config
    (self.configureCamera fl driver_ callback config dev).1
    (self.configureCamera fl driver_ callback config dev).2.1
  cases schema
  case sl_bm_cmv2000 => exact ⟨[], by simp [Reconfigure.callback, Reconfigure.callback_sl_bm_cmv2000,
      Reconfigure.callback_sl_bm_cmv4000, SL_BM], by simp, rfl, rfl, rfl⟩
  case sl_bm_cmv4000 => exact ⟨[], by simp [Reconfigure.callback, Reconfigure.callback_sl_bm_cmv2000,
      Reconfigure.callback_sl_bm_cmv4000, SL_BM], by simp, rfl, rfl, rfl⟩
  all_goals
    exact ⟨_, rfl, himu.2.2.2, himu.1, himu.2.1, himu.2.2.1⟩

/-- A feature flag `flag` guarding the calls of kind `k` is sticky over a
sequence of events as soon as every single event respects it: with the flag
down no such call is issued and the flag stays down, an event issues at most
one such call, and a `bad` answer takes the flag down. -/
theorem run_sticky {F σ : Type} (fl : FloatOps F) (driver_ : Channel F σ)
    (callback : Option (σ → σ)) (schema : Schema) (flag : Reconfigure → Bool) (k : CallKind)
    (bad : Call F → Prop) (hbad : ∀ c, bad c → c.kind = k)
    (hcycle : ∀ (config : DesiredConfig F) (self : Reconfigure) (dev : σ),
      (flag self = false →
        issued k (self.callback fl driver_ callback schema config dev).2.2 = [] ∧
        flag (self.callback fl driver_ callback schema config dev).1 = false) ∧
      (issued k (self.callback fl driver_ callback schema config dev).2.2).length ≤ 1 ∧
      (∀ c ∈ (self.callback fl driver_ callback schema config dev).2.2, bad c →
        flag (self.callback fl driver_ callback schema config dev).1 = false))
    (configs : List (DesiredConfig F)) :
    ∀ (self : Reconfigure) (dev : σ),
      (flag self = false →
        issued k (Reconfigure.run fl driver_ callback schema configs self dev).2.2 = []) ∧
      ∀ before c after, bad c →
        (Reconfigure.run fl driver_ callback schema configs self dev).2.2 =
          before ++ c :: after →
        issued k after = [] := by
  induction configs with
  | nil =>
    intro self dev
    refine ⟨fun _ => rfl, fun before c after _ h => ?_⟩
    simp [Reconfigure.run] at h
  | cons config rest ih =>
    intro self dev
    obtain ⟨c1, c2, c3⟩ := hcycle config self dev
    obtain ⟨ih1, ih2⟩ := ih (self.callback fl driver_ callback schema config dev).1
      (self.callback fl driver_ callback schema config dev).2.1
    refine ⟨fun hoff => ?_, fun before c after hc h => ?_⟩
    · simp only [Reconfigure.run, issued_append]
      rw [(c1 hoff).1, ih1 (c1 hoff).2]; rfl
    · simp only [Reconfigure.run] at h
      rcases List.append_eq_append_iff.1 h with ⟨a, -, ha⟩ | ⟨a, ha, hb⟩
      · exact ih2 a c after hc ha
      · cases a with
        | nil =>
          rw [List.nil_append] at hb
          exact ih2 [] c after hc hb.symm
        | cons x a2 =>
          rw [List.cons_append, List.cons.injEq] at hb
          obtain ⟨rfl, hafter⟩ := hb
          have hkind := hbad c hc
          have hdown := c3 c (by rw [ha]; simp) hc
          have hlen := c2
          rw [ha, issued_append, issued_cons, if_pos hkind, List.length_append,
            List.length_cons] at hlen
          have ha2 : issued k a2 = [] := List.length_eq_zero.1 (by omega)
          rw [hafter, issued_append, ha2, ih1 hdown]; rfl

/-- C6: over every sequence of reconfigure events, through whichever schema
and whatever the driver answers, no `setMotorSpeed` is issued after a
`setMotorSpeed` that returned `Unsupported`, and no `setLightingConfig` is
issued after a `setLightingConfig` that returned `Unsupported`. -/
theorem unsupported_feature_is_never_retried {F σ : Type} (fl : FloatOps F)
    (driver_ : Channel F σ) (callback : Option (σ → σ)) (schema : Schema)
    (configs : List (DesiredConfig F)) (self : Reconfigure) (dev : σ) :
    (∀ before rpm after,
      (Reconfigure.run fl driver_ callback schema configs self dev).2.2 =
        before ++ Call.setMotorSpeed rpm Status.Unsupported :: after →
      issued CallKind.setMotorSpeed after = []) ∧
    (∀ before leds after,
      (Reconfigure.run fl driver_ callback schema configs self dev).2.2 =
        before ++ Call.setLightingConfig leds Status.Unsupported :: after →
      issued CallKind.setLightingConfig after = []) := by
  constructor
  · intro before rpm after h
    refine (run_sticky fl driver_ callback schema (fun s => s.motor_supported_)
      CallKind.setMotorSpeed (fun c => ∃ r, c = Call.setMotorSpeed r Status.Unsupported)
      ?_ ?_ configs self dev).2 before _ after ⟨rpm, rfl⟩ h
    · rintro c ⟨r, rfl⟩; rfl
    · intro config s d
      obtain ⟨extra, he, hx, hm, -, -⟩ := callback_decompose fl driver_ callback schema config s d
      obtain ⟨p1, p2, p3⟩ := configureCamera_motor fl driver_ callback config s d
      have hxn : issued CallKind.setMotorSpeed extra = [] := by
        rw [issued_eq_nil_iff]
        intro c hc hk
        rcases hx c hc with h | h <;> rw [hk] at h <;> cases h
      simp only [he, issued_append, hxn, List.append_nil, hm]
      refine ⟨p1, p2, ?_⟩
      rintro c hc ⟨r, rfl⟩
      rcases List.mem_append.1 hc with h | h
      · exact p3 r h
      · rcases hx _ h with h | h <;> cases h
  · intro before leds after h
    refine (run_sticky fl driver_ callback schema (fun s => s.lighting_supported_)
      CallKind.setLightingConfig
      (fun c => ∃ l, c = Call.setLightingConfig l Status.Unsupported)
      ?_ ?_ configs self dev).2 before _ after ⟨leds, rfl⟩ h
    · rintro c ⟨l, rfl⟩; rfl
    · intro config s d
      obtain ⟨extra, he, hx, -, hm, -⟩ := callback_decompose fl driver_ callback schema config s d
      obtain ⟨p1, p2, p3⟩ := configureCamera_lighting fl driver_ callback config s d
      have hxn : issued CallKind.setLightingConfig extra = [] := by
        rw [issued_eq_nil_iff]
        intro c hc hk
        rcases hx c hc with h | h <;> rw [hk] at h <;> cases h
      simp only [he, issued_append, hxn, List.append_nil, hm]
      refine ⟨p1, p2, ?_⟩
      rintro c hc ⟨l, rfl⟩
      rcases List.mem_append.1 hc with h | h
      · exact p3 l h
      · rcases hx _ h with h | h <;> cases h

/-- C6, on a sensor without a motor: the first event tries the motor once and
is told `Unsupported`; the second event does not try again. -/
theorem unsupported_feature_is_never_retried_witness :
    motorlessCalls.map Call.kind =
      [CallKind.getImageConfig, CallKind.setImageConfig, CallKind.setMotorSpeed,
        CallKind.setLightingConfig, CallKind.networkTimeSynchronization,
        CallKind.getImageConfig, CallKind.setImageConfig,
        CallKind.setLightingConfig, CallKind.networkTimeSynchronization] ∧
    issued CallKind.setMotorSpeed (motorlessCalls.drop 3) = [] :=
  ⟨by decide,
    (unsupported_feature_is_never_retried symbolicOps motorless.driver none
      Schema.sl_bm_cmv2000 [desired "800x544x128", desired "800x544x128"]
      Reconfigure.init 0).1 (motorlessCalls.take 2)
      (symbolicOps.mul symbolicOps.radiansPerSecondToRpm (desired "800x544x128").motor_speed)
      (motorlessCalls.drop 3) (by decide)⟩

/-! ## `configureImu` -/

theorem toInt32_toUInt32 (i : Int) (h : InInt32 i) : toInt32 (toUInt32 i) = i := by
  unfold InInt32 at h
  unfold toInt32 toUInt32
  split_ifs <;> omega

theorem updateSensor_name (sensor : String) (enabled : Bool) (rate range : Int)
    (st : ImuConfig × List ImuConfig) :
    (updateSensor sensor enabled rate range st).1.name = st.1.name := by
  unfold updateSensor
  split_ifs <;> rfl

theorem updateSensor_agrees (sensor : String) (enabled : Bool) (rate range : Int)
    (hrate : InInt32 rate) (hrange : InInt32 range) (st : ImuConfig × List ImuConfig) :
    (updateSensor sensor enabled rate range st).1.agrees sensor enabled rate range := by
  unfold updateSensor ImuConfig.agrees
  split_ifs with h
  · intro _
    exact ⟨rfl, toInt32_toUInt32 rate hrate, toInt32_toUInt32 range hrange⟩
  · intro hn
    by_contra hc
    apply h
    refine ⟨hn, ?_⟩
    by_contra hd
    apply hc
    simp only [ne_eq, not_or, not_not] at hd
    exact hd

theorem updateSensor_of_agrees (sensor : String) (enabled : Bool) (rate range : Int)
    (st : ImuConfig × List ImuConfig) (h : st.1.agrees sensor enabled rate range) :
    updateSensor sensor enabled rate range st = st := by
  unfold updateSensor
  rw [if_neg]
  rintro ⟨hn, hd⟩
  obtain ⟨h1, h2, h3⟩ := h hn
  rcases hd with hd | hd | hd
  · exact hd h1
  · exact hd h2
  · exact hd h3

theorem updateSensor_preserves_agrees (sensor other : String) (hne : sensor ≠ other)
    (enabled e2 : Bool) (rate range r2 g2 : Int) (st : ImuConfig × List ImuConfig)
    (h : st.1.agrees sensor enabled rate range) :
    (updateSensor other e2 r2 g2 st).1.agrees sensor enabled rate range := by
  unfold updateSensor
  split_ifs with hc
  · intro hn
    exact absurd (hn.trans hc.1.symm) hne
  · exact h

/-- After the loop body an entry shows no difference from the desired state. -/
theorem imuLoopBody_agrees {F : Type} (config : DesiredConfig F) (hr : config.imuInRange)
    (st : ImuConfig × List ImuConfig) :
    (imuLoopBody config st).1.agrees "accelerometer" config.accelerometer_enabled
      config.accelerometer_rate config.accelerometer_range ∧
    (imuLoopBody config st).1.agrees "gyroscope" config.gyroscope_enabled
      config.gyroscope_rate config.gyroscope_range ∧
    (imuLoopBody config st).1.agrees "magnetometer" config.magnetometer_enabled
      config.magnetometer_rate config.magnetometer_range := by
  obtain ⟨h1, h2, h3, h4, h5, h6, -⟩ := hr
  simp only [imuLoopBody]
  refine ⟨?_, ?_, ?_⟩
  · apply updateSensor_preserves_agrees _ _ (by decide)
    apply updateSensor_preserves_agrees _ _ (by decide)
    exact updateSensor_agrees _ _ _ _ h1 h2 _
  · apply updateSensor_preserves_agrees _ _ (by decide)
    exact updateSensor_agrees _ _ _ _ h3 h4 _
  · exact updateSensor_agrees _ _ _ _ h5 h6 _

/-- The loop body changes nothing on an entry that shows no difference. -/
theorem imuLoopBody_of_agrees {F : Type} (config : DesiredConfig F)
    (st : ImuConfig × List ImuConfig)
    (ha : st.1.agrees "accelerometer" config.accelerometer_enabled
      config.accelerometer_rate config.accelerometer_range)
    (hg : st.1.agrees "gyroscope" config.gyroscope_enabled
      config.gyroscope_rate config.gyroscope_range)
    (hm : st.1.agrees "magnetometer" config.magnetometer_enabled
      config.magnetometer_rate config.magnetometer_range) :
    imuLoopBody config st = st := by
  simp only [imuLoopBody]
  rw [updateSensor_of_agrees _ _ _ _ st ha, updateSensor_of_agrees _ _ _ _ st hg,
    updateSensor_of_agrees _ _ _ _ st hm]

/-- The loop run a second time on its own output changes nothing and stages
nothing. -/
theorem imuLoop_converged {F : Type} (config : DesiredConfig F) (hr : config.imuInRange)
    (l : List ImuConfig) :
    ∀ changed again : List ImuConfig,
      imuLoop config (imuLoop config l changed).1 again =
        ((imuLoop config l changed).1, again) := by
  induction l with
  | nil => intro changed again; rfl
  | cons c rest ih =>
    intro changed again
    obtain ⟨ha, hg, hm⟩ := imuLoopBody_agrees config hr (c, changed)
    simp only [imuLoop]
    rw [imuLoopBody_of_agrees config ((imuLoopBody config (c, changed)).1, again) ha hg hm]
    simp only
    rw [ih]

/-- Once `applyImu` has run and left a non-empty cache, running it again for
the same desired state changes nothing and issues nothing. -/
theorem applyImu_converged {F σ : Type} (driver_ : Channel F σ) (config : DesiredConfig F)
    (hr : config.imuInRange) (self : Reconfigure) (dev : σ)
    (hne : (applyImu driver_ config self dev).1.imu_configs_ ≠ []) (dev2 : σ) :
    applyImu driver_ config (applyImu driver_ config self dev).1 dev2 =
      ((applyImu driver_ config self dev).1, dev2, []) := by
  have hspm := toInt32_toUInt32 _ hr.2.2.2.2.2.2
  have hloop := imuLoop_converged config hr self.imu_configs_ [] []
  by_cases hw : 0 < (imuLoop config self.imu_configs_ []).2.length ∨
      toInt32 self.imu_samples_per_message_ ≠ config.imu_samples_per_message
  · by_cases hs : (driver_.setImuConfig dev false (toUInt32 config.imu_samples_per_message)
        (imuLoop config self.imu_configs_ []).2).1 = Status.Ok
    · have h1 : (applyImu driver_ config self dev).1 =
          { self with imu_configs_ := (imuLoop config self.imu_configs_ []).1,
                      imu_samples_per_message_ := toUInt32 config.imu_samples_per_message } := by
        simp only [applyImu, ne_eq, hw, hs, if_true, not_true_eq_false, if_false]
      rw [h1]
      simp only [applyImu, hloop, hspm, List.length_nil, lt_self_iff_false, ne_eq,
        not_true_eq_false, or_self, if_false]
    · exfalso
      apply hne
      simp only [applyImu, ne_eq, hw, hs, if_true, not_false_eq_true]
  · have h1 : (applyImu driver_ config self dev).1 =
        { self with imu_configs_ := (imuLoop config self.imu_configs_ []).1 } := by
      simp only [applyImu, hw, if_false]
    rw [h1]
    have hw2 : toInt32 self.imu_samples_per_message_ = config.imu_samples_per_message := by
      by_contra h
      exact hw (Or.inr h)
    simp only [applyImu, hloop, hw2, List.length_nil, lt_self_iff_false, ne_eq,
      not_true_eq_false, or_self, if_false]

theorem applyImu_calls_length {F σ : Type} (driver_ : Channel F σ) (config : DesiredConfig F)
    (self : Reconfigure) (dev : σ) : (applyImu driver_ config self dev).2.2.length ≤ 1 := by
  simp only [applyImu]
  split_ifs <;> simp

theorem issued_length_le {F : Type} (k : CallKind) (xs : List (Call F)) :
    (issued k xs).length ≤ xs.length := by
  unfold issued
  exact List.length_filter_le _ _

/-- One `configureImu` call issues at most one `setImuConfig`. -/
theorem configureImu_writes_le_one {F σ : Type} (driver_ : Channel F σ)
    (config : DesiredConfig F) (self : Reconfigure) (dev : σ) :
    (issued CallKind.setImuConfig (self.configureImu driver_ config dev).2.2).length ≤ 1 := by
  simp only [Reconfigure.configureImu]
  split_ifs with h1 h2
  · simp [issued_cons, issued_nil, Call.kind]
  · rw [issued_append]
    simp only [issued_cons, issued_nil, Call.kind, List.length_append]
    have := issued_length_le CallKind.setImuConfig (applyImu driver_ config
      { self with imu_samples_per_message_ := (driver_.getImuConfig dev).2.1,
                  imu_configs_ := (driver_.getImuConfig dev).2.2.1 }
      (driver_.getImuConfig dev).2.2.2).2.2
    have := applyImu_calls_length driver_ config
      { self with imu_samples_per_message_ := (driver_.getImuConfig dev).2.1,
                  imu_configs_ := (driver_.getImuConfig dev).2.2.1 }
      (driver_.getImuConfig dev).2.2.2
    simp
    omega
  · have := issued_length_le CallKind.setImuConfig (applyImu driver_ config self dev).2.2
    have := applyImu_calls_length driver_ config self dev
    omega

/-- C7 as stated fails: on a sensor that refuses the IMU write, the first
`configureImu` call writes, fails and clears the cache, and the second call
for the same desired state queries again and writes again: two writes. -/
theorem imu_write_repeated_after_failure :
    ¬ (issued CallKind.setImuConfig
        ((Reconfigure.init.configureImu imuWriteFails.driver (desired "800x544x128") 0).2.2 ++
          ((Reconfigure.init.configureImu imuWriteFails.driver
              (desired "800x544x128") 0).1.configureImu imuWriteFails.driver
            (desired "800x544x128")
            (Reconfigure.init.configureImu imuWriteFails.driver
              (desired "800x544x128") 0).2.1).2.2)).length ≤ 1 := by
  decide

/-- The second way to two writes: a driver that reports an empty sensor list
leaves the cache empty, so every call queries again and writes the
samples-per-message again, although every call succeeds. -/
theorem imu_write_repeated_for_empty_sensor_list :
    (issued CallKind.setImuConfig
        ((Reconfigure.init.configureImu noImuSensors.driver (desired "800x544x128") 0).2.2 ++
          ((Reconfigure.init.configureImu noImuSensors.driver
              (desired "800x544x128") 0).1.configureImu noImuSensors.driver
            (desired "800x544x128")
            (Reconfigure.init.configureImu noImuSensors.driver
              (desired "800x544x128") 0).2.1).2.2)).length = 2 := by
  decide

/-- C7, amended: two consecutive `configureImu` calls with the same desired
IMU state (its values being C++ `int`s) issue at most one `setImuConfig` in
total whenever the cached sensor list is not empty after the first call, that
is, unless the first call's write failed and cleared the cache or the driver
reported no sensor; and when the first call then got as far as the
comparison, the second call finds no difference and issues no call at all. -/
theorem imu_second_call_converged {F σ : Type} (driver_ : Channel F σ)
    (config : DesiredConfig F) (self : Reconfigure) (dev : σ) (hr : config.imuInRange)
    (hne : (self.configureImu driver_ config dev).1.imu_configs_ ≠ []) :
    (issued CallKind.setImuConfig
      ((self.configureImu driver_ config dev).2.2 ++
        ((self.configureImu driver_ config dev).1.configureImu driver_ config
          (self.configureImu driver_ config dev).2.1).2.2)).length ≤ 1 ∧
    (self.imu_configs_ ≠ [] ∨ (driver_.getImuConfig dev).1 = Status.Ok →
      ((self.configureImu driver_ config dev).1.configureImu driver_ config
        (self.configureImu driver_ config dev).2.1).2.2 = []) := by
  have hsecond : ∀ (s : Reconfigure) (d : σ), s.imu_configs_ ≠ [] →
      s.configureImu driver_ config d = applyImu driver_ config s d := by
    intro s d h
    simp only [Reconfigure.configureImu, List.isEmpty_iff, h, if_false]
  have hreach : (self.imu_configs_ ≠ [] ∨ (driver_.getImuConfig dev).1 = Status.Ok) →
      ((self.configureImu driver_ config dev).1.configureImu driver_ config
        (self.configureImu driver_ config dev).2.1).2.2 = [] := by
    intro h
    rw [hsecond _ _ hne]
    by_cases he : self.imu_configs_ = []
    · have hq : (driver_.getImuConfig dev).1 = Status.Ok := h.resolve_left (fun h => h he)
      have h1 : (self.configureImu driver_ config dev).1 =
          (applyImu driver_ config
            { self with imu_samples_per_message_ := (driver_.getImuConfig dev).2.1,
                        imu_configs_ := (driver_.getImuConfig dev).2.2.1 }
            (driver_.getImuConfig dev).2.2.2).1 := by
        simp only [Reconfigure.configureImu, List.isEmpty_iff, he, hq, if_true, ne_eq,
          not_true_eq_false, if_false]
      rw [h1] at hne ⊢
      rw [applyImu_converged driver_ config hr _ _ hne]
    · rw [hsecond _ _ he] at hne ⊢
      rw [applyImu_converged driver_ config hr _ _ hne]
  refine ⟨?_, hreach⟩
  by_cases h : self.imu_configs_ ≠ [] ∨ (driver_.getImuConfig dev).1 = Status.Ok
  · rw [hreach h, List.append_nil]
    exact configureImu_writes_le_one driver_ config self dev
  · simp only [not_or, not_not] at h
    have h1 : (self.configureImu driver_ config dev).2.2 =
        [Call.getImuConfig (driver_.getImuConfig dev).1] := by
      simp only [Reconfigure.configureImu, List.isEmpty_iff, h.1, h.2, if_true, ne_eq,
        not_false_eq_true]
    rw [issued_append, h1]
    simp only [issued_cons, issued_nil, Call.kind, List.nil_append]
    exact configureImu_writes_le_one driver_ config _ _

/-- C7, amended, on a healthy sensor: the first call writes the two changed
sensors, the second call issues nothing. -/
theorem imu_second_call_converged_witness :
    (desired "800x544x128").imuInRange ∧
    (Reconfigure.init.configureImu healthy.driver (desired "800x544x128") 0).1.imu_configs_
      ≠ [] ∧
    ((Reconfigure.init.configureImu healthy.driver
        (desired "800x544x128") 0).1.configureImu healthy.driver (desired "800x544x128")
      (Reconfigure.init.configureImu healthy.driver (desired "800x544x128") 0).2.1).2.2 = [] :=
  ⟨by decide, by decide,
    (imu_second_call_converged healthy.driver (desired "800x544x128") Reconfigure.init 0
      (by decide) (by decide)).2 (Or.inr (by decide))⟩

/-! ## Aborted and degraded cycles -/

/-- The calls of the peripherals block, spelled out. -/
theorem sendPeripherals_calls {F σ : Type} (fl : FloatOps F) (driver_ : Channel F σ)
    (config : DesiredConfig F) (self : Reconfigure) (dev : σ) :
    ∃ st1 st2, (sendPeripherals fl driver_ config self dev).2.2 =
      (if self.motor_supported_ then
        [Call.setMotorSpeed (fl.mul fl.radiansPerSecondToRpm config.motor_speed) st1]
      else []) ++
      (if self.lighting_supported_ then
        [Call.setLightingConfig (desiredLeds fl config) st2]
      else []) ++
      [Call.networkTimeSynchronization config.network_time_sync] := by
  refine ⟨(driver_.setMotorSpeed dev (fl.mul fl.radiansPerSecondToRpm config.motor_speed)).1,
    (driver_.setLightingConfig (sendMotorSpeed fl driver_ config self dev).2.1
      (desiredLeds fl config)).1, ?_⟩
  simp only [sendPeripherals, sendMotorSpeed_calls, sendLighting_calls,
    (sendMotorSpeed_flags fl driver_ config self dev).2]

/-- C8 as stated fails: with an empty mode cache, a desired resolution that
differs from the live one and a failing `getDeviceModes`, the cycle is not
aborted; `setImageConfig`, `setMotorSpeed`, `setLightingConfig` and
`networkTimeSynchronization` are all issued. -/
theorem mode_query_failure_does_not_abort :
    Reconfigure.init.device_modes_ = [] ∧
    (modesQueryFails.driver.getImageConfig 0).1 = Status.Ok ∧
    sscanf_dxdxd (c_str (desired "1024x544x128").resolution) = ⟨3, 1024, 544, 128⟩ ∧
    (modesQueryFails.driver.getImageConfig 0).2.1.width = 800 ∧
    (modesQueryFails.driver.getDeviceModes 1).1 ≠ Status.Ok ∧
    (Reconfigure.init.configureCamera symbolicOps modesQueryFails.driver none
      (desired "1024x544x128") 0).2.2.map Call.kind =
      [CallKind.getImageConfig, CallKind.getDeviceModes, CallKind.setImageConfig,
        CallKind.setMotorSpeed, CallKind.setLightingConfig,
        CallKind.networkTimeSynchronization] := by
  decide

/-- C8, amended: with an empty mode cache, a desired resolution that differs
from the live one and a failing `getDeviceModes`, the resolution change is
dropped and the cycle goes on: after the read and the failed query come one
`setImageConfig` with the live resolution and the desired settings, the motor
and lighting writes where their flags are set, and
`networkTimeSynchronization`; no stream is queried, stopped or started. -/
theorem mode_query_failure_keeps_live {F σ : Type} (fl : FloatOps F) (driver_ : Channel F σ)
    (callback : Option (σ → σ)) (config : DesiredConfig F) (self : Reconfigure) (dev : σ)
    (hread : (driver_.getImageConfig dev).1 = Status.Ok)
    (hwf : (sscanf_dxdxd (c_str config.resolution)).count = 3)
    (hdiff : ¬ ((sscanf_dxdxd (c_str config.resolution)).width =
          toInt32 (driver_.getImageConfig dev).2.1.width ∧
        (sscanf_dxdxd (c_str config.resolution)).height =
          toInt32 (driver_.getImageConfig dev).2.1.height ∧
        (sscanf_dxdxd (c_str config.resolution)).disparities =
          toInt32 (driver_.getImageConfig dev).2.1.disparities))
    (hempty : self.device_modes_ = [])
    (hquery : (driver_.getDeviceModes (driver_.getImageConfig dev).2.2).1 ≠ Status.Ok) :
    ∃ written st1 st2 st3,
      (self.configureCamera fl driver_ callback config dev).2.2 =
        [Call.getImageConfig Status.Ok,
          Call.getDeviceModes (driver_.getDeviceModes (driver_.getImageConfig dev).2.2).1,
          Call.setImageConfig written st1] ++
        (if self.motor_supported_ then
          [Call.setMotorSpeed (fl.mul fl.radiansPerSecondToRpm config.motor_speed) st2]
        else []) ++
        (if self.lighting_supported_ then
          [Call.setLightingConfig (desiredLeds fl config) st3]
        else []) ++
        [Call.networkTimeSynchronization config.network_time_sync] ∧
      written = applyImageSettings fl config (driver_.getImageConfig dev).2.1 ∧
      written.width = (driver_.getImageConfig dev).2.1.width ∧
      written.height = (driver_.getImageConfig dev).2.1.height ∧
      written.disparities = (driver_.getImageConfig dev).2.1.disparities := by
  have hcalls : (self.resolutionDecision driver_ config dev).calls =
      [Call.getDeviceModes (driver_.getDeviceModes (driver_.getImageConfig dev).2.2).1] := by
    simp only [Reconfigure.resolutionDecision, Reconfigure.changeResolution, hdiff, hempty,
      List.isEmpty_nil, ne_eq, hquery, if_true, if_false, not_false_eq_true]
  have hch : (self.resolutionDecision driver_ config dev).changed = false := by
    simp only [Reconfigure.resolutionDecision, Reconfigure.changeResolution, hdiff, hempty,
      List.isEmpty_nil, ne_eq, hquery, if_true, if_false, not_false_eq_true]
  have hfl := changeResolution_flags driver_ self (driver_.getImageConfig dev).2.2
    (driver_.getImageConfig dev).2.1 (sscanf_dxdxd (c_str config.resolution)).width
    (sscanf_dxdxd (c_str config.resolution)).height
    (sscanf_dxdxd (c_str config.resolution)).disparities
  rcases configureCamera_shape fl driver_ callback config self dev with
    ⟨h | h, -⟩ | ⟨-, -, -, st, dev2, -, hc⟩ | ⟨⟨-, -, h⟩, -⟩ | ⟨⟨-, -, h⟩, -⟩ | ⟨⟨-, -, h⟩, -⟩
  · exact absurd hread h
  · exact absurd hwf h
  · obtain ⟨st2, st3, hp⟩ := sendPeripherals_calls fl driver_ config
      (self.resolutionDecision driver_ config dev).self dev2
    refine ⟨_, st, st2, st3, ?_, rfl, rfl, rfl, rfl⟩
    rw [hc, hp, hcalls]
    unfold Reconfigure.resolutionDecision
    rw [hfl.1, hfl.2]
    rfl
  · rw [hch] at h; cases h
  · rw [hch] at h; cases h
  · rw [hch] at h; cases h

/-- C8, amended, on a sensor whose mode query fails. -/
theorem mode_query_failure_keeps_live_witness :
    (modesQueryFails.driver.getDeviceModes 1).1 ≠ Status.Ok ∧
    issued CallKind.stopStreams (Reconfigure.init.configureCamera symbolicOps
      modesQueryFails.driver none (desired "1024x544x128") 0).2.2 = [] ∧
    (issued CallKind.setImageConfig (Reconfigure.init.configureCamera symbolicOps
      modesQueryFails.driver none (desired "1024x544x128") 0).2.2).length = 1 := by
  obtain ⟨written, st1, st2, st3, h, -⟩ :=
    mode_query_failure_keeps_live symbolicOps modesQueryFails.driver none
      (desired "1024x544x128") Reconfigure.init 0 (by decide) (by decide) (by decide) rfl
      (by decide)
  refine ⟨by decide, ?_, ?_⟩
  · rw [h]; rfl
  · rw [h]; rfl

/-- C9 as stated fails for the schemas with an IMU: when the image config
cannot be read, the callback of `sl_bm_cmv2000_imu` still queries and writes
the IMU configuration and fills the IMU cache. -/
theorem failed_read_still_reconciles_imu :
    (readFails.driver.getImageConfig 0).1 ≠ Status.Ok ∧
    (Reconfigure.init.callback symbolicOps readFails.driver none Schema.sl_bm_cmv2000_imu
      (desired "800x544x128") 0).2.2.map Call.kind =
      [CallKind.getImageConfig, CallKind.getImuConfig, CallKind.setImuConfig] ∧
    (Reconfigure.init.callback symbolicOps readFails.driver none Schema.sl_bm_cmv2000_imu
      (desired "800x544x128") 0).1.imu_configs_ ≠ Reconfigure.init.imu_configs_ := by
  decide

/-- C9, amended: when the initial `getImageConfig` fails, `configureCamera`
issues nothing further and leaves the object unchanged. Through a StereoOnly
schema that is the whole event. Through a schema with an IMU the event goes
on with `configureImu` on the unchanged object: besides the failed read it
issues IMU queries and writes only, and it leaves the mode cache and the two
feature flags unchanged. -/
theorem failed_read_aborts_camera_cycle {F σ : Type} (fl : FloatOps F)
    (driver_ : Channel F σ) (callback : Option (σ → σ)) (config : DesiredConfig F)
    (self : Reconfigure) (dev : σ)
    (hfail : (driver_.getImageConfig dev).1 ≠ Status.Ok) :
    self.configureCamera fl driver_ callback config dev =
      (self, (driver_.getImageConfig dev).2.2,
        [Call.getImageConfig (driver_.getImageConfig dev).1]) ∧
    ∀ schema : Schema,
      (schema.variant.1 = Variant.StereoOnly →
        self.callback fl driver_ callback schema config dev =
          (self, (driver_.getImageConfig dev).2.2,
            [Call.getImageConfig (driver_.getImageConfig dev).1])) ∧
      (schema.variant.1 ≠ Variant.StereoOnly →
        self.callback fl driver_ callback schema config dev =
          ((self.configureImu driver_ config (driver_.getImageConfig dev).2.2).1,
            (self.configureImu driver_ config (driver_.getImageConfig dev).2.2).2.1,
            Call.getImageConfig (driver_.getImageConfig dev).1 ::
              (self.configureImu driver_ config (driver_.getImageConfig dev).2.2).2.2)) ∧
      (self.callback fl driver_ callback schema config dev).1.device_modes_ =
        self.device_modes_ ∧
      (self.callback fl driver_ callback schema config dev).1.motor_supported_ =
        self.motor_supported_ ∧
      (self.callback fl driver_ callback schema config dev).1.lighting_supported_ =
        self.lighting_supported_ ∧
      ∃ rest, (self.callback fl driver_ callback schema config dev).2.2 =
          Call.getImageConfig (driver_.getImageConfig dev).1 :: rest ∧
        ∀ c ∈ rest, c.kind = CallKind.getImuConfig ∨ c.kind = CallKind.setImuConfig := by
  have hcam : self.configureCamera fl driver_ callback config dev =
      (self, (driver_.getImageConfig dev).2.2,
        [Call.getImageConfig (driver_.getImageConfig dev).1]) := by
    simp only [Reconfigure.configureCamera, ne_eq, hfail, not_false_eq_true, if_true]
  refine ⟨hcam, fun schema => ?_⟩
  obtain ⟨i1, i2, i3, i4⟩ := configureImu_frame driver_ config self
    (driver_.getImageConfig dev).2.2
  cases schema
  case sl_bm_cmv2000 =>
    have hcb : self.callback fl driver_ callback Schema.sl_bm_cmv2000 config dev =
        (self, (driver_.getImageConfig dev).2.2,
          [Call.getImageConfig (driver_.getImageConfig dev).1]) := by
      simp [Reconfigure.callback, Reconfigure.callback_sl_bm_cmv2000,
        Reconfigure.callback_sl_bm_cmv4000, SL_BM, hcam]
    rw [hcb]
    exact ⟨fun _ => rfl, fun h => absurd rfl h, rfl, rfl, rfl, [], rfl, by simp⟩
  case sl_bm_cmv4000 =>
    have hcb : self.callback fl driver_ callback Schema.sl_bm_cmv4000 config dev =
        (self, (driver_.getImageConfig dev).2.2,
          [Call.getImageConfig (driver_.getImageConfig dev).1]) := by
      simp [Reconfigure.callback, Reconfigure.callback_sl_bm_cmv2000,
        Reconfigure.callback_sl_bm_cmv4000, SL_BM, hcam]
    rw [hcb]
    exact ⟨fun _ => rfl, fun h => absurd rfl h, rfl, rfl, rfl, [], rfl, by simp⟩
  case sl_bm_cmv2000_imu =>
    have hcb : self.callback fl driver_ callback Schema.sl_bm_cmv2000_imu config dev =
        ((self.configureImu driver_ config (driver_.getImageConfig dev).2.2).1,
          (self.configureImu driver_ config (driver_.getImageConfig dev).2.2).2.1,
          Call.getImageConfig (driver_.getImageConfig dev).1 ::
            (self.configureImu driver_ config (driver_.getImageConfig dev).2.2).2.2) := by
      simp [Reconfigure.callback, Reconfigure.callback_sl_bm_cmv2000_imu,
        Reconfigure.callback_sl_bm_cmv4000_imu, SL_BM_IMU, hcam]
    rw [hcb]
    exact ⟨(fun h => nomatch h), fun _ => rfl, i3, i1, i2, _, rfl, i4⟩
  case sl_bm_cmv4000_imu =>
    have hcb : self.callback fl driver_ callback Schema.sl_bm_cmv4000_imu config dev =
        ((self.configureImu driver_ config (driver_.getImageConfig dev).2.2).1,
          (self.configureImu driver_ config (driver_.getImageConfig dev).2.2).2.1,
          Call.getImageConfig (driver_.getImageConfig dev).1 ::
            (self.configureImu driver_ config (driver_.getImageConfig dev).2.2).2.2) := by
      simp [Reconfigure.callback, Reconfigure.callback_sl_bm_cmv2000_imu,
        Reconfigure.callback_sl_bm_cmv4000_imu, SL_BM_IMU, hcam]
    rw [hcb]
    exact ⟨(fun h => nomatch h), fun _ => rfl, i3, i1, i2, _, rfl, i4⟩
  case sl_sgm_cmv2000_imu =>
    have hcb : self.callback fl driver_ callback Schema.sl_sgm_cmv2000_imu config dev =
        ((self.configureImu driver_ config (driver_.getImageConfig dev).2.2).1,
          (self.configureImu driver_ config (driver_.getImageConfig dev).2.2).2.1,
          Call.getImageConfig (driver_.getImageConfig dev).1 ::
            (self.configureImu driver_ config (driver_.getImageConfig dev).2.2).2.2) := by
      simp [Reconfigure.callback, Reconfigure.callback_sl_sgm_cmv2000_imu,
        Reconfigure.callback_sl_sgm_cmv4000_imu, SL_SGM_IMU, hcam]
    rw [hcb]
    exact ⟨(fun h => nomatch h), fun _ => rfl, i3, i1, i2, _, rfl, i4⟩
  case sl_sgm_cmv4000_imu =>
    have hcb : self.callback fl driver_ callback Schema.sl_sgm_cmv4000_imu config dev =
        ((self.configureImu driver_ config (driver_.getImageConfig dev).2.2).1,
          (self.configureImu driver_ config (driver_.getImageConfig dev).2.2).2.1,
          Call.getImageConfig (driver_.getImageConfig dev).1 ::
            (self.configureImu driver_ config (driver_.getImageConfig dev).2.2).2.2) := by
      simp [Reconfigure.callback, Reconfigure.callback_sl_sgm_cmv2000_imu,
        Reconfigure.callback_sl_sgm_cmv4000_imu, SL_SGM_IMU, hcam]
    rw [hcb]
    exact ⟨(fun h => nomatch h), fun _ => rfl, i3, i1, i2, _, rfl, i4⟩

/-- C9, amended, on a sensor whose image config cannot be read: through the
StereoOnly schema the event ends with the failed read. -/
theorem failed_read_aborts_camera_cycle_witness :
    (readFails.driver.getImageConfig 0).1 ≠ Status.Ok ∧
    Reconfigure.init.callback symbolicOps readFails.driver none Schema.sl_bm_cmv2000
      (desired "800x544x128") 0 =
      (Reconfigure.init, 1, [Call.getImageConfig (Status.other (-1))]) :=
  ⟨by decide,
    ((failed_read_aborts_camera_cycle symbolicOps readFails.driver none
      (desired "800x544x128") Reconfigure.init 0 (by decide)).2 Schema.sl_bm_cmv2000).1 rfl⟩

/-- C10 as stated fails: for the malformed resolution "1024x544" the cycle is
over right after the image config is read; no `setImageConfig`, motor,
lighting or time-synchronisation call follows. -/
theorem malformed_resolution_stops_cycle :
    (sscanf_dxdxd (c_str (desired "1024x544").resolution)).count = 2 ∧
    Reconfigure.init.configureCamera symbolicOps healthy.driver none (desired "1024x544") 0 =
      (Reconfigure.init, 1, [Call.getImageConfig Status.Ok]) := by
  decide

/-- C10, amended: a resolution string that `sscanf` does not decode into three
integers ends the cycle right after the image config is read: no further call
is issued and the object is unchanged. -/
theorem malformed_resolution_aborts {F σ : Type} (fl : FloatOps F) (driver_ : Channel F σ)
    (callback : Option (σ → σ)) (config : DesiredConfig F) (self : Reconfigure) (dev : σ)
    (hmal : (sscanf_dxdxd (c_str config.resolution)).count ≠ 3) :
    self.configureCamera fl driver_ callback config dev =
      (self, (driver_.getImageConfig dev).2.2,
        [Call.getImageConfig (driver_.getImageConfig dev).1]) := by
  have h2 : ¬ (3 = (sscanf_dxdxd (c_str config.resolution)).count) := fun h => hmal h.symm
  by_cases hread : (driver_.getImageConfig dev).1 = Status.Ok
  · simp only [Reconfigure.configureCamera, ne_eq, hread, not_true_eq_false, if_false, h2,
      not_false_eq_true, if_true]
  · simp only [Reconfigure.configureCamera, ne_eq, hread, not_false_eq_true, if_true]

/-- C10, amended, on the string "abc": nothing follows the read. -/
theorem malformed_resolution_aborts_witness :
    (sscanf_dxdxd (c_str (desired "abc").resolution)).count ≠ 3 ∧
    Reconfigure.init.configureCamera symbolicOps healthy.driver none (desired "abc") 0 =
      (Reconfigure.init, 1, [Call.getImageConfig Status.Ok]) :=
  ⟨by decide,
    malformed_resolution_aborts symbolicOps healthy.driver none (desired "abc")
      Reconfigure.init 0 (by decide)⟩

/-! ## The stream pause around a resolution change -/

/-- C12: when a resolution change was accepted but `getEnabledStreams` or
`stopStreams` fails, the cycle issues no `setImageConfig`, does not invoke
the resolution-change callback and issues no `startStreams`, `setMotorSpeed`,
`setLightingConfig` or `networkTimeSynchronization`; the object is left as
`changeResolution` left it. -/
theorem failed_stream_stop_aborts {F σ : Type} (fl : FloatOps F) (driver_ : Channel F σ)
    (callback : Option (σ → σ)) (config : DesiredConfig F) (self : Reconfigure) (dev : σ)
    (hacc : self.resolutionAccepted driver_ config dev)
    (hfail :
      (driver_.getEnabledStreams (self.resolutionDecision driver_ config dev).dev).1
        ≠ Status.Ok ∨
      (driver_.stopStreams
        (driver_.getEnabledStreams (self.resolutionDecision driver_ config dev).dev).2.2
        (driver_.getEnabledStreams (self.resolutionDecision driver_ config dev).dev).2.1).1
        ≠ Status.Ok) :
    issued CallKind.setImageConfig
      (self.configureCamera fl driver_ callback config dev).2.2 = [] ∧
    issued CallKind.resolutionChangeCallback
      (self.configureCamera fl driver_ callback config dev).2.2 = [] ∧
    issued CallKind.startStreams
      (self.configureCamera fl driver_ callback config dev).2.2 = [] ∧
    issued CallKind.setMotorSpeed
      (self.configureCamera fl driver_ callback config dev).2.2 = [] ∧
    issued CallKind.setLightingConfig
      (self.configureCamera fl driver_ callback config dev).2.2 = [] ∧
    issued CallKind.networkTimeSynchronization
      (self.configureCamera fl driver_ callback config dev).2.2 = [] ∧
    (self.configureCamera fl driver_ callback config dev).1 =
      (self.resolutionDecision driver_ config dev).self := by
  have hk : ∀ k : CallKind, k ≠ CallKind.getDeviceModes →
      issued k (self.resolutionDecision driver_ config dev).calls = [] :=
    fun k hk => issued_changeResolution driver_ self _ _ _ _ _ k hk
  obtain ⟨hread, hwf, hch⟩ := hacc
  by_cases he : (driver_.getEnabledStreams (self.resolutionDecision driver_ config dev).dev).1
      = Status.Ok
  · have hs := hfail.resolve_left (not_not.2 he)
    have hc : self.configureCamera fl driver_ callback config dev =
        ((self.resolutionDecision driver_ config dev).self,
          (driver_.stopStreams
            (driver_.getEnabledStreams (self.resolutionDecision driver_ config dev).dev).2.2
            (driver_.getEnabledStreams
              (self.resolutionDecision driver_ config dev).dev).2.1).2,
          [Call.getImageConfig Status.Ok] ++
            (self.resolutionDecision driver_ config dev).calls ++
            [Call.getEnabledStreams
              (driver_.getEnabledStreams (self.resolutionDecision driver_ config dev).dev).2.1
              Status.Ok,
             Call.stopStreams
              (driver_.getEnabledStreams (self.resolutionDecision driver_ config dev).dev).2.1
              (driver_.stopStreams
                (driver_.getEnabledStreams
                  (self.resolutionDecision driver_ config dev).dev).2.2
                (driver_.getEnabledStreams
                  (self.resolutionDecision driver_ config dev).dev).2.1).1]) := by
      unfold Reconfigure.resolutionDecision at hch he hs ⊢
      simp only [Reconfigure.configureCamera, ne_eq, hread, hwf, hch, he, hs]
      simp
    rw [hc]
    simp [issued_append, issued_cons, issued_nil, Call.kind, hk]
  · have hc : self.configureCamera fl driver_ callback config dev =
        ((self.resolutionDecision driver_ config dev).self,
          (driver_.getEnabledStreams (self.resolutionDecision driver_ config dev).dev).2.2,
          [Call.getImageConfig Status.Ok] ++
            (self.resolutionDecision driver_ config dev).calls ++
            [Call.getEnabledStreams
              (driver_.getEnabledStreams (self.resolutionDecision driver_ config dev).dev).2.1
              (driver_.getEnabledStreams
                (self.resolutionDecision driver_ config dev).dev).1]) := by
      unfold Reconfigure.resolutionDecision at hch he ⊢
      simp only [Reconfigure.configureCamera, ne_eq, hread, hwf, hch, he]
      simp
    rw [hc]
    simp [issued_append, issued_cons, issued_nil, Call.kind, hk]

/-- C12, on a sensor whose streams cannot be stopped: the change to
1024x544x128 is accepted, the stop fails, and nothing is written. -/
theorem failed_stream_stop_aborts_witness :
    Reconfigure.init.resolutionAccepted stopFails.driver (desired "1024x544x128") 0 ∧
    (Reconfigure.init.configureCamera symbolicOps stopFails.driver none
      (desired "1024x544x128") 0).2.2.map Call.kind =
      [CallKind.getImageConfig, CallKind.getDeviceModes, CallKind.getEnabledStreams,
        CallKind.stopStreams] ∧
    issued CallKind.setImageConfig (Reconfigure.init.configureCamera symbolicOps
      stopFails.driver none (desired "1024x544x128") 0).2.2 = [] :=
  ⟨⟨by decide, by decide, by decide⟩, by decide,
    (failed_stream_stop_aborts symbolicOps stopFails.driver none (desired "1024x544x128")
      Reconfigure.init 0 ⟨by decide, by decide, by decide⟩ (Or.inr (by decide))).1⟩

theorem supportedMode_eq_true_iff (modes : List DeviceMode) (width height disparities : Int) :
    supportedMode modes width height disparities = true ↔
      ∃ m ∈ modes, width = toInt32 m.width ∧ height = toInt32 m.height ∧
        disparities = toInt32 m.disparities := by
  simp [supportedMode]

/-- C17: `getEnabledStreams`, `stopStreams`, `startStreams` and the
resolution-change callback occur in a cycle only if the desired triple
differs from the live one and equals a row of the capability set (cached, or
fetched successfully in this cycle); and when the desired triple equals the
live one the cycle issues no `getDeviceModes`, `getEnabledStreams`,
`stopStreams` or `startStreams` and does not invoke the callback. -/
theorem streams_paused_only_for_accepted_change {F σ : Type} (fl : FloatOps F)
    (driver_ : Channel F σ) (callback : Option (σ → σ)) (config : DesiredConfig F)
    (self : Reconfigure) (dev : σ) :
    ((∃ c ∈ (self.configureCamera fl driver_ callback config dev).2.2,
        c.kind = CallKind.getEnabledStreams ∨ c.kind = CallKind.stopStreams ∨
        c.kind = CallKind.startStreams ∨ c.kind = CallKind.resolutionChangeCallback) →
      ¬ ((sscanf_dxdxd (c_str config.resolution)).width =
            toInt32 (driver_.getImageConfig dev).2.1.width ∧
          (sscanf_dxdxd (c_str config.resolution)).height =
            toInt32 (driver_.getImageConfig dev).2.1.height ∧
          (sscanf_dxdxd (c_str config.resolution)).disparities =
            toInt32 (driver_.getImageConfig dev).2.1.disparities) ∧
      ((self.device_modes_ ≠ [] ∧ ∃ m ∈ self.device_modes_,
          (sscanf_dxdxd (c_str config.resolution)).width = toInt32 m.width ∧
          (sscanf_dxdxd (c_str config.resolution)).height = toInt32 m.height ∧
          (sscanf_dxdxd (c_str config.resolution)).disparities = toInt32 m.disparities) ∨
        (self.device_modes_ = [] ∧
          (driver_.getDeviceModes (driver_.getImageConfig dev).2.2).1 = Status.Ok ∧
          ∃ m ∈ (driver_.getDeviceModes (driver_.getImageConfig dev).2.2).2.1,
            (sscanf_dxdxd (c_str config.resolution)).width = toInt32 m.width ∧
            (sscanf_dxdxd (c_str config.resolution)).height = toInt32 m.height ∧
            (sscanf_dxdxd (c_str config.resolution)).disparities =
              toInt32 m.disparities))) ∧
    (((sscanf_dxdxd (c_str config.resolution)).width =
          toInt32 (driver_.getImageConfig dev).2.1.width ∧
        (sscanf_dxdxd (c_str config.resolution)).height =
          toInt32 (driver_.getImageConfig dev).2.1.height ∧
        (sscanf_dxdxd (c_str config.resolution)).disparities =
          toInt32 (driver_.getImageConfig dev).2.1.disparities) →
      issued CallKind.getDeviceModes
        (self.configureCamera fl driver_ callback config dev).2.2 = [] ∧
      issued CallKind.getEnabledStreams
        (self.configureCamera fl driver_ callback config dev).2.2 = [] ∧
      issued CallKind.stopStreams
        (self.configureCamera fl driver_ callback config dev).2.2 = [] ∧
      issued CallKind.startStreams
        (self.configureCamera fl driver_ callback config dev).2.2 = [] ∧
      issued CallKind.resolutionChangeCallback
        (self.configureCamera fl driver_ callback config dev).2.2 = []) := by
  have hk : ∀ k : CallKind, k ≠ CallKind.getDeviceModes →
      issued k (self.resolutionDecision driver_ config dev).calls = [] :=
    fun k hk => issued_changeResolution driver_ self _ _ _ _ _ k hk
  have hacc : self.resolutionAccepted driver_ config dev →
      ¬ ((sscanf_dxdxd (c_str config.resolution)).width =
            toInt32 (driver_.getImageConfig dev).2.1.width ∧
          (sscanf_dxdxd (c_str config.resolution)).height =
            toInt32 (driver_.getImageConfig dev).2.1.height ∧
          (sscanf_dxdxd (c_str config.resolution)).disparities =
            toInt32 (driver_.getImageConfig dev).2.1.disparities) ∧
      ((self.device_modes_ ≠ [] ∧ ∃ m ∈ self.device_modes_,
          (sscanf_dxdxd (c_str config.resolution)).width = toInt32 m.width ∧
          (sscanf_dxdxd (c_str config.resolution)).height = toInt32 m.height ∧
          (sscanf_dxdxd (c_str config.resolution)).disparities = toInt32 m.disparities) ∨
        (self.device_modes_ = [] ∧
          (driver_.getDeviceModes (driver_.getImageConfig dev).2.2).1 = Status.Ok ∧
          ∃ m ∈ (driver_.getDeviceModes (driver_.getImageConfig dev).2.2).2.1,
            (sscanf_dxdxd (c_str config.resolution)).width = toInt32 m.width ∧
            (sscanf_dxdxd (c_str config.resolution)).height = toInt32 m.height ∧
            (sscanf_dxdxd (c_str config.resolution)).disparities =
              toInt32 m.disparities)) := by
    rintro ⟨-, -, hch⟩
    unfold Reconfigure.resolutionDecision at hch
    rw [changeResolution_changed] at hch
    simp only [supportedMode_eq_true_iff] at hch
    exact hch
  have hnone : ∀ (xs : List (Call F)),
      issued CallKind.getEnabledStreams xs = [] → issued CallKind.stopStreams xs = [] →
      issued CallKind.startStreams xs = [] →
      issued CallKind.resolutionChangeCallback xs = [] →
      ¬ ∃ c ∈ xs, c.kind = CallKind.getEnabledStreams ∨ c.kind = CallKind.stopStreams ∨
        c.kind = CallKind.startStreams ∨ c.kind = CallKind.resolutionChangeCallback := by
    intro xs h1 h2 h3 h4
    rintro ⟨c, hc, h | h | h | h⟩
    · exact (issued_eq_nil_iff _ _).1 h1 c hc h
    · exact (issued_eq_nil_iff _ _).1 h2 c hc h
    · exact (issued_eq_nil_iff _ _).1 h3 c hc h
    · exact (issued_eq_nil_iff _ _).1 h4 c hc h
  rcases configureCamera_shape fl driver_ callback config self dev with
    ⟨-, hc⟩ | ⟨-, -, hch, st, dev2, -, hc⟩ | ⟨ha, -⟩ | ⟨ha, -⟩ | ⟨ha, -⟩
  · rw [hc]
    refine ⟨fun h => absurd h (hnone _ ?_ ?_ ?_ ?_), fun _ => ?_⟩ <;>
      simp [issued_cons, issued_nil, Call.kind]
  · refine ⟨fun h => absurd h (hnone _ ?_ ?_ ?_ ?_), fun heq => ?_⟩
    · rw [hc]
      simp [issued_append, issued_cons, issued_nil, Call.kind, hk, issued_sendPeripherals]
    · rw [hc]
      simp [issued_append, issued_cons, issued_nil, Call.kind, hk, issued_sendPeripherals]
    · rw [hc]
      simp [issued_append, issued_cons, issued_nil, Call.kind, hk, issued_sendPeripherals]
    · rw [hc]
      simp [issued_append, issued_cons, issued_nil, Call.kind, hk, issued_sendPeripherals]
    · have hcalls : (self.resolutionDecision driver_ config dev).calls = [] := by
        simp only [Reconfigure.resolutionDecision, Reconfigure.changeResolution, heq,
          and_self, if_true]
      rw [hc, hcalls]
      simp [issued_append, issued_cons, issued_nil, Call.kind, issued_sendPeripherals]
  · exact ⟨fun _ => hacc ha, fun heq => absurd heq (hacc ha).1⟩
  · exact ⟨fun _ => hacc ha, fun heq => absurd heq (hacc ha).1⟩
  · exact ⟨fun _ => hacc ha, fun heq => absurd heq (hacc ha).1⟩

/-! ## Independent feature writes -/

/-- A cycle that issues `setImageConfig` ends with the peripherals block run
on an object that carries the feature flags the cycle started with. -/
theorem configureCamera_past_stop {F σ : Type} (fl : FloatOps F) (driver_ : Channel F σ)
    (callback : Option (σ → σ)) (config : DesiredConfig F) (self : Reconfigure) (dev : σ)
    (hpast : ∃ cfg st, Call.setImageConfig cfg st ∈
      (self.configureCamera fl driver_ callback config dev).2.2) :
    ∃ before st1 st2,
      (self.configureCamera fl driver_ callback config dev).2.2 =
        before ++
        (if self.motor_supported_ then
          [Call.setMotorSpeed (fl.mul fl.radiansPerSecondToRpm config.motor_speed) st1]
        else []) ++
        (if self.lighting_supported_ then
          [Call.setLightingConfig (desiredLeds fl config) st2]
        else []) ++
        [Call.networkTimeSynchronization config.network_time_sync] ∧
      issued CallKind.setMotorSpeed before = [] ∧
      issued CallKind.setLightingConfig before = [] ∧
      issued CallKind.networkTimeSynchronization before = [] := by
  have hk : ∀ k : CallKind, k ≠ CallKind.getDeviceModes →
      issued k (self.resolutionDecision driver_ config dev).calls = [] :=
    fun k hk => issued_changeResolution driver_ self _ _ _ _ _ k hk
  have hfl := changeResolution_flags driver_ self (driver_.getImageConfig dev).2.2
    (driver_.getImageConfig dev).2.1 (sscanf_dxdxd (c_str config.resolution)).width
    (sscanf_dxdxd (c_str config.resolution)).height
    (sscanf_dxdxd (c_str config.resolution)).disparities
  have hfm : (self.resolutionDecision driver_ config dev).self.motor_supported_ =
      self.motor_supported_ := hfl.1
  have hfli : (self.resolutionDecision driver_ config dev).self.lighting_supported_ =
      self.lighting_supported_ := hfl.2
  obtain ⟨cfg, st0, hmem⟩ := hpast
  have hmem2 := (mem_issued CallKind.setImageConfig _ _).2 ⟨hmem, rfl⟩
  rcases configureCamera_shape fl driver_ callback config self dev with
    ⟨-, hc⟩ | ⟨-, -, -, st, dev2, -, hc⟩ | ⟨-, m1, st, -, -, hc⟩ | ⟨-, m1, st, -, -, hc⟩ |
    ⟨-, m1, st, st2, dev2, -, hc⟩
  · rw [hc] at hmem2
    simp [issued_cons, issued_nil, Call.kind] at hmem2
  · obtain ⟨s1, s2, hp⟩ := sendPeripherals_calls fl driver_ config
      (self.resolutionDecision driver_ config dev).self dev2
    rw [hfm, hfli] at hp
    refine ⟨[Call.getImageConfig Status.Ok] ++
        (self.resolutionDecision driver_ config dev).calls ++
        [Call.setImageConfig (applyImageSettings fl config (driver_.getImageConfig dev).2.1) st],
      s1, s2, ?_, ?_, ?_, ?_⟩
    · rw [hc, hp]
      simp only [List.append_assoc]
    · simp [issued_append, issued_cons, issued_nil, Call.kind, hk]
    · simp [issued_append, issued_cons, issued_nil, Call.kind, hk]
    · simp [issued_append, issued_cons, issued_nil, Call.kind, hk]
  · rw [hc] at hmem2
    simp [issued_append, issued_cons, issued_nil, Call.kind, hk] at hmem2
  · rw [hc] at hmem2
    simp [issued_append, issued_cons, issued_nil, Call.kind, hk] at hmem2
  · obtain ⟨s1, s2, hp⟩ := sendPeripherals_calls fl driver_ config
      (self.resolutionDecision driver_ config dev).self dev2
    rw [hfm, hfli] at hp
    refine ⟨[Call.getImageConfig Status.Ok] ++
        (self.resolutionDecision driver_ config dev).calls ++
        [Call.getEnabledStreams m1 Status.Ok, Call.stopStreams m1 Status.Ok,
          Call.setImageConfig
            (applyImageSettings fl config (self.resolutionDecision driver_ config dev).cfg) st]
        ++ callbackCalls callback ++ [Call.startStreams m1 st2],
      s1, s2, ?_, ?_, ?_, ?_⟩
    · rw [hc, hp]
      simp only [List.append_assoc]
    · simp [issued_append, issued_cons, issued_nil, Call.kind, hk, issued_callbackCalls_of_ne]
    · simp [issued_append, issued_cons, issued_nil, Call.kind, hk, issued_callbackCalls_of_ne]
    · simp [issued_append, issued_cons, issued_nil, Call.kind, hk, issued_callbackCalls_of_ne]

/-- C19: in every cycle that gets past the stream-stop step (it issues
`setImageConfig`), `setMotorSpeed` is issued if and only if `motor_supported_`
was set and `setLightingConfig` if and only if `lighting_supported_` was set,
whatever the statuses of the calls before them, and the last call of the cycle
is the one `networkTimeSynchronization`, with the desired flag. -/
theorem feature_writes_do_not_block {F σ : Type} (fl : FloatOps F) (driver_ : Channel F σ)
    (callback : Option (σ → σ)) (config : DesiredConfig F) (self : Reconfigure) (dev : σ)
    (hpast : ∃ cfg st, Call.setImageConfig cfg st ∈
      (self.configureCamera fl driver_ callback config dev).2.2) :
    ((∃ rpm st, Call.setMotorSpeed rpm st ∈
        (self.configureCamera fl driver_ callback config dev).2.2) ↔
      self.motor_supported_ = true) ∧
    ((∃ leds st, Call.setLightingConfig leds st ∈
        (self.configureCamera fl driver_ callback config dev).2.2) ↔
      self.lighting_supported_ = true) ∧
    (self.configureCamera fl driver_ callback config dev).2.2.getLast? =
      some (Call.networkTimeSynchronization config.network_time_sync) ∧
    issued CallKind.networkTimeSynchronization
        (self.configureCamera fl driver_ callback config dev).2.2 =
      [Call.networkTimeSynchronization config.network_time_sync] := by
  obtain ⟨before, st1, st2, hc, hm, hl, hn⟩ :=
    configureCamera_past_stop fl driver_ callback config self dev hpast
  have hmotor : issued CallKind.setMotorSpeed
      (self.configureCamera fl driver_ callback config dev).2.2 =
      if self.motor_supported_ then
        [Call.setMotorSpeed (fl.mul fl.radiansPerSecondToRpm config.motor_speed) st1]
      else [] := by
    rw [hc]
    simp only [issued_append, hm, List.nil_append]
    split_ifs <;> simp [issued_cons, issued_nil, Call.kind]
  have hlight : issued CallKind.setLightingConfig
      (self.configureCamera fl driver_ callback config dev).2.2 =
      if self.lighting_supported_ then
        [Call.setLightingConfig (desiredLeds fl config) st2]
      else [] := by
    rw [hc]
    simp only [issued_append, hl, List.nil_append]
    split_ifs <;> simp [issued_cons, issued_nil, Call.kind]
  refine ⟨⟨?_, ?_⟩, ⟨?_, ?_⟩, ?_, ?_⟩
  · rintro ⟨rpm, st, h⟩
    have h2 := (mem_issued CallKind.setMotorSpeed _ _).2 ⟨h, rfl⟩
    rw [hmotor] at h2
    by_contra hf
    rw [if_neg hf] at h2
    cases h2
  · intro h
    refine ⟨fl.mul fl.radiansPerSecondToRpm config.motor_speed, st1,
      ((mem_issued CallKind.setMotorSpeed _ _).1 ?_).1⟩
    rw [hmotor, if_pos h]
    exact List.mem_singleton.2 rfl
  · rintro ⟨leds, st, h⟩
    have h2 := (mem_issued CallKind.setLightingConfig _ _).2 ⟨h, rfl⟩
    rw [hlight] at h2
    by_contra hf
    rw [if_neg hf] at h2
    cases h2
  · intro h
    refine ⟨desiredLeds fl config, st2,
      ((mem_issued CallKind.setLightingConfig _ _).1 ?_).1⟩
    rw [hlight, if_pos h]
    exact List.mem_singleton.2 rfl
  · rw [hc]
    simp
  · rw [hc]
    simp only [issued_append, hn, List.nil_append]
    split_ifs <;> simp [issued_cons, issued_nil, Call.kind]

/-- C19, on a sensor whose image-config write fails and whose motor is
unsupported: the lighting write and the time synchronisation still follow. -/
theorem feature_writes_do_not_block_witness :
    (Reconfigure.init.configureCamera symbolicOps
      { writeFails with motorStatus := Status.Unsupported }.driver none
      (desired "800x544x128") 0).2.2.map Call.kind =
      [CallKind.getImageConfig, CallKind.setImageConfig, CallKind.setMotorSpeed,
        CallKind.setLightingConfig, CallKind.networkTimeSynchronization] ∧
    (Reconfigure.init.configureCamera symbolicOps
      { writeFails with motorStatus := Status.Unsupported }.driver none
      (desired "800x544x128") 0).2.2.getLast? =
      some (Call.networkTimeSynchronization true) :=
  ⟨by decide,
    (feature_writes_do_not_block symbolicOps
      { writeFails with motorStatus := Status.Unsupported }.driver none
      (desired "800x544x128") Reconfigure.init 0
      ⟨applyImageSettings symbolicOps (desired "800x544x128") liveImage, Status.other (-2),
        by decide⟩).2.2.1⟩

/-! ## The contract of `changeResolution` -/

theorem toInt32_inInt32 (u : Nat) : InInt32 (toInt32 u) := by
  unfold InInt32 toInt32
  split_ifs <;> omega

/-- C20: `changeResolution` returns true if and only if the requested triple
differs from the config's current one and equals a row of the capability
table, the table being the cached one when it is not empty and otherwise the
one fetched with status Ok. When it returns true the config holds the
requested width, height and disparities; when it returns false the config is
the one passed in; either way every other field is as passed in. -/
theorem changeResolution_contract {F σ : Type} (driver_ : Channel F σ) (self : Reconfigure)
    (dev : σ) (cfg : ImageConfig F) (width height disparities : Int) :
    ((self.changeResolution driver_ dev cfg width height disparities).changed = true ↔
      ¬ (width = toInt32 cfg.width ∧ height = toInt32 cfg.height ∧
          disparities = toInt32 cfg.disparities) ∧
      ((self.device_modes_ ≠ [] ∧ ∃ m ∈ self.device_modes_,
          width = toInt32 m.width ∧ height = toInt32 m.height ∧
          disparities = toInt32 m.disparities) ∨
        (self.device_modes_ = [] ∧ (driver_.getDeviceModes dev).1 = Status.Ok ∧
          ∃ m ∈ (driver_.getDeviceModes dev).2.1,
            width = toInt32 m.width ∧ height = toInt32 m.height ∧
            disparities = toInt32 m.disparities))) ∧
    ((self.changeResolution driver_ dev cfg width height disparities).changed = true →
      toInt32 (self.changeResolution driver_ dev cfg width height disparities).cfg.width
        = width ∧
      toInt32 (self.changeResolution driver_ dev cfg width height disparities).cfg.height
        = height ∧
      toInt32 (self.changeResolution driver_ dev cfg width height disparities).cfg.disparities
        = disparities ∧
      (self.changeResolution driver_ dev cfg width height disparities).cfg.width
        = toUInt32 width ∧
      (self.changeResolution driver_ dev cfg width height disparities).cfg.height
        = toUInt32 height ∧
      (self.changeResolution driver_ dev cfg width height disparities).cfg.disparities
        = toUInt32 disparities) ∧
    ((self.changeResolution driver_ dev cfg width height disparities).changed = false →
      (self.changeResolution driver_ dev cfg width height disparities).cfg = cfg) ∧
    (self.changeResolution driver_ dev cfg width height disparities).cfg =
      { cfg with
        width := (self.changeResolution driver_ dev cfg width height disparities).cfg.width
        height := (self.changeResolution driver_ dev cfg width height disparities).cfg.height
        disparities :=
          (self.changeResolution driver_ dev cfg width height disparities).cfg.disparities } := by
  have hiff := changeResolution_changed driver_ self dev cfg width height disparities
  simp only [supportedMode_eq_true_iff] at hiff
  have hcfg : (self.changeResolution driver_ dev cfg width height disparities).cfg = cfg ∨
      (self.changeResolution driver_ dev cfg width height disparities).changed = true ∧
      (self.changeResolution driver_ dev cfg width height disparities).cfg =
        cfg.setResolution width height disparities := by
    simp only [Reconfigure.changeResolution]
    split_ifs <;> simp
  refine ⟨hiff, fun hch => ?_, changeResolution_cfg_of_not_changed driver_ self dev cfg _ _ _, ?_⟩
  · have hset : (self.changeResolution driver_ dev cfg width height disparities).cfg =
        cfg.setResolution width height disparities := by
      simp only [Reconfigure.changeResolution] at hch ⊢
      split_ifs at hch ⊢ <;> rfl
    have hrange : InInt32 width ∧ InInt32 height ∧ InInt32 disparities := by
      rcases (hiff.1 hch).2 with ⟨-, m, -, h1, h2, h3⟩ | ⟨-, -, m, -, h1, h2, h3⟩ <;>
        exact ⟨h1 ▸ toInt32_inInt32 _, h2 ▸ toInt32_inInt32 _, h3 ▸ toInt32_inInt32 _⟩
    rw [hset]
    exact ⟨toInt32_toUInt32 _ hrange.1, toInt32_toUInt32 _ hrange.2.1,
      toInt32_toUInt32 _ hrange.2.2, rfl, rfl, rfl⟩
  · rcases hcfg with h | ⟨-, h⟩
    · rw [h]
    · rw [h]; rfl

/-! ## The feature flags, exactly -/

/-- The motor flag after the peripherals block and the motor calls of the
block, in terms of the driver's answer. -/
theorem sendPeripherals_motor_exact {F σ : Type} (fl : FloatOps F) (driver_ : Channel F σ)
    (config : DesiredConfig F) (self : Reconfigure) (dev : σ) :
    (((sendPeripherals fl driver_ config self dev).1.motor_supported_ = false ↔
        self.motor_supported_ = false ∨
        ∃ rpm, Call.setMotorSpeed rpm Status.Unsupported ∈
          (sendPeripherals fl driver_ config self dev).2.2)) ∧
    (∀ rpm st, Call.setMotorSpeed rpm st ∈ (sendPeripherals fl driver_ config self dev).2.2 →
      self.motor_supported_ = true) := by
  have hm := sendMotorSpeed_flags fl driver_ config self dev
  have hl := sendLighting_flags fl driver_ config (sendMotorSpeed fl driver_ config self dev).1
    (sendMotorSpeed fl driver_ config self dev).2.1
  have hflag : (sendPeripherals fl driver_ config self dev).1.motor_supported_ =
      (self.motor_supported_ && !decide ((driver_.setMotorSpeed dev
        (fl.mul fl.radiansPerSecondToRpm config.motor_speed)).1 = Status.Unsupported)) := by
    simp only [sendPeripherals]
    rw [hl.2, hm.1]
  have hcalls : issued CallKind.setMotorSpeed (sendPeripherals fl driver_ config self dev).2.2 =
      if self.motor_supported_ then
        [Call.setMotorSpeed (fl.mul fl.radiansPerSecondToRpm config.motor_speed)
          (driver_.setMotorSpeed dev (fl.mul fl.radiansPerSecondToRpm config.motor_speed)).1]
      else [] := by
    simp only [sendPeripherals, issued_append, sendMotorSpeed_calls, sendLighting_calls]
    split_ifs <;> simp [issued_cons, issued_nil, Call.kind]
  have hmem : ∀ rpm st, Call.setMotorSpeed rpm st ∈
      (sendPeripherals fl driver_ config self dev).2.2 ↔
      self.motor_supported_ = true ∧
        rpm = fl.mul fl.radiansPerSecondToRpm config.motor_speed ∧
        st = (driver_.setMotorSpeed dev
          (fl.mul fl.radiansPerSecondToRpm config.motor_speed)).1 := by
    intro rpm st
    have h := mem_issued CallKind.setMotorSpeed (Call.setMotorSpeed rpm st)
      (sendPeripherals fl driver_ config self dev).2.2
    rw [hcalls] at h
    simp only [Call.kind, and_true] at h
    rw [← h]
    by_cases hs : self.motor_supported_ = true <;> simp [hs]
  refine ⟨?_, fun rpm st h => ((hmem rpm st).1 h).1⟩
  rw [hflag]
  simp only [hmem]
  by_cases hs : self.motor_supported_ = true
  · by_cases hu : (driver_.setMotorSpeed dev
        (fl.mul fl.radiansPerSecondToRpm config.motor_speed)).1 = Status.Unsupported
    · simp [hs, hu]
    · simp [hs, hu]
      exact fun h => hu h.symm
  · simp [hs]

/-- The lighting flag after the peripherals block and the lighting calls of
the block, in terms of the driver's answer. -/
theorem sendPeripherals_lighting_exact {F σ : Type} (fl : FloatOps F)
    (driver_ : Channel F σ) (config : DesiredConfig F) (self : Reconfigure) (dev : σ) :
    (((sendPeripherals fl driver_ config self dev).1.lighting_supported_ = false ↔
        self.lighting_supported_ = false ∨
        ∃ leds, Call.setLightingConfig leds Status.Unsupported ∈
          (sendPeripherals fl driver_ config self dev).2.2)) ∧
    (∀ leds st, Call.setLightingConfig leds st ∈
        (sendPeripherals fl driver_ config self dev).2.2 →
      self.lighting_supported_ = true) := by
  have hm := sendMotorSpeed_flags fl driver_ config self dev
  have hl := sendLighting_flags fl driver_ config (sendMotorSpeed fl driver_ config self dev).1
    (sendMotorSpeed fl driver_ config self dev).2.1
  have hflag : (sendPeripherals fl driver_ config self dev).1.lighting_supported_ =
      (self.lighting_supported_ && !decide ((driver_.setLightingConfig
        (sendMotorSpeed fl driver_ config self dev).2.1
        (desiredLeds fl config)).1 = Status.Unsupported)) := by
    simp only [sendPeripherals]
    rw [hl.1, hm.2]
  have hcalls : issued CallKind.setLightingConfig
      (sendPeripherals fl driver_ config self dev).2.2 =
      if self.lighting_supported_ then
        [Call.setLightingConfig (desiredLeds fl config)
          (driver_.setLightingConfig (sendMotorSpeed fl driver_ config self dev).2.1
            (desiredLeds fl config)).1]
      else [] := by
    simp only [sendPeripherals, issued_append, sendMotorSpeed_calls, sendLighting_calls, hm.2]
    split_ifs <;> simp [issued_cons, issued_nil, Call.kind]
  have hmem : ∀ leds st, Call.setLightingConfig leds st ∈
      (sendPeripherals fl driver_ config self dev).2.2 ↔
      self.lighting_supported_ = true ∧ leds = desiredLeds fl config ∧
        st = (driver_.setLightingConfig (sendMotorSpeed fl driver_ config self dev).2.1
          (desiredLeds fl config)).1 := by
    intro leds st
    have h := mem_issued CallKind.setLightingConfig (Call.setLightingConfig leds st)
      (sendPeripherals fl driver_ config self dev).2.2
    rw [hcalls] at h
    simp only [Call.kind, and_true] at h
    rw [← h]
    by_cases hs : self.lighting_supported_ = true <;> simp [hs]
  refine ⟨?_, fun leds st h => ((hmem leds st).1 h).1⟩
  rw [hflag]
  simp only [hmem]
  by_cases hs : self.lighting_supported_ = true
  · by_cases hu : (driver_.setLightingConfig (sendMotorSpeed fl driver_ config self dev).2.1
        (desiredLeds fl config)).1 = Status.Unsupported
    · simp [hs, hu]
    · simp [hs, hu]
      exact fun h => hu h.symm
  · simp [hs]

theorem mem_append_iff_right_of_issued_nil {F : Type} (k : CallKind) (c : Call F)
    (xs ys : List (Call F)) (hk : c.kind = k) (hxs : issued k xs = []) :
    c ∈ xs ++ ys ↔ c ∈ ys :=
  ⟨mem_of_mem_append_of_issued_nil k c xs ys hk hxs, List.mem_append_right xs⟩

theorem mem_append_iff_left_of_issued_nil {F : Type} (k : CallKind) (c : Call F)
    (xs ys : List (Call F)) (hk : c.kind = k) (hys : issued k ys = []) :
    c ∈ xs ++ ys ↔ c ∈ xs := by
  constructor
  · intro h
    rcases List.mem_append.1 h with h | h
    · exact h
    · have := (mem_issued k c ys).2 ⟨h, hk⟩
      rw [hys] at this; cases this
  · exact List.mem_append_left ys

theorem configureCamera_motor_exact {F σ : Type} (fl : FloatOps F) (driver_ : Channel F σ)
    (callback : Option (σ → σ)) (config : DesiredConfig F) (self : Reconfigure) (dev : σ) :
    ((self.configureCamera fl driver_ callback config dev).1.motor_supported_ = false ↔
        self.motor_supported_ = false ∨
        ∃ rpm, Call.setMotorSpeed rpm Status.Unsupported ∈
          (self.configureCamera fl driver_ callback config dev).2.2) ∧
    (∀ rpm st, Call.setMotorSpeed rpm st ∈
        (self.configureCamera fl driver_ callback config dev).2.2 →
      self.motor_supported_ = true) := by
  obtain ⟨s0, hm, -, ⟨h1, h2⟩ | ⟨before, dev2, hb, h1, h2⟩⟩ :=
    configureCamera_feature fl driver_ callback config self dev CallKind.setMotorSpeed
      (Or.inl rfl)
  · have hno : ∀ rpm st, Call.setMotorSpeed rpm st ∉
        (self.configureCamera fl driver_ callback config dev).2.2 := by
      intro rpm st h
      have := (mem_issued CallKind.setMotorSpeed _ _).2 ⟨h, rfl⟩
      rw [h2] at this; cases this
    refine ⟨?_, fun rpm st h => absurd h (hno rpm st)⟩
    rw [h1, hm]
    exact ⟨Or.inl, fun h => h.elim id (fun ⟨rpm, hr⟩ => absurd hr (hno rpm _))⟩
  · obtain ⟨p1, p2⟩ := sendPeripherals_motor_exact fl driver_ config s0 dev2
    have hmem : ∀ rpm st, Call.setMotorSpeed rpm st ∈
        (self.configureCamera fl driver_ callback config dev).2.2 ↔
        Call.setMotorSpeed rpm st ∈ (sendPeripherals fl driver_ config s0 dev2).2.2 := by
      intro rpm st
      rw [h2]
      exact mem_append_iff_right_of_issued_nil CallKind.setMotorSpeed _ _ _ rfl hb
    simp only [hmem, h1, ← hm]
    exact ⟨p1, p2⟩

theorem configureCamera_lighting_exact {F σ : Type} (fl : FloatOps F)
    (driver_ : Channel F σ) (callback : Option (σ → σ)) (config : DesiredConfig F)
    (self : Reconfigure) (dev : σ) :
    ((self.configureCamera fl driver_ callback config dev).1.lighting_supported_ = false ↔
        self.lighting_supported_ = false ∨
        ∃ leds, Call.setLightingConfig leds Status.Unsupported ∈
          (self.configureCamera fl driver_ callback config dev).2.2) ∧
    (∀ leds st, Call.setLightingConfig leds st ∈
        (self.configureCamera fl driver_ callback config dev).2.2 →
      self.lighting_supported_ = true) := by
  obtain ⟨s0, -, hm, ⟨h1, h2⟩ | ⟨before, dev2, hb, h1, h2⟩⟩ :=
    configureCamera_feature fl driver_ callback config self dev CallKind.setLightingConfig
      (Or.inr rfl)
  · have hno : ∀ leds st, Call.setLightingConfig leds st ∉
        (self.configureCamera fl driver_ callback config dev).2.2 := by
      intro leds st h
      have := (mem_issued CallKind.setLightingConfig _ _).2 ⟨h, rfl⟩
      rw [h2] at this; cases this
    refine ⟨?_, fun leds st h => absurd h (hno leds st)⟩
    rw [h1, hm]
    exact ⟨Or.inl, fun h => h.elim id (fun ⟨leds, hr⟩ => absurd hr (hno leds _))⟩
  · obtain ⟨p1, p2⟩ := sendPeripherals_lighting_exact fl driver_ config s0 dev2
    have hmem : ∀ leds st, Call.setLightingConfig leds st ∈
        (self.configureCamera fl driver_ callback config dev).2.2 ↔
        Call.setLightingConfig leds st ∈ (sendPeripherals fl driver_ config s0 dev2).2.2 := by
      intro leds st
      rw [h2]
      exact mem_append_iff_right_of_issued_nil CallKind.setLightingConfig _ _ _ rfl hb
    simp only [hmem, h1, ← hm]
    exact ⟨p1, p2⟩

/-- C13: both feature flags start true; over any reconfigure event, through
whichever schema, `motor_supported_` goes from true to false if and only if a
`setMotorSpeed` of that event returned `Unsupported` (so any other status
leaves it true), a false flag stays false, and `setMotorSpeed` is issued only
with the flag true; the same holds for `lighting_supported_` and
`setLightingConfig`. Each flag thus depends on its own feature's answer only. -/
theorem flags_fall_only_on_unsupported {F σ : Type} (fl : FloatOps F) (driver_ : Channel F σ)
    (callback : Option (σ → σ)) (schema : Schema) (config : DesiredConfig F)
    (self : Reconfigure) (dev : σ) :
    ((Reconfigure.construct driver_ dev).1.motor_supported_ = true ∧
      (Reconfigure.construct driver_ dev).1.lighting_supported_ = true) ∧
    ((self.motor_supported_ = true ∧
        (self.callback fl driver_ callback schema config dev).1.motor_supported_ = false ↔
      ∃ rpm, Call.setMotorSpeed rpm Status.Unsupported ∈
        (self.callback fl driver_ callback schema config dev).2.2) ∧
      (self.motor_supported_ = false →
        (self.callback fl driver_ callback schema config dev).1.motor_supported_ = false)) ∧
    ((self.lighting_supported_ = true ∧
        (self.callback fl driver_ callback schema config dev).1.lighting_supported_ = false ↔
      ∃ leds, Call.setLightingConfig leds Status.Unsupported ∈
        (self.callback fl driver_ callback schema config dev).2.2) ∧
      (self.lighting_supported_ = false →
        (self.callback fl driver_ callback schema config dev).1.lighting_supported_
          = false)) := by
  obtain ⟨extra, he, hx, hm, hl, -⟩ :=
    callback_decompose fl driver_ callback schema config self dev
  have hxn : ∀ k : CallKind, k ≠ CallKind.getImuConfig → k ≠ CallKind.setImuConfig →
      issued k extra = [] := by
    intro k h1 h2
    rw [issued_eq_nil_iff]
    intro c hc hk
    rcases hx c hc with h | h
    · exact h1 (hk ▸ h)
    · exact h2 (hk ▸ h)
  obtain ⟨m1, m2⟩ := configureCamera_motor_exact fl driver_ callback config self dev
  obtain ⟨l1, l2⟩ := configureCamera_lighting_exact fl driver_ callback config self dev
  have hmm : ∀ rpm st, Call.setMotorSpeed rpm st ∈
      (self.callback fl driver_ callback schema config dev).2.2 ↔
      Call.setMotorSpeed rpm st ∈ (self.configureCamera fl driver_ callback config dev).2.2 := by
    intro rpm st
    rw [he]
    exact mem_append_iff_left_of_issued_nil CallKind.setMotorSpeed _ _ _ rfl
      (hxn _ (by decide) (by decide))
  have hlm : ∀ leds st, Call.setLightingConfig leds st ∈
      (self.callback fl driver_ callback schema config dev).2.2 ↔
      Call.setLightingConfig leds st ∈
        (self.configureCamera fl driver_ callback config dev).2.2 := by
    intro leds st
    rw [he]
    exact mem_append_iff_left_of_issued_nil CallKind.setLightingConfig _ _ _ rfl
      (hxn _ (by decide) (by decide))
  refine ⟨?_, ⟨?_, ?_⟩, ⟨?_, ?_⟩⟩
  · simp only [Reconfigure.construct]
    split_ifs <;> first | exact ⟨rfl, rfl⟩ | (split <;> exact ⟨rfl, rfl⟩)
  · simp only [hmm, hm]
    constructor
    · rintro ⟨h1, h2⟩
      rcases m1.1 h2 with h | h
      · rw [h1] at h; cases h
      · exact h
    · rintro ⟨rpm, h⟩
      exact ⟨m2 rpm _ h, m1.2 (Or.inr ⟨rpm, h⟩)⟩
  · intro h
    rw [hm]
    exact m1.2 (Or.inl h)
  · simp only [hlm, hl]
    constructor
    · rintro ⟨h1, h2⟩
      rcases l1.1 h2 with h | h
      · rw [h1] at h; cases h
      · exact h
    · rintro ⟨leds, h⟩
      exact ⟨l2 leds _ h, l1.2 (Or.inr ⟨leds, h⟩)⟩
  · intro h
    rw [hl]
    exact l1.2 (Or.inl h)

/-- C13, on a sensor without a motor: the event takes the motor flag down and
leaves the lighting flag up. -/
theorem flags_fall_only_on_unsupported_witness :
    (Reconfigure.init.callback symbolicOps motorless.driver none Schema.sl_bm_cmv2000
      (desired "800x544x128") 0).1.motor_supported_ = false ∧
    (Reconfigure.init.callback symbolicOps motorless.driver none Schema.sl_bm_cmv2000
      (desired "800x544x128") 0).1.lighting_supported_ = true :=
  ⟨((flags_fall_only_on_unsupported symbolicOps motorless.driver none Schema.sl_bm_cmv2000
      (desired "800x544x128") Reconfigure.init 0).2.1.1.2
      ⟨symbolicOps.mul symbolicOps.radiansPerSecondToRpm (desired "800x544x128").motor_speed,
        by decide⟩).2,
    by decide⟩

/-! ## The IMU change-set -/

/-- The loop body of `configureImu` does to one entry what the specification
says: a differing entry is updated and staged, any other entry is kept. -/
theorem imuLoopBody_eq_spec {F : Type} (config : DesiredConfig F) (c : ImuConfig)
    (changed : List ImuConfig) :
    imuLoopBody config (c, changed) =
      (if specDiffers config c then specUpdated config c else c,
        if specDiffers config c then changed ++ [specUpdated config c] else changed) := by
  have hag : "accelerometer" ≠ "gyroscope" := by decide
  have ham : "accelerometer" ≠ "magnetometer" := by decide
  have hgm : "gyroscope" ≠ "magnetometer" := by decide
  by_cases h1 : c.name = "accelerometer"
  · by_cases hd : c.enabled ≠ config.accelerometer_enabled ∨
        toInt32 c.rateTableIndex ≠ config.accelerometer_rate ∨
        toInt32 c.rangeTableIndex ≠ config.accelerometer_range
    · simp [imuLoopBody, updateSensor, specDiffers, specDesiredFor, specUpdated, h1, hd,
        hag.symm, ham.symm]
    · simp [imuLoopBody, updateSensor, specDiffers, specDesiredFor, h1, hd,
        hag.symm, ham.symm]
  · by_cases h2 : c.name = "gyroscope"
    · by_cases hd : c.enabled ≠ config.gyroscope_enabled ∨
          toInt32 c.rateTableIndex ≠ config.gyroscope_rate ∨
          toInt32 c.rangeTableIndex ≠ config.gyroscope_range
      · simp [imuLoopBody, updateSensor, specDiffers, specDesiredFor, specUpdated, h2, hd,
          hag, hgm.symm]
      · simp [imuLoopBody, updateSensor, specDiffers, specDesiredFor, h2, hd, hag, hgm.symm]
    · by_cases h3 : c.name = "magnetometer"
      · by_cases hd : c.enabled ≠ config.magnetometer_enabled ∨
            toInt32 c.rateTableIndex ≠ config.magnetometer_rate ∨
            toInt32 c.rangeTableIndex ≠ config.magnetometer_range
        · simp [imuLoopBody, updateSensor, specDiffers, specDesiredFor, specUpdated, h3, hd,
            ham, hgm]
        · simp [imuLoopBody, updateSensor, specDiffers, specDesiredFor, h3, hd, ham, hgm]
      · have e1 : ¬ ("accelerometer" = c.name) := fun h => h1 h.symm
        have e2 : ¬ ("gyroscope" = c.name) := fun h => h2 h.symm
        have e3 : ¬ ("magnetometer" = c.name) := fun h => h3 h.symm
        simp [imuLoopBody, updateSensor, specDiffers, specDesiredFor, h1, h2, h3, e1, e2, e3]

theorem imuLoop_eq_spec {F : Type} (config : DesiredConfig F) (cache : List ImuConfig) :
    ∀ changed : List ImuConfig,
      imuLoop config cache changed =
        (specUpdatedCache config cache, changed ++ specChangeSet config cache) := by
  induction cache with
  | nil => intro changed; simp [imuLoop, specUpdatedCache, specChangeSet]
  | cons c rest ih =>
    intro changed
    simp only [imuLoop, imuLoopBody_eq_spec, ih]
    by_cases hd : specDiffers config c = true
    · simp [specUpdatedCache, specChangeSet, hd]
    · simp [specUpdatedCache, specChangeSet, hd]

theorem specDesiredFor_inRange {F : Type} (config : DesiredConfig F) (hr : config.imuInRange)
    (name : String) (enabled : Bool) (rate range : Int)
    (h : specDesiredFor config name = some (enabled, rate, range)) :
    InInt32 rate ∧ InInt32 range := by
  obtain ⟨h1, h2, h3, h4, h5, h6, -⟩ := hr
  unfold specDesiredFor at h
  split_ifs at h
  · simp only [Option.some.injEq, Prod.mk.injEq] at h
    obtain ⟨-, rfl, rfl⟩ := h
    exact ⟨h1, h2⟩
  · simp only [Option.some.injEq, Prod.mk.injEq] at h
    obtain ⟨-, rfl, rfl⟩ := h
    exact ⟨h3, h4⟩
  · simp only [Option.some.injEq, Prod.mk.injEq] at h
    obtain ⟨-, rfl, rfl⟩ := h
    exact ⟨h5, h6⟩

theorem specUpdated_name {F : Type} (config : DesiredConfig F) (c : ImuConfig) :
    (specUpdated config c).name = c.name := by
  unfold specUpdated
  split <;> rfl

/-- C18: the loop of `configureImu` computes the change-set and the cache of
the specification: the change-set is the list, in cache order, of the cached
entries named accelerometer, gyroscope or magnetometer that differ from the
desired enabled flag, rate index or range index of their sensor, each with
the desired values put in; every entry of the change-set is one of the three
sensors and carries the desired values; after the loop every cached entry of
one of the three sensors holds the desired values (these being C++ `int`s);
and an entry with any other name stays as and where it was. -/
theorem imu_change_set_is_spec {F : Type} (config : DesiredConfig F)
    (cache : List ImuConfig) :
    imuLoop config cache [] = (specUpdatedCache config cache, specChangeSet config cache) ∧
    (∀ c ∈ (imuLoop config cache []).2,
      (c.name = "accelerometer" ∨ c.name = "gyroscope" ∨ c.name = "magnetometer") ∧
      ∃ enabled rate range, specDesiredFor config c.name = some (enabled, rate, range) ∧
        c.enabled = enabled ∧ c.rateTableIndex = toUInt32 rate ∧
        c.rangeTableIndex = toUInt32 range) ∧
    (config.imuInRange → ∀ c ∈ (imuLoop config cache []).1, ∀ enabled rate range,
      specDesiredFor config c.name = some (enabled, rate, range) →
        c.enabled = enabled ∧ toInt32 c.rateTableIndex = rate ∧
        toInt32 c.rangeTableIndex = range) ∧
    ((imuLoop config cache []).1.length = cache.length ∧
      ∀ (i : Nat) (c : ImuConfig), cache[i]? = some c →
        c.name ≠ "accelerometer" → c.name ≠ "gyroscope" → c.name ≠ "magnetometer" →
        (imuLoop config cache []).1[i]? = some c) := by
  have hspec := imuLoop_eq_spec config cache []
  rw [List.nil_append] at hspec
  refine ⟨hspec, ?_, ?_, ?_, ?_⟩
  · intro c hc
    rw [hspec] at hc
    simp only [specChangeSet, List.mem_map, List.mem_filter] at hc
    obtain ⟨c0, ⟨-, hd⟩, rfl⟩ := hc
    cases hdes : specDesiredFor config c0.name with
    | none => simp [specDiffers, hdes] at hd
    | some t =>
      obtain ⟨e, r, g⟩ := t
      have hname : c0.name = "accelerometer" ∨ c0.name = "gyroscope" ∨
          c0.name = "magnetometer" := by
        unfold specDesiredFor at hdes
        split_ifs at hdes with h1 h2 h3
        · exact Or.inl h1
        · exact Or.inr (Or.inl h2)
        · exact Or.inr (Or.inr h3)
      rw [specUpdated_name]
      refine ⟨hname, e, r, g, hdes, ?_⟩
      simp [specUpdated, hdes]
  · intro hr c hc e r g hdes
    rw [hspec] at hc
    simp only [specUpdatedCache, List.mem_map] at hc
    obtain ⟨c0, -, rfl⟩ := hc
    by_cases hd : specDiffers config c0 = true
    · rw [if_pos hd] at hdes ⊢
      rw [specUpdated_name] at hdes
      obtain ⟨hr1, hr2⟩ := specDesiredFor_inRange config hr _ _ _ _ hdes
      have hu : specUpdated config c0 =
          { c0 with enabled := e, rateTableIndex := toUInt32 r,
                    rangeTableIndex := toUInt32 g } := by
        simp only [specUpdated, hdes]
      rw [hu]
      exact ⟨rfl, toInt32_toUInt32 _ hr1, toInt32_toUInt32 _ hr2⟩
    · rw [if_neg hd] at hdes ⊢
      simp only [specDiffers, hdes, ne_eq, decide_eq_true_eq, not_or, not_not] at hd
      exact hd
  · rw [hspec]
    simp [specUpdatedCache]
  · intro i c hi h1 h2 h3
    rw [hspec]
    have hnone : specDesiredFor config c.name = none := by
      simp [specDesiredFor, h1, h2, h3]
    simp [specUpdatedCache, List.getElem?_map, hi, specDiffers, hnone]

/-! ## The IMU write -/

/-- The calls of `applyImu`: one `setImuConfig` when the change-set of the
specification is not empty or the samples-per-message differ, none otherwise. -/
theorem applyImu_calls {F σ : Type} (driver_ : Channel F σ) (config : DesiredConfig F)
    (self : Reconfigure) (dev : σ) :
    ∃ st, (applyImu driver_ config self dev).2.2 =
      if specChangeSet config self.imu_configs_ ≠ [] ∨
          toInt32 self.imu_samples_per_message_ ≠ config.imu_samples_per_message then
        [Call.setImuConfig false (toUInt32 config.imu_samples_per_message)
          (specChangeSet config self.imu_configs_) st]
      else [] := by
  have hspec := imuLoop_eq_spec config self.imu_configs_ []
  rw [List.nil_append] at hspec
  refine ⟨(driver_.setImuConfig dev false (toUInt32 config.imu_samples_per_message)
    (specChangeSet config self.imu_configs_)).1, ?_⟩
  simp only [applyImu, hspec, List.length_pos, ne_eq]
  split_ifs <;> rfl

theorem applyImu_failed_write {F σ : Type} (driver_ : Channel F σ) (config : DesiredConfig F)
    (self : Reconfigure) (dev : σ) (storeInFlash : Bool) (spm : Nat)
    (changed : List ImuConfig) (st : Status)
    (hmem : Call.setImuConfig storeInFlash spm changed st ∈
      (applyImu driver_ config self dev).2.2)
    (hst : st ≠ Status.Ok) :
    (applyImu driver_ config self dev).1.imu_configs_ = [] := by
  simp only [applyImu] at hmem ⊢
  split_ifs at hmem ⊢ with h1 h2
  · rfl
  · simp only [List.mem_singleton, Call.setImuConfig.injEq] at hmem
    simp only [ne_eq, not_not] at h2
    exact absurd (hmem.2.2.2.trans h2) hst
  · cases hmem

/-- C14: when a `setImuConfig` of a `configureImu` call returns a failure
status, the cached sensor list is empty when the call returns, and so the next
`configureImu` call, for whatever desired state, starts with `getImuConfig`. -/
theorem failed_imu_write_clears_cache {F σ : Type} (driver_ : Channel F σ)
    (config : DesiredConfig F) (self : Reconfigure) (dev : σ) (storeInFlash : Bool)
    (spm : Nat) (changed : List ImuConfig) (st : Status)
    (hmem : Call.setImuConfig storeInFlash spm changed st ∈
      (self.configureImu driver_ config dev).2.2)
    (hst : st ≠ Status.Ok) :
    (self.configureImu driver_ config dev).1.imu_configs_ = [] ∧
    ∀ (next : DesiredConfig F) (dev2 : σ), ∃ rest,
      ((self.configureImu driver_ config dev).1.configureImu driver_ next dev2).2.2 =
        Call.getImuConfig (driver_.getImuConfig dev2).1 :: rest := by
  have hempty : (self.configureImu driver_ config dev).1.imu_configs_ = [] := by
    simp only [Reconfigure.configureImu] at hmem ⊢
    split_ifs at hmem ⊢ with h1 h2
    · simp at hmem
    · simp only [List.singleton_append, List.mem_cons] at hmem
      rcases hmem with h | h
      · cases h
      · exact applyImu_failed_write driver_ config _ _ _ _ _ _ h hst
    · exact applyImu_failed_write driver_ config _ _ _ _ _ _ hmem hst
  refine ⟨hempty, fun next dev2 => ?_⟩
  generalize (self.configureImu driver_ config dev).1 = s1 at hempty
  simp only [Reconfigure.configureImu, hempty, List.isEmpty_nil, if_true]
  split_ifs
  · exact ⟨[], rfl⟩
  · exact ⟨_, rfl⟩

/-- C14, on a sensor that refuses the IMU write: the cache is empty after the
call. -/
theorem failed_imu_write_clears_cache_witness :
    Call.setImuConfig false 30
        [⟨"accelerometer", true, 2, 1⟩, ⟨"gyroscope", false, 3, 0⟩] (Status.other (-2)) ∈
      (Reconfigure.init.configureImu imuWriteFails.driver (desired "800x544x128") 0).2.2 ∧
    (Reconfigure.init.configureImu imuWriteFails.driver
      (desired "800x544x128") 0).1.imu_configs_ = [] :=
  ⟨by decide,
    (failed_imu_write_clears_cache imuWriteFails.driver (desired "800x544x128")
      Reconfigure.init 0 false 30 [⟨"accelerometer", true, 2, 1⟩, ⟨"gyroscope", false, 3, 0⟩]
      (Status.other (-2)) (by decide) (by decide)).1⟩

/-- C15: in a `configureImu` call whose cache is populated, already or by a
query that returned Ok, `setImuConfig` is issued if and only if the change-set
is not empty or the desired samples-per-message differ from the cached ones;
it is then the only write of the call and carries the flag `false` for the
non-volatile storage, the desired samples-per-message (as `uint32_t`) and the
change-set, which is empty when only the samples-per-message differ. -/
theorem imu_write_iff_difference {F σ : Type} (driver_ : Channel F σ)
    (config : DesiredConfig F) (self : Reconfigure) (dev : σ) :
    (self.imu_configs_ ≠ [] →
      ∃ st, (self.configureImu driver_ config dev).2.2 =
        if specChangeSet config self.imu_configs_ ≠ [] ∨
            toInt32 self.imu_samples_per_message_ ≠ config.imu_samples_per_message then
          [Call.setImuConfig false (toUInt32 config.imu_samples_per_message)
            (specChangeSet config self.imu_configs_) st]
        else []) ∧
    (self.imu_configs_ = [] → (driver_.getImuConfig dev).1 = Status.Ok →
      ∃ st, (self.configureImu driver_ config dev).2.2 =
        Call.getImuConfig Status.Ok ::
        (if specChangeSet config (driver_.getImuConfig dev).2.2.1 ≠ [] ∨
            toInt32 (driver_.getImuConfig dev).2.1 ≠ config.imu_samples_per_message then
          [Call.setImuConfig false (toUInt32 config.imu_samples_per_message)
            (specChangeSet config (driver_.getImuConfig dev).2.2.1) st]
        else [])) ∧
    (InInt32 config.imu_samples_per_message →
      toInt32 (toUInt32 config.imu_samples_per_message) = config.imu_samples_per_message) := by
  refine ⟨fun hne => ?_, fun he hq => ?_, toInt32_toUInt32 _⟩
  · obtain ⟨st, h⟩ := applyImu_calls driver_ config self dev
    refine ⟨st, ?_⟩
    simp only [Reconfigure.configureImu, List.isEmpty_iff, hne, if_false]
    exact h
  · obtain ⟨st, h⟩ := applyImu_calls driver_ config
      { self with imu_samples_per_message_ := (driver_.getImuConfig dev).2.1,
                  imu_configs_ := (driver_.getImuConfig dev).2.2.1 }
      (driver_.getImuConfig dev).2.2.2
    refine ⟨st, ?_⟩
    simp only [Reconfigure.configureImu, List.isEmpty_iff, he, hq, if_true, ne_eq,
      not_true_eq_false, if_false, h]
    rfl

/-! ## The lighting write -/

theorem sendPeripherals_lighting_mem {F σ : Type} (fl : FloatOps F) (driver_ : Channel F σ)
    (config : DesiredConfig F) (self : Reconfigure) (dev : σ) (leds : LightingConfig F)
    (st : Status)
    (h : Call.setLightingConfig leds st ∈ (sendPeripherals fl driver_ config self dev).2.2) :
    leds = desiredLeds fl config := by
  obtain ⟨st1, st2, hc⟩ := sendPeripherals_calls fl driver_ config self dev
  rw [hc] at h
  simp only [List.mem_append, List.mem_singleton] at h
  rcases h with (h | h) | h
  · split_ifs at h
    · simp at h
    · cases h
  · split_ifs at h
    · simp only [List.mem_singleton, Call.setLightingConfig.injEq] at h
      exact h.1
    · cases h
  · cases h

/-- C16: every `setLightingConfig` of a cycle carries flash off and duty cycle
`0.0` when lighting is disabled in the desired state, whatever the desired
flash and duty cycle are, and otherwise the desired flash and the desired duty
fraction times `100.0`. So, in any floating-point arithmetic in which
multiplying by `100.0` is monotone, `0.0 * 100.0` is not below `0.0` and
`1.0 * 100.0` is not above `100.0`, a desired duty fraction between `0.0` and
`1.0` gives a written duty cycle between `0.0` and `100.0`. -/
theorem lighting_write_is_desired {F σ : Type} [Preorder F] (fl : FloatOps F) (one : F)
    (hmono : ∀ a b : F, a ≤ b → fl.mul a fl.lit_100 ≤ fl.mul b fl.lit_100)
    (hzero : fl.lit_0 ≤ fl.mul fl.lit_0 fl.lit_100)
    (hone : fl.mul one fl.lit_100 ≤ fl.lit_100)
    (driver_ : Channel F σ) (callback : Option (σ → σ)) (config : DesiredConfig F)
    (self : Reconfigure) (dev : σ) (leds : LightingConfig F) (st : Status)
    (hmem : Call.setLightingConfig leds st ∈
      (self.configureCamera fl driver_ callback config dev).2.2) :
    (config.lighting = false → leds = { flash := false, dutyCycle := fl.lit_0 }) ∧
    (config.lighting = true →
      leds = { flash := config.flash,
               dutyCycle := fl.mul config.led_duty_cycle fl.lit_100 }) ∧
    (fl.lit_0 ≤ config.led_duty_cycle → config.led_duty_cycle ≤ one →
      fl.lit_0 ≤ leds.dutyCycle ∧ leds.dutyCycle ≤ fl.lit_100) := by
  have hleds : leds = desiredLeds fl config := by
    obtain ⟨s0, -, -, ⟨-, h2⟩ | ⟨before, dev2, hb, -, h2⟩⟩ :=
      configureCamera_feature fl driver_ callback config self dev CallKind.setLightingConfig
        (Or.inr rfl)
    · have := (mem_issued CallKind.setLightingConfig _ _).2 ⟨hmem, rfl⟩
      rw [h2] at this; cases this
    · rw [h2] at hmem
      exact sendPeripherals_lighting_mem fl driver_ config s0 dev2 leds st
        (mem_of_mem_append_of_issued_nil CallKind.setLightingConfig _ _ _ rfl hb hmem)
  subst hleds
  refine ⟨fun h => by simp [desiredLeds, h], fun h => by simp [desiredLeds, h],
    fun h0 h1 => ?_⟩
  have hlow : fl.lit_0 ≤ fl.mul config.led_duty_cycle fl.lit_100 :=
    le_trans hzero (hmono _ _ h0)
  have hhigh : fl.mul config.led_duty_cycle fl.lit_100 ≤ fl.lit_100 :=
    le_trans (hmono _ _ h1) hone
  by_cases hl : config.lighting = false
  · simp only [desiredLeds, hl, if_true]
    exact ⟨le_refl _, le_trans hlow hhigh⟩
  · simp only [desiredLeds, hl, if_false]
    exact ⟨hlow, hhigh⟩

theorem FExpr.le_iff (a b : FExpr) : a ≤ b ↔ a.eval ≤ b.eval := Iff.rfl

/-- C16, on a healthy sensor with the symbolic expressions ordered by value:
the desired duty fraction 0.25 is written as `0.25 * 100`, which lies between
`0` and `100`. -/
theorem lighting_write_is_desired_witness :
    Call.setLightingConfig ⟨false, FExpr.mul (FExpr.lit 25 (-2)) (FExpr.lit 100 0)⟩ Status.Ok ∈
      (Reconfigure.init.configureCamera symbolicOps healthy.driver none
        (desired "800x544x128") 0).2.2 ∧
    symbolicOps.lit_0 ≤ FExpr.mul (FExpr.lit 25 (-2)) (FExpr.lit 100 0) ∧
    FExpr.mul (FExpr.lit 25 (-2)) (FExpr.lit 100 0) ≤ symbolicOps.lit_100 :=
  ⟨by decide,
    (lighting_write_is_desired symbolicOps (FExpr.lit 1 0)
      (fun a b h => by
        rw [FExpr.le_iff] at h ⊢
        simp only [symbolicOps, FExpr.eval]
        exact mul_le_mul_of_nonneg_right h (by norm_num))
      (by rw [FExpr.le_iff]; simp [symbolicOps, FExpr.eval])
      (by rw [FExpr.le_iff]; simp [symbolicOps, FExpr.eval])
      healthy.driver none (desired "800x544x128") Reconfigure.init 0
      ⟨false, FExpr.mul (FExpr.lit 25 (-2)) (FExpr.lit 100 0)⟩ Status.Ok (by decide)).2.2
      (by rw [FExpr.le_iff]; simp [symbolicOps, FExpr.eval, desired]; norm_num)
      (by rw [FExpr.le_iff]; simp [symbolicOps, FExpr.eval, desired]; norm_num)⟩

/-! ## The lazily filled caches -/

theorem sendPeripherals_frame {F σ : Type} (fl : FloatOps F) (driver_ : Channel F σ)
    (config : DesiredConfig F) (self : Reconfigure) (dev : σ) :
    ∃ m l, (sendPeripherals fl driver_ config self dev).1 =
      { self with motor_supported_ := m, lighting_supported_ := l } := by
  simp only [sendPeripherals, sendMotorSpeed, sendLighting]
  split_ifs <;> exact ⟨_, _, rfl⟩

/-- What `changeResolution` does to the object: nothing without a query, and
with a query (which needs an empty cache) it stores what the driver returned. -/
theorem changeResolution_self {F σ : Type} (driver_ : Channel F σ) (self : Reconfigure)
    (dev : σ) (cfg : ImageConfig F) (width height disparities : Int) :
    ((self.changeResolution driver_ dev cfg width height disparities).self = self ∧
      (self.changeResolution driver_ dev cfg width height disparities).calls = []) ∨
    (self.device_modes_ = [] ∧
      (self.changeResolution driver_ dev cfg width height disparities).self =
        { self with device_modes_ := (driver_.getDeviceModes dev).2.1 } ∧
      (self.changeResolution driver_ dev cfg width height disparities).calls =
        [Call.getDeviceModes (driver_.getDeviceModes dev).1]) := by
  simp only [Reconfigure.changeResolution]
  split_ifs with h1 h2 h3 h4 h5
  · exact Or.inl ⟨rfl, rfl⟩
  · exact Or.inr ⟨List.isEmpty_iff.1 h2, rfl, rfl⟩
  · exact Or.inr ⟨List.isEmpty_iff.1 h2, rfl, rfl⟩
  · exact Or.inr ⟨List.isEmpty_iff.1 h2, rfl, rfl⟩
  · exact Or.inl ⟨rfl, rfl⟩
  · exact Or.inl ⟨rfl, rfl⟩

/-- The object after a `configureCamera` cycle differs from the object before
it in the mode cache and the two feature flags at most. -/
theorem configureCamera_frame {F σ : Type} (fl : FloatOps F) (driver_ : Channel F σ)
    (callback : Option (σ → σ)) (config : DesiredConfig F) (self : Reconfigure) (dev : σ) :
    ∃ modes m l, (self.configureCamera fl driver_ callback config dev).1 =
      { self with device_modes_ := modes, motor_supported_ := m, lighting_supported_ := l } := by
  have hcr : ∃ modes, (self.resolutionDecision driver_ config dev).self =
      { self with device_modes_ := modes } := by
    rcases changeResolution_self driver_ self (driver_.getImageConfig dev).2.2
      (driver_.getImageConfig dev).2.1 (sscanf_dxdxd (c_str config.resolution)).width
      (sscanf_dxdxd (c_str config.resolution)).height
      (sscanf_dxdxd (c_str config.resolution)).disparities with ⟨h, -⟩ | ⟨-, h, -⟩
    · exact ⟨self.device_modes_, h⟩
    · exact ⟨_, h⟩
  obtain ⟨modes, hmodes⟩ := hcr
  rcases configureCamera_shape fl driver_ callback config self dev with
    ⟨-, hc⟩ | ⟨-, -, -, st, dev2, hs, -⟩ | ⟨-, m1, st, -, hs, -⟩ | ⟨-, m1, st, -, hs, -⟩ |
    ⟨-, m1, st, st2, dev2, hs, -⟩
  · exact ⟨self.device_modes_, self.motor_supported_, self.lighting_supported_, by rw [hc]⟩
  · obtain ⟨m, l, hp⟩ := sendPeripherals_frame fl driver_ config
      (self.resolutionDecision driver_ config dev).self dev2
    exact ⟨modes, m, l, by rw [hs, hp, hmodes]⟩
  · exact ⟨modes, self.motor_supported_, self.lighting_supported_, by rw [hs, hmodes]⟩
  · exact ⟨modes, self.motor_supported_, self.lighting_supported_, by rw [hs, hmodes]⟩
  · obtain ⟨m, l, hp⟩ := sendPeripherals_frame fl driver_ config
      (self.resolutionDecision driver_ config dev).self dev2
    exact ⟨modes, m, l, by rw [hs, hp, hmodes]⟩

/-- The mode query of one `configureCamera` cycle: either none is issued and
the mode cache stays as it was, or the cache was empty, one query is issued,
and the cache holds what the driver returned. -/
theorem configureCamera_modes {F σ : Type} (fl : FloatOps F) (driver_ : Channel F σ)
    (callback : Option (σ → σ)) (config : DesiredConfig F) (self : Reconfigure) (dev : σ) :
    (issued CallKind.getDeviceModes
        (self.configureCamera fl driver_ callback config dev).2.2 = [] ∧
      (self.configureCamera fl driver_ callback config dev).1.device_modes_ =
        self.device_modes_) ∨
    (self.device_modes_ = [] ∧
      issued CallKind.getDeviceModes
          (self.configureCamera fl driver_ callback config dev).2.2 =
        [Call.getDeviceModes (driver_.getDeviceModes (driver_.getImageConfig dev).2.2).1] ∧
      (self.configureCamera fl driver_ callback config dev).1.device_modes_ =
        (driver_.getDeviceModes (driver_.getImageConfig dev).2.2).2.1) := by
  have hcr := changeResolution_self driver_ self (driver_.getImageConfig dev).2.2
    (driver_.getImageConfig dev).2.1 (sscanf_dxdxd (c_str config.resolution)).width
    (sscanf_dxdxd (c_str config.resolution)).height
    (sscanf_dxdxd (c_str config.resolution)).disparities
  have hcr2 : ((self.resolutionDecision driver_ config dev).self.device_modes_ =
        self.device_modes_ ∧
      issued CallKind.getDeviceModes (self.resolutionDecision driver_ config dev).calls = []) ∨
      (self.device_modes_ = [] ∧
        (self.resolutionDecision driver_ config dev).self.device_modes_ =
          (driver_.getDeviceModes (driver_.getImageConfig dev).2.2).2.1 ∧
        issued CallKind.getDeviceModes (self.resolutionDecision driver_ config dev).calls =
          [Call.getDeviceModes (driver_.getDeviceModes (driver_.getImageConfig dev).2.2).1]) := by
    unfold Reconfigure.resolutionDecision
    rcases hcr with ⟨h1, h2⟩ | ⟨h0, h1, h2⟩
    · exact Or.inl ⟨by rw [h1], by rw [h2]; rfl⟩
    · exact Or.inr ⟨h0, by rw [h1], by rw [h2]; simp [issued_cons, issued_nil, Call.kind]⟩
  have hsp : ∀ dev2, (sendPeripherals fl driver_ config
      (self.resolutionDecision driver_ config dev).self dev2).1.device_modes_ =
      (self.resolutionDecision driver_ config dev).self.device_modes_ := by
    intro dev2
    obtain ⟨m, l, hp⟩ := sendPeripherals_frame fl driver_ config
      (self.resolutionDecision driver_ config dev).self dev2
    rw [hp]
  rcases configureCamera_shape fl driver_ callback config self dev with
    ⟨-, hc⟩ | ⟨-, -, -, st, dev2, hs, hc⟩ | ⟨-, m1, st, -, hs, hc⟩ | ⟨-, m1, st, -, hs, hc⟩ |
    ⟨-, m1, st, st2, dev2, hs, hc⟩
  · left
    rw [hc]
    exact ⟨by simp [issued_cons, issued_nil, Call.kind], rfl⟩
  · have hi : issued CallKind.getDeviceModes
          (self.configureCamera fl driver_ callback config dev).2.2 =
        issued CallKind.getDeviceModes (self.resolutionDecision driver_ config dev).calls := by
      rw [hc]
      simp [issued_append, issued_cons, issued_nil, Call.kind, issued_sendPeripherals]
    rw [hi, hs, hsp]
    rcases hcr2 with ⟨h1, h2⟩ | ⟨h0, h1, h2⟩
    · exact Or.inl ⟨h2, h1⟩
    · exact Or.inr ⟨h0, h2, h1⟩
  · have hi : issued CallKind.getDeviceModes
          (self.configureCamera fl driver_ callback config dev).2.2 =
        issued CallKind.getDeviceModes (self.resolutionDecision driver_ config dev).calls := by
      rw [hc]
      simp [issued_append, issued_cons, issued_nil, Call.kind]
    rw [hi, hs]
    rcases hcr2 with ⟨h1, h2⟩ | ⟨h0, h1, h2⟩
    · exact Or.inl ⟨h2, h1⟩
    · exact Or.inr ⟨h0, h2, h1⟩
  · have hi : issued CallKind.getDeviceModes
          (self.configureCamera fl driver_ callback config dev).2.2 =
        issued CallKind.getDeviceModes (self.resolutionDecision driver_ config dev).calls := by
      rw [hc]
      simp [issued_append, issued_cons, issued_nil, Call.kind]
    rw [hi, hs]
    rcases hcr2 with ⟨h1, h2⟩ | ⟨h0, h1, h2⟩
    · exact Or.inl ⟨h2, h1⟩
    · exact Or.inr ⟨h0, h2, h1⟩
  · have hi : issued CallKind.getDeviceModes
          (self.configureCamera fl driver_ callback config dev).2.2 =
        issued CallKind.getDeviceModes (self.resolutionDecision driver_ config dev).calls := by
      rw [hc]
      simp [issued_append, issued_cons, issued_nil, Call.kind, issued_sendPeripherals,
        issued_callbackCalls_of_ne]
    rw [hi, hs, hsp]
    rcases hcr2 with ⟨h1, h2⟩ | ⟨h0, h1, h2⟩
    · exact Or.inl ⟨h2, h1⟩
    · exact Or.inr ⟨h0, h2, h1⟩

/-- An event is the camera cycle alone through a StereoOnly schema, and the
camera cycle followed by the IMU cycle through any other schema. -/
theorem callback_cases {F σ : Type} (fl : FloatOps F) (driver_ : Channel F σ)
    (callback : Option (σ → σ)) (schema : Schema) (config : DesiredConfig F)
    (self : Reconfigure) (dev : σ) :
    (schema.variant.1 = Variant.StereoOnly ∧
      self.callback fl driver_ callback schema config dev =
        self.configureCamera fl driver_ callback config dev) ∨
    (schema.variant.1 ≠ Variant.StereoOnly ∧
      self.callback fl driver_ callback schema config dev =
        (((self.configureCamera fl driver_ callback config dev).1.configureImu driver_ config
            (self.configureCamera fl driver_ callback config dev).2.1).1,
          ((self.configureCamera fl driver_ callback config dev).1.configureImu driver_ config
            (self.configureCamera fl driver_ callback config dev).2.1).2.1,
          (self.configureCamera fl driver_ callback config dev).2.2 ++
            ((self.configureCamera fl driver_ callback config dev).1.configureImu driver_
              config (self.configureCamera fl driver_ callback config dev).2.1).2.2)) := by
  cases schema
  case sl_bm_cmv2000 => exact Or.inl ⟨rfl, rfl⟩
  case sl_bm_cmv4000 => exact Or.inl ⟨rfl, rfl⟩
  all_goals exact Or.inr ⟨by decide, rfl⟩

theorem callback_modes {F σ : Type} (fl : FloatOps F) (driver_ : Channel F σ)
    (callback : Option (σ → σ)) (schema : Schema) (config : DesiredConfig F)
    (self : Reconfigure) (dev : σ) :
    (issued CallKind.getDeviceModes
        (self.callback fl driver_ callback schema config dev).2.2 = [] ∧
      (self.callback fl driver_ callback schema config dev).1.device_modes_ =
        self.device_modes_) ∨
    (self.device_modes_ = [] ∧
      issued CallKind.getDeviceModes
          (self.callback fl driver_ callback schema config dev).2.2 =
        [Call.getDeviceModes (driver_.getDeviceModes (driver_.getImageConfig dev).2.2).1] ∧
      (self.callback fl driver_ callback schema config dev).1.device_modes_ =
        (driver_.getDeviceModes (driver_.getImageConfig dev).2.2).2.1) := by
  obtain ⟨extra, he, hx, -, -, hd⟩ :=
    callback_decompose fl driver_ callback schema config self dev
  have hxn : issued CallKind.getDeviceModes extra = [] := by
    rw [issued_eq_nil_iff]
    intro c hc hk
    rcases hx c hc with h | h <;> rw [hk] at h <;> cases h
  rw [he, issued_append, hxn, List.append_nil, hd]
  exact configureCamera_modes fl driver_ callback config self dev

theorem specUpdatedCache_ne_nil {F : Type} (config : DesiredConfig F)
    (cache : List ImuConfig) (h : cache ≠ []) : specUpdatedCache config cache ≠ [] := by
  unfold specUpdatedCache
  simpa using h

/-- A populated IMU cache stays populated over `applyImu` unless a write
fails. -/
theorem applyImu_keeps_cache {F σ : Type} (driver_ : Channel F σ) (config : DesiredConfig F)
    (self : Reconfigure) (dev : σ) (hne : self.imu_configs_ ≠ [])
    (hok : ∀ p n l st, Call.setImuConfig p n l st ∈ (applyImu driver_ config self dev).2.2 →
      st = Status.Ok) :
    (applyImu driver_ config self dev).1.imu_configs_ ≠ [] := by
  have hspec := imuLoop_eq_spec config self.imu_configs_ []
  have hl : (imuLoop config self.imu_configs_ []).1 ≠ [] := by
    rw [hspec]
    exact specUpdatedCache_ne_nil config _ hne
  simp only [applyImu] at hok ⊢
  split_ifs at hok ⊢ with h1 h2
  · exfalso
    exact h2 (hok _ _ _ _ (List.mem_singleton.2 rfl))
  · exact hl
  · exact hl

theorem issued_applyImu {F σ : Type} (driver_ : Channel F σ) (config : DesiredConfig F)
    (self : Reconfigure) (dev : σ) (k : CallKind) (hk : k ≠ CallKind.setImuConfig) :
    issued k (applyImu driver_ config self dev).2.2 = [] := by
  rw [issued_eq_nil_iff]
  intro c hc h
  exact hk (h ▸ (applyImu_frame driver_ config self dev).2.2.2 c hc)

/-- The IMU query of one `configureImu` call: with a populated cache none is
issued; with an empty cache exactly one is issued; and the cache is populated
afterwards when it was before, or when the query returned Ok with at least
one sensor, provided no write of the call failed. -/
theorem configureImu_query {F σ : Type} (driver_ : Channel F σ) (config : DesiredConfig F)
    (self : Reconfigure) (dev : σ) :
    (self.imu_configs_ ≠ [] →
      issued CallKind.getImuConfig (self.configureImu driver_ config dev).2.2 = [] ∧
      ((∀ p n l st, Call.setImuConfig p n l st ∈
          (self.configureImu driver_ config dev).2.2 → st = Status.Ok) →
        (self.configureImu driver_ config dev).1.imu_configs_ ≠ [])) ∧
    (self.imu_configs_ = [] →
      issued CallKind.getImuConfig (self.configureImu driver_ config dev).2.2 =
        [Call.getImuConfig (driver_.getImuConfig dev).1] ∧
      ((driver_.getImuConfig dev).1 = Status.Ok → (driver_.getImuConfig dev).2.2.1 ≠ [] →
        (∀ p n l st, Call.setImuConfig p n l st ∈
          (self.configureImu driver_ config dev).2.2 → st = Status.Ok) →
        (self.configureImu driver_ config dev).1.imu_configs_ ≠ [])) := by
  constructor
  · intro hne
    have h : self.configureImu driver_ config dev = applyImu driver_ config self dev := by
      simp only [Reconfigure.configureImu, List.isEmpty_iff, hne, if_false]
    rw [h]
    exact ⟨issued_applyImu driver_ config self dev _ (by decide),
      applyImu_keeps_cache driver_ config self dev hne⟩
  · intro he
    by_cases hq : (driver_.getImuConfig dev).1 = Status.Ok
    · have h : self.configureImu driver_ config dev =
          ((applyImu driver_ config
              { self with imu_samples_per_message_ := (driver_.getImuConfig dev).2.1,
                          imu_configs_ := (driver_.getImuConfig dev).2.2.1 }
              (driver_.getImuConfig dev).2.2.2).1,
            (applyImu driver_ config
              { self with imu_samples_per_message_ := (driver_.getImuConfig dev).2.1,
                          imu_configs_ := (driver_.getImuConfig dev).2.2.1 }
              (driver_.getImuConfig dev).2.2.2).2.1,
            Call.getImuConfig (driver_.getImuConfig dev).1 ::
              (applyImu driver_ config
                { self with imu_samples_per_message_ := (driver_.getImuConfig dev).2.1,
                            imu_configs_ := (driver_.getImuConfig dev).2.2.1 }
                (driver_.getImuConfig dev).2.2.2).2.2) := by
        simp only [Reconfigure.configureImu, List.isEmpty_iff, he, hq, if_true, ne_eq,
          not_true_eq_false, if_false]
        rfl
      rw [h]
      refine ⟨?_, fun _ hlist hok => ?_⟩
      · simp only [issued_cons, Call.kind, if_true, issued_applyImu _ _ _ _ _
          (show CallKind.getImuConfig ≠ CallKind.setImuConfig by decide)]
      · exact applyImu_keeps_cache driver_ config _ _ hlist
          (fun p n l st hm => hok p n l st (List.mem_cons_of_mem _ hm))
    · have h : self.configureImu driver_ config dev =
          ({ self with imu_samples_per_message_ := (driver_.getImuConfig dev).2.1,
                       imu_configs_ := (driver_.getImuConfig dev).2.2.1 },
            (driver_.getImuConfig dev).2.2.2,
            [Call.getImuConfig (driver_.getImuConfig dev).1]) := by
        simp only [Reconfigure.configureImu, List.isEmpty_iff, he, hq, if_true, ne_eq,
          not_false_eq_true]
      rw [h]
      exact ⟨by simp [issued_cons, issued_nil, Call.kind], fun h => absurd h hq⟩

theorem issued_configureCamera_imu {F σ : Type} (fl : FloatOps F) (driver_ : Channel F σ)
    (callback : Option (σ → σ)) (config : DesiredConfig F) (self : Reconfigure) (dev : σ)
    (k : CallKind) (hk : k = CallKind.getImuConfig ∨ k = CallKind.setImuConfig) :
    issued k (self.configureCamera fl driver_ callback config dev).2.2 = [] := by
  have hkc : ∀ k2 : CallKind, k2 ≠ CallKind.getDeviceModes →
      issued k2 (self.resolutionDecision driver_ config dev).calls = [] :=
    fun k2 h => issued_changeResolution driver_ self _ _ _ _ _ k2 h
  rcases configureCamera_shape fl driver_ callback config self dev with
    ⟨-, hc⟩ | ⟨-, -, -, st, dev2, -, hc⟩ | ⟨-, m1, st, -, -, hc⟩ | ⟨-, m1, st, -, -, hc⟩ |
    ⟨-, m1, st, st2, dev2, -, hc⟩
  all_goals
    rw [hc]
    rcases hk with rfl | rfl <;>
      simp [issued_append, issued_cons, issued_nil, Call.kind, hkc, issued_sendPeripherals,
        issued_callbackCalls_of_ne]

/-- The IMU query of one event. -/
theorem callback_imu_query {F σ : Type} (fl : FloatOps F) (driver_ : Channel F σ)
    (callback : Option (σ → σ)) (schema : Schema) (config : DesiredConfig F)
    (self : Reconfigure) (dev : σ) :
    (self.imu_configs_ ≠ [] →
      issued CallKind.getImuConfig
        (self.callback fl driver_ callback schema config dev).2.2 = [] ∧
      ((∀ p n l st, Call.setImuConfig p n l st ∈
          (self.callback fl driver_ callback schema config dev).2.2 → st = Status.Ok) →
        (self.callback fl driver_ callback schema config dev).1.imu_configs_ ≠ [])) ∧
    (issued CallKind.getImuConfig
      (self.callback fl driver_ callback schema config dev).2.2).length ≤ 1 ∧
    (issued CallKind.getImuConfig
        (self.callback fl driver_ callback schema config dev).2.2 ≠ [] →
      self.imu_configs_ = [] ∧
      ((driver_.getImuConfig (self.configureCamera fl driver_ callback config dev).2.1).1
          = Status.Ok →
        (driver_.getImuConfig (self.configureCamera fl driver_ callback config dev).2.1).2.2.1
          ≠ [] →
        (∀ p n l st, Call.setImuConfig p n l st ∈
          (self.callback fl driver_ callback schema config dev).2.2 → st = Status.Ok) →
        (self.callback fl driver_ callback schema config dev).1.imu_configs_ ≠ [])) := by
  have hcam : (self.configureCamera fl driver_ callback config dev).1.imu_configs_ =
      self.imu_configs_ := by
    obtain ⟨modes, m, l, h⟩ := configureCamera_frame fl driver_ callback config self dev
    rw [h]
  have hnone := issued_configureCamera_imu fl driver_ callback config self dev
    CallKind.getImuConfig (Or.inl rfl)
  obtain ⟨q1, q2⟩ := configureImu_query driver_ config
    (self.configureCamera fl driver_ callback config dev).1
    (self.configureCamera fl driver_ callback config dev).2.1
  rw [hcam] at q1 q2
  rcases callback_cases fl driver_ callback schema config self dev with ⟨-, h⟩ | ⟨-, h⟩
  · rw [h, hnone, hcam]
    exact ⟨fun hne => ⟨rfl, fun _ => hne⟩, by simp, fun hx => absurd rfl hx⟩
  · rw [h]
    simp only [issued_append, hnone, List.nil_append]
    refine ⟨fun hne => ⟨(q1 hne).1, fun hok => (q1 hne).2
      (fun p n l st hm => hok p n l st (List.mem_append_right _ hm))⟩, ?_, fun hx => ?_⟩
    · by_cases he : self.imu_configs_ = []
      · rw [(q2 he).1]; simp
      · rw [(q1 he).1]; simp
    · by_cases he : self.imu_configs_ = []
      · exact ⟨he, fun hq hl hok => (q2 he).2 hq hl
          (fun p n l st hm => hok p n l st (List.mem_append_right _ hm))⟩
      · exact absurd (q1 he).1 hx

/-- With a populated mode cache no sequence of events issues the mode query. -/
theorem run_modes {F σ : Type} (fl : FloatOps F) (driver_ : Channel F σ)
    (callback : Option (σ → σ)) (schema : Schema) (configs : List (DesiredConfig F)) :
    ∀ (self : Reconfigure) (dev : σ), self.device_modes_ ≠ [] →
      issued CallKind.getDeviceModes
        (Reconfigure.run fl driver_ callback schema configs self dev).2.2 = [] := by
  induction configs with
  | nil => intro self dev _; rfl
  | cons config rest ih =>
    intro self dev hne
    simp only [Reconfigure.run, issued_append]
    rcases callback_modes fl driver_ callback schema config self dev with ⟨h1, h2⟩ | ⟨h0, -, -⟩
    · rw [h1, ih _ _ (by rw [h2]; exact hne)]; rfl
    · exact absurd h0 hne

/-- With a populated IMU cache no sequence of events issues the IMU query
unless an IMU write fails. -/
theorem run_imu {F σ : Type} (fl : FloatOps F) (driver_ : Channel F σ)
    (callback : Option (σ → σ)) (schema : Schema) (configs : List (DesiredConfig F)) :
    ∀ (self : Reconfigure) (dev : σ), self.imu_configs_ ≠ [] →
      (∀ p n l st, Call.setImuConfig p n l st ∈
        (Reconfigure.run fl driver_ callback schema configs self dev).2.2 → st = Status.Ok) →
      issued CallKind.getImuConfig
        (Reconfigure.run fl driver_ callback schema configs self dev).2.2 = [] := by
  induction configs with
  | nil => intro self dev _ _; rfl
  | cons config rest ih =>
    intro self dev hne hok
    simp only [Reconfigure.run] at hok
    simp only [Reconfigure.run, issued_append]
    obtain ⟨h1, -, -⟩ := callback_imu_query fl driver_ callback schema config self dev
    have hkeep := (h1 hne).2 (fun p n l st hm => hok p n l st (List.mem_append_left _ hm))
    rw [(h1 hne).1, ih _ _ hkeep (fun p n l st hm => hok p n l st (List.mem_append_right _ hm))]
    rfl

/-- C11 as stated fails: a mode query that returns Ok with an empty table is
repeated by the next event, and an IMU query that returned Ok is repeated
after a failed IMU write has cleared the cache. -/
theorem successful_queries_are_repeated :
    issued CallKind.getDeviceModes
      (Reconfigure.run symbolicOps noModes.driver none Schema.sl_bm_cmv2000
        [desired "1024x544x128", desired "1024x544x128"] Reconfigure.init 0).2.2 =
      [Call.getDeviceModes Status.Ok, Call.getDeviceModes Status.Ok] ∧
    issued CallKind.getImuConfig
      (Reconfigure.run symbolicOps imuWriteFails.driver none Schema.sl_bm_cmv2000_imu
        [desired "800x544x128", desired "800x544x128"] Reconfigure.init 0).2.2 =
      [Call.getImuConfig Status.Ok, Call.getImuConfig Status.Ok] := by
  decide

/-- C11, amended: a query is repeated only while its cache is empty. Over
every sequence of events, `getDeviceModes` is not issued once the mode cache
is populated, and `getImuConfig` is not issued once the IMU cache is
populated unless a `setImuConfig` fails. One event issues each query at most
once and only on an empty cache; after a mode query the mode cache holds what
the driver returned, and after an IMU query that returned Ok with at least one
sensor the IMU cache is populated unless a write of that event failed. -/
theorem queries_repeat_only_on_empty_cache {F σ : Type} (fl : FloatOps F)
    (driver_ : Channel F σ) (callback : Option (σ → σ)) (schema : Schema)
    (configs : List (DesiredConfig F)) (config : DesiredConfig F) (self : Reconfigure)
    (dev : σ) :
    (self.device_modes_ ≠ [] →
      issued CallKind.getDeviceModes
        (Reconfigure.run fl driver_ callback schema configs self dev).2.2 = []) ∧
    (self.imu_configs_ ≠ [] →
      (∀ p n l st, Call.setImuConfig p n l st ∈
        (Reconfigure.run fl driver_ callback schema configs self dev).2.2 → st = Status.Ok) →
      issued CallKind.getImuConfig
        (Reconfigure.run fl driver_ callback schema configs self dev).2.2 = []) ∧
    ((issued CallKind.getDeviceModes
        (self.callback fl driver_ callback schema config dev).2.2).length ≤ 1 ∧
      (issued CallKind.getDeviceModes
          (self.callback fl driver_ callback schema config dev).2.2 ≠ [] →
        self.device_modes_ = [] ∧
        (self.callback fl driver_ callback schema config dev).1.device_modes_ =
          (driver_.getDeviceModes (driver_.getImageConfig dev).2.2).2.1)) ∧
    ((issued CallKind.getImuConfig
        (self.callback fl driver_ callback schema config dev).2.2).length ≤ 1 ∧
      (issued CallKind.getImuConfig
          (self.callback fl driver_ callback schema config dev).2.2 ≠ [] →
        self.imu_configs_ = [] ∧
        ((driver_.getImuConfig (self.configureCamera fl driver_ callback config dev).2.1).1
            = Status.Ok →
          (driver_.getImuConfig
            (self.configureCamera fl driver_ callback config dev).2.1).2.2.1 ≠ [] →
          (∀ p n l st, Call.setImuConfig p n l st ∈
            (self.callback fl driver_ callback schema config dev).2.2 → st = Status.Ok) →
          (self.callback fl driver_ callback schema config dev).1.imu_configs_ ≠ []))) := by
  refine ⟨run_modes fl driver_ callback schema configs self dev,
    run_imu fl driver_ callback schema configs self dev, ?_, ?_⟩
  · rcases callback_modes fl driver_ callback schema config self dev with
      ⟨h1, -⟩ | ⟨h0, h1, h2⟩
    · rw [h1]
      exact ⟨by simp, fun h => absurd rfl h⟩
    · rw [h1]
      exact ⟨by simp, fun _ => ⟨h0, h2⟩⟩
  · obtain ⟨-, h2, h3⟩ := callback_imu_query fl driver_ callback schema config self dev
    exact ⟨h2, h3⟩

/-- C11, amended, on a healthy sensor: the first event fills both caches, and
four more events issue neither query again. -/
theorem queries_repeat_only_on_empty_cache_witness :
    (Reconfigure.init.callback symbolicOps healthy.driver none Schema.sl_bm_cmv2000_imu
      (desired "1024x544x128") 0).2.2.map Call.kind =
      [CallKind.getImageConfig, CallKind.getDeviceModes, CallKind.getEnabledStreams,
        CallKind.stopStreams, CallKind.setImageConfig, CallKind.startStreams,
        CallKind.setMotorSpeed, CallKind.setLightingConfig,
        CallKind.networkTimeSynchronization, CallKind.getImuConfig,
        CallKind.setImuConfig] ∧
    issued CallKind.getDeviceModes
      (Reconfigure.run symbolicOps healthy.driver none Schema.sl_bm_cmv2000_imu
        [desired "2048x1088x64", desired "1x1x1", desired "1024x544x128", desired "7x7x7"]
        (Reconfigure.init.callback symbolicOps healthy.driver none Schema.sl_bm_cmv2000_imu
          (desired "1024x544x128") 0).1
        (Reconfigure.init.callback symbolicOps healthy.driver none Schema.sl_bm_cmv2000_imu
          (desired "1024x544x128") 0).2.1).2.2 = [] :=
  ⟨by decide,
    (queries_repeat_only_on_empty_cache symbolicOps healthy.driver none
      Schema.sl_bm_cmv2000_imu
      [desired "2048x1088x64", desired "1x1x1", desired "1024x544x128", desired "7x7x7"]
      (desired "1024x544x128")
      (Reconfigure.init.callback symbolicOps healthy.driver none Schema.sl_bm_cmv2000_imu
        (desired "1024x544x128") 0).1
      (Reconfigure.init.callback symbolicOps healthy.driver none Schema.sl_bm_cmv2000_imu
        (desired "1024x544x128") 0).2.1).1 (by decide)⟩

/-! ## Which callback reconciles what -/

/-- C21: an event delivered through a StereoOnly schema
(`callback_sl_bm_cmv2000`, `callback_sl_bm_cmv4000`) issues no `getImuConfig`
and no `setImuConfig` and leaves `imu_samples_per_message_` and
`imu_configs_` as they were; an event delivered through a schema with an IMU
runs `configureCamera` first and then `configureImu`, on the object and the
driver state that `configureCamera` left. -/
theorem callbacks_reconcile_camera_then_imu {F σ : Type} (fl : FloatOps F)
    (driver_ : Channel F σ) (callback : Option (σ → σ)) (config : DesiredConfig F)
    (self : Reconfigure) (dev : σ) :
    (issued CallKind.getImuConfig
        (self.callback_sl_bm_cmv2000 fl driver_ callback config dev).2.2 = [] ∧
      issued CallKind.setImuConfig
        (self.callback_sl_bm_cmv2000 fl driver_ callback config dev).2.2 = [] ∧
      (self.callback_sl_bm_cmv2000 fl driver_ callback config dev).1.imu_samples_per_message_ =
        self.imu_samples_per_message_ ∧
      (self.callback_sl_bm_cmv2000 fl driver_ callback config dev).1.imu_configs_ =
        self.imu_configs_) ∧
    (issued CallKind.getImuConfig
        (self.callback_sl_bm_cmv4000 fl driver_ callback config dev).2.2 = [] ∧
      issued CallKind.setImuConfig
        (self.callback_sl_bm_cmv4000 fl driver_ callback config dev).2.2 = [] ∧
      (self.callback_sl_bm_cmv4000 fl driver_ callback config dev).1.imu_samples_per_message_ =
        self.imu_samples_per_message_ ∧
      (self.callback_sl_bm_cmv4000 fl driver_ callback config dev).1.imu_configs_ =
        self.imu_configs_) ∧
    self.callback_sl_bm_cmv2000_imu fl driver_ callback config dev =
      (((self.configureCamera fl driver_ callback config dev).1.configureImu driver_ config
          (self.configureCamera fl driver_ callback config dev).2.1).1,
        ((self.configureCamera fl driver_ callback config dev).1.configureImu driver_ config
          (self.configureCamera fl driver_ callback config dev).2.1).2.1,
        (self.configureCamera fl driver_ callback config dev).2.2 ++
          ((self.configureCamera fl driver_ callback config dev).1.configureImu driver_ config
            (self.configureCamera fl driver_ callback config dev).2.1).2.2) ∧
    self.callback_sl_bm_cmv4000_imu fl driver_ callback config dev =
      self.callback_sl_bm_cmv2000_imu fl driver_ callback config dev ∧
    self.callback_sl_sgm_cmv2000_imu fl driver_ callback config dev =
      self.callback_sl_bm_cmv2000_imu fl driver_ callback config dev ∧
    self.callback_sl_sgm_cmv4000_imu fl driver_ callback config dev =
      self.callback_sl_bm_cmv2000_imu fl driver_ callback config dev := by
  have hcam : issued CallKind.getImuConfig
        (self.configureCamera fl driver_ callback config dev).2.2 = [] ∧
      issued CallKind.setImuConfig
        (self.configureCamera fl driver_ callback config dev).2.2 = [] ∧
      (self.configureCamera fl driver_ callback config dev).1.imu_samples_per_message_ =
        self.imu_samples_per_message_ ∧
      (self.configureCamera fl driver_ callback config dev).1.imu_configs_ =
        self.imu_configs_ := by
    obtain ⟨modes, m, l, h⟩ := configureCamera_frame fl driver_ callback config self dev
    refine ⟨issued_configureCamera_imu fl driver_ callback config self dev _ (Or.inl rfl),
      issued_configureCamera_imu fl driver_ callback config self dev _ (Or.inr rfl), ?_, ?_⟩
    · rw [h]
    · rw [h]
  exact ⟨hcam, hcam, rfl, rfl, rfl, rfl⟩

/-- C21, on a healthy sensor: through `callback_sl_bm_cmv2000` no IMU call is
issued, through `callback_sl_bm_cmv2000_imu` the IMU calls follow the camera
calls. -/
theorem callbacks_reconcile_camera_then_imu_witness :
    (Reconfigure.init.callback_sl_bm_cmv2000 symbolicOps healthy.driver none
      (desired "800x544x128") 0).2.2.map Call.kind =
      [CallKind.getImageConfig, CallKind.setImageConfig, CallKind.setMotorSpeed,
        CallKind.setLightingConfig, CallKind.networkTimeSynchronization] ∧
    (Reconfigure.init.callback_sl_bm_cmv2000_imu symbolicOps healthy.driver none
      (desired "800x544x128") 0).2.2.map Call.kind =
      [CallKind.getImageConfig, CallKind.setImageConfig, CallKind.setMotorSpeed,
        CallKind.setLightingConfig, CallKind.networkTimeSynchronization,
        CallKind.getImuConfig, CallKind.setImuConfig] ∧
    issued CallKind.getImuConfig
      (Reconfigure.init.callback_sl_bm_cmv2000 symbolicOps healthy.driver none
        (desired "800x544x128") 0).2.2 = [] :=
  ⟨by decide, by decide,
    (callbacks_reconcile_camera_then_imu symbolicOps healthy.driver none
      (desired "800x544x128") Reconfigure.init 0).1.1⟩

end multisense_ros

namespace SaveImageUtility

/-! ## `savePgm` -/

theorem textBytes_append (a b : String) : textBytes (a ++ b) = textBytes a ++ textBytes b := by
  simp [textBytes]

/-- One iteration of the 16-bit loop writes the pixel it reads with its most
significant byte first, whatever the byte order of the host. -/
theorem writeU16_htons_loadU16 (littleEndian : Bool) (dataP : Nat → Nat) (i : Nat) :
    writeU16 littleEndian (htons littleEndian (loadU16 littleEndian dataP i)) =
      [loadU16 littleEndian dataP i / 256, loadU16 littleEndian dataP i % 256] := by
  have h0 : dataP (2 * i) % 256 < 256 := Nat.mod_lt _ (by decide)
  have h1 : dataP (2 * i + 1) % 256 < 256 := Nat.mod_lt _ (by decide)
  cases littleEndian
  · simp only [writeU16, htons, loadU16, Bool.false_eq_true, if_false, List.cons.injEq,
      and_true]
    generalize dataP (2 * i) % 256 = a at h0 ⊢
    generalize dataP (2 * i + 1) % 256 = b at h1 ⊢
    have e1 : (256 * a + b) % 65536 = 256 * a + b := by omega
    rw [e1]
    have e2 : (256 * a + b) / 256 = a := by omega
    rw [e2]
    exact ⟨by omega, rfl⟩
  · simp only [writeU16, htons, loadU16, if_true, List.cons.injEq, and_true]
    generalize dataP (2 * i) % 256 = a at h0 ⊢
    generalize dataP (2 * i + 1) % 256 = b at h1 ⊢
    have e2 : (a + 256 * b) / 256 = b := by omega
    have e3 : (a + 256 * b) % 256 = a := by omega
    rw [e2, e3]
    have e4 : (a * 256 + b % 256) % 256 = b := by omega
    have e5 : (a * 256 + b % 256) / 256 % 256 = a := by omega
    exact ⟨e4, e5⟩

theorem loadU16_lt (littleEndian : Bool) (dataP : Nat → Nat) (i : Nat) :
    loadU16 littleEndian dataP i < 65536 := by
  have h0 : dataP (2 * i) % 256 < 256 := Nat.mod_lt _ (by decide)
  have h1 : dataP (2 * i + 1) % 256 < 256 := Nat.mod_lt _ (by decide)
  cases littleEndian
  · simp only [loadU16, Bool.false_eq_true, if_false]; omega
  · simp only [loadU16, if_true]; omega

/-- The 16-bit loop from index `i` on, as one list expression. -/
theorem pixelLoop_eq (littleEndian : Bool) (dataP : Nat → Nat) (n : Nat) :
    ∀ i, pixelLoop littleEndian dataP n i =
      (List.range n).flatMap (fun k =>
        [loadU16 littleEndian dataP (i + k) / 256, loadU16 littleEndian dataP (i + k) % 256]) := by
  induction n with
  | zero => intro i; rfl
  | succ n ih =>
    intro i
    rw [pixelLoop, writeU16_htons_loadU16, ih, List.range_succ_eq_map]
    simp only [List.flatMap_cons, Nat.add_zero, List.flatMap_map, List.cons_append,
      List.nil_append, List.cons.injEq, true_and]
    congr 1
    funext k
    simp only [Function.comp, Nat.succ_eq_add_one]
    rw [show i + 1 + k = i + (k + 1) by omega]

/-- C22: for an output file that opens, `savePgm` with 8 bits per pixel writes
the header "P5\n<width> <height>\n255\n" and then the first
`width * height mod 2^32` bytes of the data unchanged, and with 16 bits per
pixel it writes the header "P5\n<width> <height>\n65535\n" and then, for each
of the first `width * height mod 2^32` pixels, the two bytes `v / 256` and
`v % 256` of the pixel value `v`, on a host of either byte order; in both
cases it returns true. -/
theorem savePgm_writes_pgm (littleEndian : Bool) (width height : Nat) (dataP : Nat → Nat) :
    savePgm true littleEndian width height 8 dataP =
      (true,
        textBytes ("P5\n" ++ toString width ++ " " ++ toString height ++ "\n255\n") ++
          (List.range (width * height % 2 ^ 32)).map (fun i => dataP i % 256)) ∧
    savePgm true littleEndian width height 16 dataP =
      (true,
        textBytes ("P5\n" ++ toString width ++ " " ++ toString height ++ "\n65535\n") ++
          (List.range (width * height % 2 ^ 32)).flatMap (fun i =>
            [loadU16 littleEndian dataP i / 256, loadU16 littleEndian dataP i % 256])) ∧
    ((List.range (width * height % 2 ^ 32)).map (fun i => dataP i % 256)).length =
      width * height % 2 ^ 32 ∧
    ((List.range (width * height % 2 ^ 32)).flatMap (fun i =>
      [loadU16 littleEndian dataP i / 256, loadU16 littleEndian dataP i % 256])).length =
      2 * (width * height % 2 ^ 32) ∧
    (∀ i, loadU16 littleEndian dataP i / 256 < 256 ∧ loadU16 littleEndian dataP i % 256 < 256 ∧
      loadU16 littleEndian dataP i =
        256 * (loadU16 littleEndian dataP i / 256) + loadU16 littleEndian dataP i % 256) := by
  have h255 : textBytes "\n255\n" =
      textBytes "\n" ++ textBytes (toString (0xFF : Nat)) ++ textBytes "\n" := by decide
  have h65535 : textBytes "\n65535\n" =
      textBytes "\n" ++ textBytes (toString (0xFFFF : Nat)) ++ textBytes "\n" := by decide
  refine ⟨?_, ?_, by simp, ?_, fun i => ?_⟩
  · simp only [savePgm, insertHeader, writeData, textBytes_append, h255, Nat.mul_comm height]
    simp
  · have hloop := pixelLoop_eq littleEndian dataP (width * height % 2 ^ 32) 0
    simp only [Nat.zero_add] at hloop
    simp only [savePgm, insertHeader, textBytes_append, h65535, Nat.mul_comm height, hloop]
    simp
  · rw [List.length_flatMap]
    simp [Function.comp_def]
    omega
  · have := loadU16_lt littleEndian dataP i
    omega

/-- C22, on a 2x1 image of 16 bits per pixel on a little-endian host: the
pixels 0x1234 and 0xABCD, stored low byte first, are written high byte first
after the header. -/
theorem savePgm_writes_pgm_witness :
    savePgm true true 2 1 16 (memoryOf [0x34, 0x12, 0xCD, 0xAB]) =
      (true, textBytes "P5\n2 1\n65535\n" ++ [0x12, 0x34, 0xAB, 0xCD]) :=
  (savePgm_writes_pgm true 2 1 (memoryOf [0x34, 0x12, 0xCD, 0xAB])).2.1.trans (by decide)

end SaveImageUtility
